import Mathlib

/-! Biomass boiler controller: air-intake control, relay auto-tuning, safety supervisor.

A shallow embedding of `include/config.h`, `include/pid_autotune.h`,
`include/air_intake.h`, `include/relay.h`, `include/temperature_sensors.h` and the
supervisor part of `src/main.cpp`, followed by theorems about them.

Conventions of the embedding.

* `float` / `double` values are exact rationals (`ℚ`): rounding, infinities and NaN are
  outside the model.  A quotient whose divisor is zero is `0` in the model, where the
  target yields an infinity or NaN.
* `unsigned long` is a natural number; subtraction of two clock readings is taken
  modulo `2^32` (`usub`), as on the 32-bit target.
* `int` values are integers (`Int`); none of the modelled counters can overflow.
* Every call of `millis()` and every sensor conversion is an explicit argument of the
  function that performs it, in call order.
* The pointers `_input` / `_output` that `PIDAutoTune` holds into `AirIntake` are replaced
  by passing the pointed-to values in and the written value out.
-/

namespace Boiler

/-! ## Machine arithmetic and Arduino helpers -/

/-- Number of values of a 32-bit `unsigned long`. -/
def ULONG_RANGE : Nat := 4294967296

/-- Difference `a - b` of 32-bit `unsigned long` operands. -/
def usub (a b : Nat) : Nat :=
  (a % ULONG_RANGE + ULONG_RANGE - b % ULONG_RANGE) % ULONG_RANGE

/-- Arduino `abs(x)`: `((x)>0?(x):-(x))`. -/
def abs (x : ℚ) : ℚ := if x > 0 then x else -x

/-- Arduino `constrain(amt,low,high)`:
`((amt)<(low)?(low):((amt)>(high)?(high):(amt)))`. -/
def constrain (amt low high : Int) : Int :=
  if amt < low then low else if amt > high then high else amt

/-- Arduino `map(x, in_min, in_max, out_min, out_max)`:
`(x - in_min) * (out_max - out_min) / (in_max - in_min) + out_min` with C division. -/
def map (x in_min in_max out_min out_max : Int) : Int :=
  Int.tdiv ((x - in_min) * (out_max - out_min)) (in_max - in_min) + out_min

/-- Conversion of a `double` to `int` (truncation toward zero), as performed when
`setServoPosition(int)` is called with the `double output`. -/
def toInt (x : ℚ) : Int := Int.tdiv x.num x.den

/-! ## `config.h` -/

def DEFAULT_SERVO_MIN : Int := 0
def DEFAULT_SERVO_MAX : Int := 180
def BURNING_TEMP_THRESHOLD : ℚ := 100.0
def BOILER_WATER_TEMP_THRESHOLD : ℚ := 40.0
def BOILER_WATER_CRITICAL_TEMP : ℚ := 90.0
def PID_KP : ℚ := 2.0
def PID_KI : ℚ := 0.1
def PID_KD : ℚ := 1.0
def PID_SAMPLE_TIME : Nat := 1000
def PID_CONTROL_TYPE : Nat := 1
def PID_NOISE_BAND : ℚ := 1.0
def PID_OUTPUT_STEP : ℚ := 50
def DEFAULT_TARGET_BURNING_TEMP : ℚ := 85.0

/-! ## `pid_autotune.h` -/

/-- Enumeration `PIDAutoTune::ControlType`. -/
inductive ControlType where
  | PID_TYPE
  | PI_TYPE
  | P_TYPE
  deriving DecidableEq, Repr

/-- Data members of `PIDAutoTune` (the two pointers apart). -/
structure PIDAutoTune where
  _setpoint : ℚ
  _outputStep : ℚ
  _noiseband : ℚ
  _controlType : ControlType
  _state : Int
  _peakType : Int
  _peakCount : Int
  _lastTime : Nat
  _peaks : List Nat
  _lastInputs : List ℚ
  _peak1 : ℚ
  _peak2 : ℚ
  _kp : ℚ
  _ki : ℚ
  _kd : ℚ
  _initialized : Bool
  _running : Bool
  deriving DecidableEq, Repr

namespace PIDAutoTune

/-- The constructor `PIDAutoTune()`, which runs `reset()`.  `reset` does not assign
`_lastTime`, `_peak1` and `_peak2`; the only instance is a member of the global
`airIntake`, whose storage is zero-initialised, so they are `0`. -/
def reset : PIDAutoTune :=
  { _setpoint := 0
    _outputStep := 10
    _noiseband := 0.5
    _controlType := ControlType.PI_TYPE
    _state := 0
    _peakType := 0
    _peakCount := 0
    _lastTime := 0
    _peaks := List.replicate 4 0
    _lastInputs := List.replicate 10 0
    _peak1 := 0
    _peak2 := 0
    _kp := 0
    _ki := 0
    _kd := 0
    _initialized := false
    _running := false }

/-- Source `init(input, output, setpoint, outputStep, noiseband, controlType)`;
`now` is the value of `millis()`, `input` the value of `*_input`. -/
def init (t : PIDAutoTune) (now : Nat) (input : ℚ) (setpoint outputStep noiseband : ℚ)
    (controlType : ControlType) : PIDAutoTune :=
  { t with
    _setpoint := setpoint
    _outputStep := outputStep
    _noiseband := noiseband
    _controlType := controlType
    _state := 0
    _lastTime := now
    _peak1 := 0
    _peak2 := 0
    _lastInputs := t._lastInputs.set 0 input
    _peakType := 0
    _peakCount := 0
    _initialized := true
    _running := false }

/-- Source `start()`; `now` is the value of `millis()`. -/
def start (t : PIDAutoTune) (now : Nat) : PIDAutoTune :=
  if t._initialized then
    { t with
      _peak1 := 0
      _peak2 := 0
      _peakType := 0
      _peakCount := 0
      _running := true
      _state := 0
      _lastTime := now }
  else t

/-- Source `cancel()`. -/
def cancel (t : PIDAutoTune) : PIDAutoTune :=
  { t with _running := false }

/-- The loop `for (int i = 9; i >= 1; i--) _lastInputs[i] = _lastInputs[i - 1];`
followed by `_lastInputs[0] = refVal;`. -/
def shiftInputs (xs : List ℚ) (refVal : ℚ) : List ℚ :=
  ([9, 8, 7, 6, 5, 4, 3, 2, 1].foldl (fun acc i => acc.set i (acc.getD (i - 1) 0)) xs).set 0 refVal

/-- The loop `for (int i = 1; i < 10; i++)` that clears `isMax` when
`_lastInputs[0] < _lastInputs[i]` and `isMin` when `_lastInputs[0] > _lastInputs[i]`;
the result is `(isMax, isMin)`. -/
def scanExtrema (xs : List ℚ) : Bool × Bool :=
  [1, 2, 3, 4, 5, 6, 7, 8, 9].foldl
    (fun (acc : Bool × Bool) i =>
      (if xs.getD 0 0 < xs.getD i 0 then false else acc.1,
       if xs.getD 0 0 > xs.getD i 0 then false else acc.2))
    (true, true)

/-- The ultimate gain computed by the completing step:
`4.0 * _outputStep / ((0.5 * (_peak1 - _peak2)) * 3.14159)`. -/
def Ku (outputStep peak1 peak2 : ℚ) : ℚ :=
  4.0 * outputStep / ((0.5 * (peak1 - peak2)) * 3.14159)

/-- The ultimate period computed by the completing step:
`(double)(now - _peaks[0]) / 1000.0`. -/
def Tu (now peaks0 : Nat) : ℚ :=
  ((usub now peaks0 : Nat) : ℚ) / 1000.0

/-- Source `compute()`; `now` is the value of `millis()`, `input` the value of `*_input`,
`output` the value of `*_output` on entry.  The result is the tuner after the call, the
value of `*_output` after the call and the returned flag. -/
def compute (t : PIDAutoTune) (now : Nat) (input output : ℚ) : PIDAutoTune × ℚ × Bool :=
  if !t._running then (t, output, false)
  else if usub now t._lastTime < 500 then (t, output, false)
  else
    let t : PIDAutoTune := { t with _lastTime := now }
    let refVal := input
    if t._state = 0 then
      let output := if t._setpoint < refVal then 0 else t._outputStep
      if abs (refVal - t._setpoint) < t._noiseband then
        ({ t with _state := 1 }, (if t._setpoint < refVal then t._outputStep else 0), false)
      else (t, output, false)
    else
      let t : PIDAutoTune := { t with _lastInputs := shiftInputs t._lastInputs refVal }
      let isMax := (scanExtrema t._lastInputs).1
      let isMin := (scanExtrema t._lastInputs).2
      let t : PIDAutoTune :=
        if isMax then
          let t : PIDAutoTune :=
            if t._peakType = -1 then
              { t with _peakCount := t._peakCount + 1, _peak2 := t._peak1, _peak1 := refVal }
            else t
          { t with _peakType := 1 }
        else if isMin then
          let t : PIDAutoTune :=
            if t._peakType = 1 then
              { t with _peakCount := t._peakCount + 1, _peak2 := t._peak1, _peak1 := refVal }
            else t
          { t with _peakType := -1 }
        else t
      if t._peakCount ≥ 4 then
        let Ku := Ku t._outputStep t._peak1 t._peak2
        let Tu := Tu now (t._peaks.getD 0 0)
        let t : PIDAutoTune :=
          match t._controlType with
          | ControlType.PID_TYPE =>
            { t with _kp := 0.6 * Ku, _ki := 1.2 * Ku / Tu, _kd := 0.075 * Ku * Tu }
          | ControlType.PI_TYPE =>
            { t with _kp := 0.45 * Ku, _ki := 0.54 * Ku / Tu, _kd := 0 }
          | ControlType.P_TYPE =>
            { t with _kp := 0.5 * Ku, _ki := 0, _kd := 0 }
        ({ t with _running := false }, output, true)
      else
        let output :=
          if refVal > t._setpoint + t._noiseband ∧ output > 0 then 0
          else if refVal < t._setpoint - t._noiseband ∧ output < t._outputStep then t._outputStep
          else output
        let t : PIDAutoTune :=
          if t._peakCount > 0 ∧ t._peakCount < 4 then
            { t with _peaks := t._peaks.set (t._peakCount - 1).toNat now }
          else t
        (t, output, false)

/-- The part of `compute()` from `_lastTime = now` to the end of the peak bookkeeping of an
oscillation-phase step: the tuner as it stands when `if (_peakCount >= 4)` is evaluated. -/
def recordPeak (t : PIDAutoTune) (now : Nat) (refVal : ℚ) : PIDAutoTune :=
  let t : PIDAutoTune := { t with _lastTime := now }
  let t : PIDAutoTune := { t with _lastInputs := shiftInputs t._lastInputs refVal }
  let isMax := (scanExtrema t._lastInputs).1
  let isMin := (scanExtrema t._lastInputs).2
  if isMax then
    let t : PIDAutoTune :=
      if t._peakType = -1 then
        { t with _peakCount := t._peakCount + 1, _peak2 := t._peak1, _peak1 := refVal }
      else t
    { t with _peakType := 1 }
  else if isMin then
    let t : PIDAutoTune :=
      if t._peakType = 1 then
        { t with _peakCount := t._peakCount + 1, _peak2 := t._peak1, _peak1 := refVal }
      else t
    { t with _peakType := -1 }
  else t

/-- The branch of `compute()` taken when `_peakCount >= 4`: the gains are computed and the
tuner stops. -/
def finish (t : PIDAutoTune) (now : Nat) : PIDAutoTune :=
  let Ku := Ku t._outputStep t._peak1 t._peak2
  let Tu := Tu now (t._peaks.getD 0 0)
  let t : PIDAutoTune :=
    match t._controlType with
    | ControlType.PID_TYPE =>
      { t with _kp := 0.6 * Ku, _ki := 1.2 * Ku / Tu, _kd := 0.075 * Ku * Tu }
    | ControlType.PI_TYPE =>
      { t with _kp := 0.45 * Ku, _ki := 0.54 * Ku / Tu, _kd := 0 }
    | ControlType.P_TYPE =>
      { t with _kp := 0.5 * Ku, _ki := 0, _kd := 0 }
  { t with _running := false }

/-- The command written by the branch of `compute()` taken when `_peakCount < 4`. -/
def relayOutput (t : PIDAutoTune) (refVal output : ℚ) : ℚ :=
  if refVal > t._setpoint + t._noiseband ∧ output > 0 then 0
  else if refVal < t._setpoint - t._noiseband ∧ output < t._outputStep then t._outputStep
  else output

/-- The statement `if (_peakCount > 0 && _peakCount < 4) _peaks[_peakCount - 1] = now;`. -/
def stampPeak (t : PIDAutoTune) (now : Nat) : PIDAutoTune :=
  if t._peakCount > 0 ∧ t._peakCount < 4 then
    { t with _peaks := t._peaks.set (t._peakCount - 1).toNat now }
  else t

/-- Source `getKp()`. -/
def getKp (t : PIDAutoTune) : ℚ := t._kp
/-- Source `getKi()`. -/
def getKi (t : PIDAutoTune) : ℚ := t._ki
/-- Source `getKd()`. -/
def getKd (t : PIDAutoTune) : ℚ := t._kd
/-- Source `isRunning()`. -/
def isRunning (t : PIDAutoTune) : Bool := t._running

end PIDAutoTune

/-- Feeds `compute` one call per element of `samples` (a `millis()` value and the
measured input), threading the tuner and the command output; the result lists the flag
returned by every call. -/
def runTuner (t : PIDAutoTune) (out : ℚ) : List (Nat × ℚ) → PIDAutoTune × ℚ × List Bool
  | [] => (t, out, [])
  | (now, x) :: rest =>
    let r := t.compute now x out
    let r2 := runTuner r.1 r.2.1 rest
    (r2.1, r2.2.1, r.2.2 :: r2.2.2)

/-- A constructed tuner initialised and started at time 0 the way `startAutoTune` does it
with the values of `config.h` (setpoint 85, step 50, noise band 1, PI), the measured
input being 85. -/
def armedTuner : PIDAutoTune :=
  (PIDAutoTune.reset.init 0 85 85 50 1 ControlType.PI_TYPE).start 0

/-- A sampled signal, one sample per second: it enters the noise band, falls to a first
valley of 80, and then alternates 90, 79, 91, 78, so that the fourth confirmed peak is a
minimum. -/
def valleyLastSignal : List (Nat × ℚ) :=
  [(1000, 85), (2000, 84.5), (3000, 84), (4000, 83.5), (5000, 83), (6000, 82.5),
   (7000, 82), (8000, 81.5), (9000, 81), (10000, 80), (11000, 90), (12000, 79),
   (13000, 91), (14000, 78)]

/-- A periodic sampled signal around the setpoint 85 with peak-to-peak amplitude 10 and
period 2000 ms (85, 90, 85, 80, ...), one sample every 500 ms, the cadence of the tuner. -/
def waveSignal : List (Nat × ℚ) :=
  [(500, 85), (1000, 90), (1500, 85), (2000, 80), (2500, 85), (3000, 90), (3500, 85),
   (4000, 80), (4500, 85), (5000, 90), (5500, 85), (6000, 80), (6500, 85), (7000, 90),
   (7500, 85), (8000, 80), (8500, 85), (9000, 90)]

/-- The tuner and the command output after the first seventeen samples of `waveSignal`. -/
def waveBeforeLast : PIDAutoTune × ℚ :=
  ((runTuner armedTuner 0 (waveSignal.take 17)).1, (runTuner armedTuner 0 (waveSignal.take 17)).2.1)

/-! ## The `PID_v1` library

`AirIntake` owns a `PID` object of the Arduino `PID_v1` library, which is not part of the
repository.  `AirIntake` is therefore embedded over an arbitrary implementation of the
library calls it makes; `σ` is the private state of the `PID` object.  The object reads
and writes `input`, `output` and `setpoint` of `AirIntake` through pointers: here the
values are passed in and the new `output` is returned. -/

/-- The `PID_v1` operations called by `AirIntake`. -/
structure PIDLib (σ : Type) where
  /-- Library call `PID(&input, &output, &setpoint, Kp, Ki, Kd, DIRECT)`, given `millis()`. -/
  create : Nat → ℚ → ℚ → ℚ → σ
  /-- Library call `Compute()`, given `millis()`, `input`, `setpoint`, `output`; yields the new
  `output`. -/
  Compute : σ → Nat → ℚ → ℚ → ℚ → σ × ℚ
  /-- Library call `SetTunings(Kp, Ki, Kd)`. -/
  SetTunings : σ → ℚ → ℚ → ℚ → σ
  /-- Library call `SetMode(mode)` with `true` for `AUTOMATIC` and `false` for `MANUAL`, given `input`
  and `output`. -/
  SetMode : σ → Bool → ℚ → ℚ → σ
  /-- Library call `SetSampleTime(ms)`. -/
  SetSampleTime : σ → Nat → σ
  /-- Library call `SetOutputLimits(min, max)`, given `output`; yields the new `output`. -/
  SetOutputLimits : σ → ℚ → ℚ → ℚ → σ × ℚ

/-! ## `air_intake.h` -/

/-- Data members of `AirIntake`; `servo` is the angle last passed to `servo.write`. -/
structure AirIntake (σ : Type) where
  servo : Option Int
  input : ℚ
  output : ℚ
  setpoint : ℚ
  pid : σ
  autoTune : PIDAutoTune
  tuningInProgress : Bool
  lastTuneTime : Nat
  currentPosition : Int
  servoMin : Int
  servoMax : Int
  currentKp : ℚ
  currentKi : ℚ
  currentKd : ℚ

namespace AirIntake

variable {σ : Type}

/-- The constructor `AirIntake()`; `now` is the `millis()` value seen by the `PID`
constructor. -/
def new (L : PIDLib σ) (now : Nat) : AirIntake σ :=
  { servo := none
    input := 0
    output := 0
    setpoint := DEFAULT_TARGET_BURNING_TEMP
    pid := L.create now PID_KP PID_KI PID_KD
    autoTune := PIDAutoTune.reset
    tuningInProgress := false
    lastTuneTime := 0
    currentPosition := 0
    servoMin := DEFAULT_SERVO_MIN
    servoMax := DEFAULT_SERVO_MAX
    currentKp := PID_KP
    currentKi := PID_KI
    currentKd := PID_KD }

/-- Source `setServoPosition(int percentage)`. -/
def setServoPosition (a : AirIntake σ) (percentage : Int) : AirIntake σ :=
  let percentage := constrain percentage 0 100
  let position := map percentage 0 100 a.servoMin a.servoMax
  { a with servo := some position, currentPosition := percentage }

/-- Source `begin()`. -/
def begin (L : PIDLib σ) (a : AirIntake σ) : AirIntake σ :=
  let pid := L.SetMode a.pid true a.input a.output
  let pid := L.SetSampleTime pid PID_SAMPLE_TIME
  let r := L.SetOutputLimits pid 0 100 a.output
  setServoPosition { a with pid := r.1, output := r.2 } 0

/-- Source `update(float currentBurningTemperature)`; `now` is the `millis()` value read by
`update` itself (tuning branch only), `libNow` the one read inside `autoTune.compute()`
or `pid.Compute()`. -/
def update (L : PIDLib σ) (a : AirIntake σ) (currentBurningTemperature : ℚ)
    (now libNow : Nat) : AirIntake σ :=
  let a : AirIntake σ := { a with input := currentBurningTemperature }
  if a.tuningInProgress then
    if usub now a.lastTuneTime > PID_SAMPLE_TIME then
      let a : AirIntake σ := { a with lastTuneTime := now }
      let r := a.autoTune.compute libNow a.input a.output
      let tuningResult := r.2.2
      let a : AirIntake σ := { a with autoTune := r.1, output := r.2.1 }
      let a : AirIntake σ :=
        if tuningResult then
          let a : AirIntake σ := { a with tuningInProgress := false }
          let kp := a.autoTune.getKp
          let ki := a.autoTune.getKi
          let kd := a.autoTune.getKd
          let a : AirIntake σ := { a with pid := L.SetTunings a.pid kp ki kd }
          let a : AirIntake σ := { a with currentKp := kp, currentKi := ki, currentKd := kd }
          { a with pid := L.SetMode a.pid true a.input a.output }
        else a
      setServoPosition a (toInt a.output)
    else a
  else
    let r := L.Compute a.pid libNow a.input a.setpoint a.output
    let a : AirIntake σ := { a with pid := r.1, output := r.2 }
    setServoPosition a (toInt a.output)

/-- Source `setTargetTemperature(float temperature)`. -/
def setTargetTemperature (a : AirIntake σ) (temperature : ℚ) : AirIntake σ :=
  { a with setpoint := temperature }

/-- Source `getTargetTemperature()`. -/
def getTargetTemperature (a : AirIntake σ) : ℚ := a.setpoint

/-- Source `getCurrentOutput()`. -/
def getCurrentOutput (a : AirIntake σ) : ℚ := a.currentPosition

/-- The expression selecting the tuner's control class in `startAutoTune`. -/
def controlType : ControlType :=
  if PID_CONTROL_TYPE = 0 then ControlType.PID_TYPE
  else if PID_CONTROL_TYPE = 1 then ControlType.PI_TYPE
  else ControlType.P_TYPE

/-- Source `startAutoTune()`; `nowInit`, `nowStart` and `now` are the `millis()` values read by
`autoTune.init`, `autoTune.start` and `startAutoTune` itself.  The three `pid.GetKp()`,
`GetKi()`, `GetKd()` results go to locals that are never read. -/
def startAutoTune (L : PIDLib σ) (a : AirIntake σ) (nowInit nowStart now : Nat) :
    AirIntake σ × Bool :=
  if !a.tuningInProgress then
    let a : AirIntake σ := { a with pid := L.SetMode a.pid false a.input a.output }
    let tuner := a.autoTune.init nowInit a.input a.setpoint PID_OUTPUT_STEP PID_NOISE_BAND
      controlType
    let tuner := tuner.start nowStart
    ({ a with autoTune := tuner, tuningInProgress := true, lastTuneTime := now }, true)
  else (a, false)

/-- Source `cancelAutoTune()`. -/
def cancelAutoTune (L : PIDLib σ) (a : AirIntake σ) : AirIntake σ :=
  if a.tuningInProgress then
    let a : AirIntake σ := { a with tuningInProgress := false }
    let a : AirIntake σ := { a with autoTune := a.autoTune.cancel }
    { a with pid := L.SetMode a.pid true a.input a.output }
  else a

/-- Source `isAutoTuning()`. -/
def isAutoTuning (a : AirIntake σ) : Bool := a.tuningInProgress

/-- Source `getKp()`. -/
def getKp (a : AirIntake σ) : ℚ := a.currentKp
/-- Source `getKi()`. -/
def getKi (a : AirIntake σ) : ℚ := a.currentKi
/-- Source `getKd()`. -/
def getKd (a : AirIntake σ) : ℚ := a.currentKd

/-- Source `setPosition(int percentage)`. -/
def setPosition (a : AirIntake σ) (percentage : Int) : AirIntake σ :=
  setServoPosition a percentage

/-- Source `setServoMin(int minPos)`. -/
def setServoMin (a : AirIntake σ) (minPos : Int) : AirIntake σ :=
  if minPos ≥ 0 ∧ minPos < a.servoMax then { a with servoMin := minPos } else a

/-- Source `setServoMax(int maxPos)`. -/
def setServoMax (a : AirIntake σ) (maxPos : Int) : AirIntake σ :=
  if maxPos > a.servoMin ∧ maxPos ≤ 180 then { a with servoMax := maxPos } else a

/-- Source `getServoMin()`. -/
def getServoMin (a : AirIntake σ) : Int := a.servoMin
/-- Source `getServoMax()`. -/
def getServoMax (a : AirIntake σ) : Int := a.servoMax

end AirIntake

/-! ## The PID controller of the specification -/

/-- Modelled from the spec: the `PID` class (library `PID_v1`) is not among the sources.
This is the state of the specification's PIDController: gains, accumulated integral term,
last error, last measured value, last sample timestamp, sample interval, output bounds and
mode.  The measured input, the setpoint and the output live in `AirIntake`. -/
structure PIDController where
  kp : ℚ
  ki : ℚ
  kd : ℚ
  integral : ℚ
  lastError : ℚ
  lastInput : ℚ
  lastTime : Nat
  sampleTime : Nat
  outMin : ℚ
  outMax : ℚ
  automatic : Bool
  deriving DecidableEq, Repr

namespace PIDController

/-- Modelled from the spec: clamping of the PIDController output to its bounds `[min,max]`
(the `PID` class is not among the sources). -/
def clamp (c : PIDController) (x : ℚ) : ℚ :=
  if x > c.outMax then c.outMax else if x < c.outMin then c.outMin else x

/-- Modelled from the spec: `compute` of the PIDController (the `PID` class is not among
the sources).  If the time elapsed since the last compute is below the sample interval the
previous output is returned and nothing changes.  Otherwise `error = setpoint - measured`,
the integral term accumulates the error scaled by the elapsed time, the derivative term is
the change of the measured value scaled by the elapsed time, the output is
`Kp*error + Ki*integral - Kd*derivative` clamped to the bounds, and a clamped output
freezes the accumulation in the saturating direction. -/
def compute (c : PIDController) (now : Nat) (input setpoint output : ℚ) :
    PIDController × ℚ :=
  if usub now c.lastTime < c.sampleTime then (c, output)
  else
    let dt : ℚ := ((usub now c.lastTime : Nat) : ℚ)
    let error := setpoint - input
    let integral := c.integral + error * dt
    let derivative := (input - c.lastInput) / dt
    let raw := c.kp * error + c.ki * integral - c.kd * derivative
    let frozen := (raw > c.outMax ∧ error > 0) ∨ (raw < c.outMin ∧ error < 0)
    ({ c with
        integral := if frozen then c.integral else integral
        lastError := error
        lastInput := input
        lastTime := now },
      c.clamp raw)

/-- Modelled from the spec: `setGains(kp,ki,kd)` of the PIDController (the `PID` class is
not among the sources); it takes effect on the next compute and keeps the integral
accumulator. -/
def setGains (c : PIDController) (kp ki kd : ℚ) : PIDController :=
  { c with kp := kp, ki := ki, kd := kd }

end PIDController

/-- Modelled from the spec: the library calls of `AirIntake` answered by the
specification's PIDController (the `PID` class is not among the sources). -/
def specPID : PIDLib PIDController where
  create now kp ki kd :=
    { kp := kp, ki := ki, kd := kd, integral := 0, lastError := 0, lastInput := 0
      lastTime := now, sampleTime := 0, outMin := 0, outMax := 0, automatic := false }
  Compute c now input setpoint output := c.compute now input setpoint output
  SetTunings c kp ki kd := c.setGains kp ki kd
  SetMode c mode _ _ := { c with automatic := mode }
  SetSampleTime c ms := { c with sampleTime := ms }
  SetOutputLimits c lo hi output := ({ c with outMin := lo, outMax := hi }, output)

/-! ## `relay.h` and `temperature_sensors.h` -/

/-- The mutable member of `Relay`. -/
structure Relay where
  state : Bool
  deriving DecidableEq, Repr

namespace Relay

/-- Source `setState(bool newState)`. -/
def setState (_r : Relay) (newState : Bool) : Relay := { state := newState }

/-- Source `getState()`. -/
def getState (r : Relay) : Bool := r.state

end Relay

namespace TemperatureSensors

/-- Source `isBurning()`, given the value returned by its call of `getBurningTemperature()`. -/
def isBurning (burningTemperature : ℚ) : Bool :=
  burningTemperature > BURNING_TEMP_THRESHOLD

/-- Source `isBoilerWaterHot()`, given the value returned by its call of
`getBoilerWaterTemperature()`. -/
def isBoilerWaterHot (boilerWaterTemperature : ℚ) : Bool :=
  boilerWaterTemperature > BOILER_WATER_TEMP_THRESHOLD

/-- Source `isBoilerWaterCritical()`, given the value returned by its call of
`getBoilerWaterTemperature()`. -/
def isBoilerWaterCritical (boilerWaterTemperature : ℚ) : Bool :=
  boilerWaterTemperature > BOILER_WATER_CRITICAL_TEMP

end TemperatureSensors

/-- The temperatures returned by the seven sensor conversions of one sensor tick of
`loop()`, in call order: the four of `readSensors()`, then the ones made inside
`isBurning()`, `isBoilerWaterHot()` and `isBoilerWaterCritical()`, each of which reads its
sensor again. -/
structure SensorReads where
  boilerWater : ℚ
  heating : ℚ
  burning : ℚ
  ambient : ℚ
  burningCheck : ℚ
  boilerWaterHotCheck : ℚ
  boilerWaterCriticalCheck : ℚ
  deriving DecidableEq, Repr

/-! ## `main.cpp` -/

/-- The messages passed to `logBuffer.log` by the modelled part of `main.cpp`. -/
inductive LogMessage where
  /-- Message "ALERT! Critical water temperature: <t>°C - Emergency mode activated". -/
  | emergencyModeActivated (boilerWaterTemp : ℚ)
  /-- Message "Water temperature normalized: <t>°C - Normal mode restored". -/
  | normalModeRestored (boilerWaterTemp : ℚ)
  /-- Any other message. -/
  | text (message : String)
  deriving DecidableEq, Repr

/-- What one iteration of `loop()` receives from outside: the `millis()` value read at its
start, the sensor conversions of its sensor tick (if one runs), the `millis()` values
read inside `airIntake.update` (if it runs), and the messages that
`networkManager.update()` passes to `logBuffer->log` in this iteration, in order (which
ones, if any, depends on the WiFi and MQTT state). -/
structure LoopInput where
  currentMillis : Nat
  reads : SensorReads
  updateMillis : Nat
  libMillis : Nat
  networkLog : List String
  deriving DecidableEq, Repr

/-- The calls an iteration of `loop()` can make into the supervisor and the control loop. -/
inductive Call where
  | handleCriticalTemperature
  | handleNormalOperation
  | airIntakeUpdate
  deriving DecidableEq, Repr

/-- The global objects and variables of `main.cpp` that the supervisor and the control
update touch.  `logBuffer` is the sequence of messages passed to `logBuffer.log`, oldest
first. -/
structure Controller (σ : Type) where
  boilerPumpRelay : Relay
  heatingPumpRelay : Relay
  fansRelay : Relay
  otherRelay : Relay
  airIntake : AirIntake σ
  logBuffer : List LogMessage
  lastDisplayUpdate : Nat
  lastMqttUpdate : Nat
  lastSensorRead : Nat
  lastControlUpdate : Nat
  killSwitchActive : Bool
  boilerWaterTemp : ℚ
  heatingTemp : ℚ
  burningTemp : ℚ
  ambientTemp : ℚ

namespace Controller

variable {σ : Type}

/-- Source `readSensors()`. -/
def readSensors (s : Controller σ) (r : SensorReads) : Controller σ :=
  { s with
    boilerWaterTemp := r.boilerWater
    heatingTemp := r.heating
    burningTemp := r.burning
    ambientTemp := r.ambient }

/-- Source `handleCriticalTemperature()`. -/
def handleCriticalTemperature (s : Controller σ) : Controller σ :=
  let s : Controller σ := { s with boilerPumpRelay := s.boilerPumpRelay.setState true }
  let s : Controller σ := { s with heatingPumpRelay := s.heatingPumpRelay.setState true }
  let s : Controller σ := { s with airIntake := s.airIntake.setPosition 0 }
  let s : Controller σ := { s with fansRelay := s.fansRelay.setState true }
  if !s.killSwitchActive then
    { s with
      logBuffer := s.logBuffer ++ [LogMessage.emergencyModeActivated s.boilerWaterTemp]
      killSwitchActive := true }
  else s

/-- Source `handleNormalOperation(bool isBurning, bool isBoilerWaterHot)`. -/
def handleNormalOperation (s : Controller σ) (isBurning isBoilerWaterHot : Bool) :
    Controller σ :=
  let s : Controller σ :=
    if s.killSwitchActive then
      { s with
        logBuffer := s.logBuffer ++ [LogMessage.normalModeRestored s.boilerWaterTemp]
        killSwitchActive := false }
    else s
  if isBurning then
    let s : Controller σ := { s with boilerPumpRelay := s.boilerPumpRelay.setState true }
    let s : Controller σ := { s with fansRelay := s.fansRelay.setState true }
    if isBoilerWaterHot then
      { s with heatingPumpRelay := s.heatingPumpRelay.setState true }
    else
      { s with heatingPumpRelay := s.heatingPumpRelay.setState false }
  else
    let s : Controller σ := { s with boilerPumpRelay := s.boilerPumpRelay.setState false }
    let s : Controller σ := { s with fansRelay := s.fansRelay.setState false }
    { s with heatingPumpRelay := s.heatingPumpRelay.setState false }

/-- The supervisor tick: the body of the block `if (currentMillis - lastSensorRead >= 1000)`
of `loop()` after the assignment of `lastSensorRead`. -/
def supervisorTick (s : Controller σ) (r : SensorReads) : Controller σ :=
  let s := s.readSensors r
  let isBurning := TemperatureSensors.isBurning r.burningCheck
  let isBoilerWaterHot := TemperatureSensors.isBoilerWaterHot r.boilerWaterHotCheck
  let isBoilerWaterCritical := TemperatureSensors.isBoilerWaterCritical r.boilerWaterCriticalCheck
  if isBoilerWaterCritical then s.handleCriticalTemperature
  else s.handleNormalOperation isBurning isBoilerWaterHot

/-- The block "Read sensors every second" of `loop()`, with the handler it called. -/
def loopSensors (s : Controller σ) (i : LoopInput) : Controller σ × List Call :=
  if usub i.currentMillis s.lastSensorRead ≥ 1000 then
    let s : Controller σ := { s with lastSensorRead := i.currentMillis }
    (s.supervisorTick i.reads,
      [if TemperatureSensors.isBoilerWaterCritical i.reads.boilerWaterCriticalCheck then
        Call.handleCriticalTemperature else Call.handleNormalOperation])
  else (s, [])

/-- The block "Update air intake control" of `loop()`, with the call it made. -/
def loopControl (L : PIDLib σ) (s : Controller σ) (i : LoopInput) :
    Controller σ × List Call :=
  if usub i.currentMillis s.lastControlUpdate ≥ PID_SAMPLE_TIME ∧ !s.killSwitchActive then
    let s : Controller σ := { s with lastControlUpdate := i.currentMillis }
    ({ s with airIntake := s.airIntake.update L s.burningTemp i.updateMillis i.libMillis },
      [Call.airIntakeUpdate])
  else (s, [])

/-- The call `networkManager.update()` that opens `loop()`: of the modelled variables it
writes only the log buffer, to which it appends the messages of this iteration. -/
def loopNetwork (s : Controller σ) (i : LoopInput) : Controller σ :=
  { s with logBuffer := s.logBuffer ++ i.networkLog.map LogMessage.text }

/-- One iteration of `loop()`: the new state and the supervisor / control calls made, in
order.  `display.update` and `updateHomeAssistant()` do not write any modelled variable
(`mqttCallback` is never registered: `setup()` calls `homeAssistant.setCallback` while
`mqttConnected` is still false, and `setCallback` then does nothing); of these two blocks
only the timers are kept. -/
def loop (L : PIDLib σ) (s : Controller σ) (i : LoopInput) : Controller σ × List Call :=
  let s := s.loopNetwork i
  let r1 := s.loopSensors i
  let r2 := r1.1.loopControl L i
  let s := r2.1
  let s : Controller σ :=
    if usub i.currentMillis s.lastDisplayUpdate ≥ 500 then
      { s with lastDisplayUpdate := i.currentMillis }
    else s
  let s : Controller σ :=
    if usub i.currentMillis s.lastMqttUpdate ≥ 10000 then
      { s with lastMqttUpdate := i.currentMillis }
    else s
  (s, r1.2 ++ r2.2)

/-- The state left by `setup()`: relays constructed and switched off by `Relay::begin`,
`airIntake` constructed (the `PID` constructor seeing `millis() = now`) and `begin` run,
the messages logged by `setup()` itself, all timers and temperatures at their
initialisers and `killSwitchActive` false.  `NetworkManager::begin` logs a message only
when the file system fails to initialise; that case is left out. -/
def setup (L : PIDLib σ) (now : Nat) : Controller σ :=
  { boilerPumpRelay := (Relay.mk false).setState false
    heatingPumpRelay := (Relay.mk false).setState false
    fansRelay := (Relay.mk false).setState false
    otherRelay := (Relay.mk false).setState false
    airIntake := (AirIntake.new L now).begin L
    logBuffer :=
      [LogMessage.text "System started",
       LogMessage.text "Temperature sensors initialized",
       LogMessage.text "Relays initialized",
       LogMessage.text "Air intake control initialized",
       LogMessage.text "Display initialized",
       LogMessage.text "Web server started on port 80",
       LogMessage.text "System ready!"]
    lastDisplayUpdate := 0
    lastMqttUpdate := 0
    lastSensorRead := 0
    lastControlUpdate := 0
    killSwitchActive := false
    boilerWaterTemp := 0
    heatingTemp := 0
    burningTemp := 0
    ambientTemp := 0 }

/-- Runs one supervisor tick per element of the list. -/
def ticks (s : Controller σ) : List SensorReads → Controller σ
  | [] => s
  | r :: rest => ticks (s.supervisorTick r) rest

end Controller

/-! ## Trace vocabulary for the supervisor -/

/-- The critical flag computed by each supervisor tick of a trace. -/
def criticalFlags (rs : List SensorReads) : List Bool :=
  rs.map (fun r => TemperatureSensors.isBoilerWaterCritical r.boilerWaterCriticalCheck)

/-- Number of rising edges of a flag sequence whose predecessor value is `prev`:
positions that are `true` while the previous one is `false`. -/
def risingEdges (prev : Bool) : List Bool → Nat
  | [] => 0
  | c :: rest => (if c && !prev then 1 else 0) + risingEdges c rest

/-- Number of falling edges of a flag sequence whose predecessor value is `prev`:
positions that are `false` while the previous one is `true`. -/
def fallingEdges (prev : Bool) : List Bool → Nat
  | [] => 0
  | c :: rest => (if !c && prev then 1 else 0) + fallingEdges c rest

/-- Recognises the "Emergency mode activated" message. -/
def LogMessage.isEmergency : LogMessage → Bool
  | LogMessage.emergencyModeActivated _ => true
  | _ => false

/-- Recognises the "Normal mode restored" message. -/
def LogMessage.isRestored : LogMessage → Bool
  | LogMessage.normalModeRestored _ => true
  | _ => false

/-- Number of "Emergency mode activated" messages in a log. -/
def emergencyCount (log : List LogMessage) : Nat := log.countP LogMessage.isEmergency

/-- Number of "Normal mode restored" messages in a log. -/
def restoredCount (log : List LogMessage) : Nat := log.countP LogMessage.isRestored

/-- The mode in force after a trace of ticks that started in mode `prev`: the flag of the
last tick, or `prev` for the empty trace. -/
def lastFlag (prev : Bool) : List Bool → Bool
  | [] => prev
  | c :: rest => lastFlag c rest

/-! ## Sequences of `AirIntake` operations -/

/-- The public operations of `AirIntake`, each with the clock readings it consumes. -/
inductive AirIntakeOp where
  | begin
  | update (currentBurningTemperature : ℚ) (now libNow : Nat)
  | setTargetTemperature (temperature : ℚ)
  | startAutoTune (nowInit nowStart now : Nat)
  | cancelAutoTune
  | setPosition (percentage : Int)
  | setServoMin (minPos : Int)
  | setServoMax (maxPos : Int)
  deriving DecidableEq, Repr

/-- Performs one operation. -/
def AirIntake.apply {σ : Type} (L : PIDLib σ) (a : AirIntake σ) : AirIntakeOp → AirIntake σ
  | AirIntakeOp.begin => a.begin L
  | AirIntakeOp.update x now libNow => a.update L x now libNow
  | AirIntakeOp.setTargetTemperature x => a.setTargetTemperature x
  | AirIntakeOp.startAutoTune nowInit nowStart now => (a.startAutoTune L nowInit nowStart now).1
  | AirIntakeOp.cancelAutoTune => a.cancelAutoTune L
  | AirIntakeOp.setPosition p => a.setPosition p
  | AirIntakeOp.setServoMin m => a.setServoMin m
  | AirIntakeOp.setServoMax m => a.setServoMax m

/-- Performs a sequence of operations, first to last. -/
def AirIntake.applyAll {σ : Type} (L : PIDLib σ) (a : AirIntake σ) :
    List AirIntakeOp → AirIntake σ
  | [] => a
  | op :: rest => AirIntake.applyAll L (a.apply L op) rest

/-- A sequence of `update` calls; each element is the measured temperature, the
`millis()` value read by `update` and the one read inside the tuner or the `PID` object. -/
def AirIntake.updates {σ : Type} (L : PIDLib σ) (a : AirIntake σ) :
    List (ℚ × Nat × Nat) → AirIntake σ
  | [] => a
  | t :: rest => AirIntake.updates L (a.update L t.1 t.2.1 t.2.2) rest

/-! ## Concrete air-intake runs -/

/-- The `AirIntake` left by the constructor, `begin()` and a `startAutoTune()` at time 0,
with the PIDController of the specification. -/
def tuningIntake : AirIntake PIDController :=
  (((AirIntake.new specPID 0).begin specPID).startAutoTune specPID 0 0 0).1

/-- The samples of `waveSignal` as `update` ticks 1500 ms apart. -/
def waveTicks : List (ℚ × Nat × Nat) :=
  waveSignal.map (fun s => (s.2, 3 * s.1, 3 * s.1))

/-! ## Sequences of tuner operations and further concrete runs -/

/-- The public operations of `PIDAutoTune` that change it, each with the clock reading and
the measured input it consumes. -/
inductive TunerOp where
  | init (now : Nat) (input setpoint outputStep noiseband : ℚ) (controlType : ControlType)
  | start (now : Nat)
  | cancel
  | compute (now : Nat) (input : ℚ)
  deriving DecidableEq, Repr

/-- Performs one operation on a tuner and the command output it writes to. -/
def PIDAutoTune.applyOp (s : PIDAutoTune × ℚ) : TunerOp → PIDAutoTune × ℚ
  | TunerOp.init now x sp st nb c => (s.1.init now x sp st nb c, s.2)
  | TunerOp.start now => (s.1.start now, s.2)
  | TunerOp.cancel => (s.1.cancel, s.2)
  | TunerOp.compute now x => ((s.1.compute now x s.2).1, (s.1.compute now x s.2).2.1)

/-- Performs a sequence of tuner operations, first to last. -/
def PIDAutoTune.applyOps (s : PIDAutoTune × ℚ) : List TunerOp → PIDAutoTune × ℚ
  | [] => s
  | op :: rest => PIDAutoTune.applyOps (PIDAutoTune.applyOp s op) rest

/-- The tuner after the first fourteen samples of `waveSignal`: running, in the
oscillation phase, with two peaks confirmed. -/
def midExperimentTuner : PIDAutoTune := (runTuner armedTuner 0 (waveSignal.take 14)).1

/-- The tuner after the whole of `waveSignal`: its experiment has completed. -/
def completedTuner : PIDAutoTune := (runTuner armedTuner 0 waveSignal).1

/-- Arms a tuner at 20000 ms the way `startAutoTune` does with the values of `config.h`,
the measured input being 85. -/
def rearm (t : PIDAutoTune) : PIDAutoTune :=
  (t.init 20000 85 85 50 1 ControlType.PI_TYPE).start 20000

/-- A sampled signal, one sample every 500 ms from 20500 ms: it enters the noise band and
then alternates 79, 91, 78, 92, 77. -/
def quickSignal : List (Nat × ℚ) :=
  [(20500, 85), (21000, 79), (21500, 91), (22000, 78), (22500, 92), (23000, 77)]

/-! ## Clock assumptions and more concrete runs -/

/-- The operations that build `midExperimentTuner` from a constructed tuner: `init` and
`start` at time 0 as in `armedTuner`, then one `compute` per sample of the first fourteen
of `waveSignal`. -/
def waveOps : List TunerOp :=
  [TunerOp.init 0 85 85 50 1 ControlType.PI_TYPE, TunerOp.start 0] ++
    (waveSignal.take 14).map (fun s => TunerOp.compute s.1 s.2)

/-- The samples of a sequence of `compute()` calls whose call is an executed
oscillation-phase step (tuner running, at least 500 ms since the step timer, phase not
awaiting-steady), in call order. -/
def executedOscSamples (t : PIDAutoTune) (out : ℚ) : List (Nat × ℚ) → List ℚ
  | [] => []
  | (now, x) :: rest =>
    if t._running = true ∧ ¬ usub now t._lastTime < 500 ∧ t._state ≠ 0 then
      x :: executedOscSamples (t.compute now x out).1 (t.compute now x out).2.1 rest
    else executedOscSamples (t.compute now x out).1 (t.compute now x out).2.1 rest

/-- The samples of `waveSignal` up to its third confirmed peak (the minimum 80 at
8000 ms) followed by nine more samples equal to 80. -/
def tieSignal : List (Nat × ℚ) :=
  waveSignal.take 16 ++
    [(8500, 80), (9000, 80), (9500, 80), (10000, 80), (10500, 80), (11000, 80),
     (11500, 80), (12000, 80), (12500, 80)]

/-- The value of the local `position` in `setServoPosition(int percentage)`: the angle
passed to `servo.write`. -/
def AirIntake.servoAngle {σ : Type} (a : AirIntake σ) (percentage : Int) : Int :=
  map (constrain percentage 0 100) 0 100 a.servoMin a.servoMax

/-! ## `home_assistant.h` and the status handler of `main.cpp` -/

/-- The value stored under `air_intake` in the MQTT state message by
`HomeAssistant::update(..., int airIntakePosition)`:
`map(airIntakePosition, 0, 180, 0, 100)`. -/
def HomeAssistant.airIntakeField (airIntakePosition : Int) : Int :=
  map airIntakePosition 0 180 0 100

/-- The `air_intake` value published by `updateHomeAssistant()`, which passes
`airIntake.getCurrentOutput()` (a `float`) as the `int airIntakePosition` argument. -/
def Controller.publishedAirIntake {σ : Type} (s : Controller σ) : Int :=
  HomeAssistant.airIntakeField (toInt s.airIntake.getCurrentOutput)

/-- The `air_intake` value of the `/api/status` handler:
`doc["air_intake"] = airIntake.getCurrentOutput()`. -/
def Controller.statusAirIntake {σ : Type} (s : Controller σ) : ℚ :=
  s.airIntake.getCurrentOutput

/-- The state of `setup()` with the air intake then driven fully open by
`airIntake.setPosition(100)`. -/
def fullyOpenController : Controller PIDController :=
  { Controller.setup specPID 0 with
    airIntake := (Controller.setup specPID 0).airIntake.setPosition 100 }

/-- The clock assumption for a sequence of timed samples: starting from the reading `c`,
the successive `millis()` values are non-decreasing and below `2^32` (no wrap). -/
def monotoneFrom (c : Nat) : List (Nat × ℚ) → Bool
  | [] => true
  | s :: rest => decide (c ≤ s.1) && decide (s.1 < ULONG_RANGE) && monotoneFrom s.1 rest

/-- Ghost observer of one `compute()` call: the time of the latest executed oscillation
step on which the line `_peaks[_peakCount - 1] = now` ran with a peak count of 1.  Argument
`st` is the value before the call; the call replaces it by `now` exactly when the tuner is
running, the rate limiter lets the call through, the state is not the awaiting-steady
state and the peak count after peak detection is 1. -/
def PIDAutoTune.firstPeakStamp (t : PIDAutoTune) (now : Nat) (input : ℚ)
    (st : Option Nat) : Option Nat :=
  if t._running = true ∧ ¬ usub now t._lastTime < 500 ∧ t._state ≠ 0 ∧
      (t.recordPeak now input)._peakCount = 1 then some now else st

/-- The observer `firstPeakStamp` carried along a run of `compute()` calls. -/
def lastFirstPeakStep (t : PIDAutoTune) (out : ℚ) (st : Option Nat) :
    List (Nat × ℚ) → Option Nat
  | [] => st
  | (now, x) :: rest =>
    lastFirstPeakStep (t.compute now x out).1 (t.compute now x out).2.1
      (t.firstPeakStamp now x st) rest

/-- The timing invariant of an experiment started at clock reading `lo`, at clock reading
`c`, with `st` the ghost observer of the first peak stamp: `_peaks` has four slots and,
while the tuner is running, the step timer lies between `lo` and `c`, the peak count is
in 0..3, and once a peak is confirmed slot 0 of `_peaks` is the observed stamp, is not
older than `lo`, and precedes the step timer by at least 500 ms per further confirmed
peak. -/
def TimingInv (t : PIDAutoTune) (lo c : Nat) (st : Option Nat) : Prop :=
  t._peaks.length = 4 ∧
  (t._running = true →
    lo ≤ t._lastTime ∧ t._lastTime ≤ c ∧ 0 ≤ t._peakCount ∧ t._peakCount ≤ 3 ∧
    (1 ≤ t._peakCount → st = some (t._peaks.getD 0 0) ∧ lo ≤ t._peaks.getD 0 0) ∧
    (t._peakCount = 1 → t._peaks.getD 0 0 ≤ t._lastTime) ∧
    (t._peakCount = 2 → t._peaks.getD 0 0 + 500 ≤ t._lastTime) ∧
    (t._peakCount = 3 → t._peaks.getD 0 0 + 1000 ≤ t._lastTime))

/-- The clock assumption for a sequence of `update` ticks: starting from the reading `c`,
the successive `millis()` values are non-decreasing and below `2^32`, and within one tick
the reading inside the tuner is at most `d` ms after the reading of `update` itself. -/
def tickClockOk (d c : Nat) : List (ℚ × Nat × Nat) → Bool
  | [] => true
  | t :: rest =>
    decide (c ≤ t.2.1) && decide (t.2.1 ≤ t.2.2) && decide (t.2.2 ≤ t.2.1 + d) &&
      decide (t.2.2 < ULONG_RANGE) && tickClockOk d t.2.2 rest

/-- The relation between the two timers of a tuning at clock reading `c`: while
`tuningInProgress` is set the tuner is running, `lastTuneTime` is not after `c`, and the
tuner's step timer is not after `c` and at most `d` ms after `lastTuneTime`. -/
def TunerClockInv {σ : Type} (d : Nat) (a : AirIntake σ) (c : Nat) : Prop :=
  a.tuningInProgress = true →
    a.autoTune._running = true ∧ a.lastTuneTime ≤ c ∧
    a.autoTune._lastTime ≤ a.lastTuneTime + d ∧ a.autoTune._lastTime ≤ c

section Supervisor

variable {σ : Type}

theorem constrain_zero : constrain 0 0 100 = 0 := by decide

theorem supervisorTick_critical (s : Controller σ) (r : SensorReads)
    (h : TemperatureSensors.isBoilerWaterCritical r.boilerWaterCriticalCheck = true) :
    s.supervisorTick r = (s.readSensors r).handleCriticalTemperature := by
  simp [Controller.supervisorTick, h]

theorem supervisorTick_normal (s : Controller σ) (r : SensorReads)
    (h : TemperatureSensors.isBoilerWaterCritical r.boilerWaterCriticalCheck = false) :
    s.supervisorTick r = (s.readSensors r).handleNormalOperation
      (TemperatureSensors.isBurning r.burningCheck)
      (TemperatureSensors.isBoilerWaterHot r.boilerWaterHotCheck) := by
  simp [Controller.supervisorTick, h]

theorem handleCritical_outputs (s : Controller σ) :
    s.handleCriticalTemperature.boilerPumpRelay.getState = true ∧
    s.handleCriticalTemperature.heatingPumpRelay.getState = true ∧
    s.handleCriticalTemperature.fansRelay.getState = true ∧
    s.handleCriticalTemperature.airIntake.currentPosition = 0 ∧
    s.handleCriticalTemperature.killSwitchActive = true := by
  cases hk : s.killSwitchActive <;>
    simp [Controller.handleCriticalTemperature, hk, Relay.setState, Relay.getState,
      AirIntake.setPosition, AirIntake.setServoPosition, constrain_zero]

theorem handleNormal_outputs (s : Controller σ) (b h : Bool) :
    (s.handleNormalOperation b h).killSwitchActive = false ∧
    (s.handleNormalOperation b h).boilerPumpRelay.getState = b ∧
    (s.handleNormalOperation b h).fansRelay.getState = b ∧
    (s.handleNormalOperation b h).heatingPumpRelay.getState = (b && h) ∧
    (s.handleNormalOperation b h).airIntake = s.airIntake ∧
    (s.handleNormalOperation b h).otherRelay = s.otherRelay := by
  cases hk : s.killSwitchActive <;> cases b <;> cases h <;>
    simp [Controller.handleNormalOperation, hk, Relay.setState, Relay.getState]

theorem loopControl_frame (L : PIDLib σ) (s : Controller σ) (i : LoopInput) :
    (s.loopControl L i).1.boilerPumpRelay = s.boilerPumpRelay ∧
    (s.loopControl L i).1.heatingPumpRelay = s.heatingPumpRelay ∧
    (s.loopControl L i).1.fansRelay = s.fansRelay ∧
    (s.loopControl L i).1.killSwitchActive = s.killSwitchActive ∧
    (s.loopControl L i).1.logBuffer = s.logBuffer ∧
    (s.killSwitchActive = true → (s.loopControl L i).1.airIntake = s.airIntake ∧
      (s.loopControl L i).2 = []) := by
  unfold Controller.loopControl
  split_ifs with h
  · refine ⟨rfl, rfl, rfl, rfl, rfl, ?_⟩
    intro hk
    simp [hk] at h
  · exact ⟨rfl, rfl, rfl, rfl, rfl, fun _ => ⟨rfl, rfl⟩⟩

theorem loop_fields (L : PIDLib σ) (s : Controller σ) (i : LoopInput) :
    (s.loop L i).1.boilerPumpRelay =
      (((s.loopNetwork i).loopSensors i).1.loopControl L i).1.boilerPumpRelay ∧
    (s.loop L i).1.heatingPumpRelay =
      (((s.loopNetwork i).loopSensors i).1.loopControl L i).1.heatingPumpRelay ∧
    (s.loop L i).1.fansRelay =
      (((s.loopNetwork i).loopSensors i).1.loopControl L i).1.fansRelay ∧
    (s.loop L i).1.killSwitchActive =
      (((s.loopNetwork i).loopSensors i).1.loopControl L i).1.killSwitchActive ∧
    (s.loop L i).1.logBuffer =
      (((s.loopNetwork i).loopSensors i).1.loopControl L i).1.logBuffer ∧
    (s.loop L i).1.airIntake =
      (((s.loopNetwork i).loopSensors i).1.loopControl L i).1.airIntake ∧
    (s.loop L i).2 = ((s.loopNetwork i).loopSensors i).2 ++
      (((s.loopNetwork i).loopSensors i).1.loopControl L i).2 := by
  unfold Controller.loop
  dsimp only
  split_ifs <;> exact ⟨rfl, rfl, rfl, rfl, rfl, rfl, rfl⟩

theorem critical_iff (x : ℚ) :
    TemperatureSensors.isBoilerWaterCritical x = true ↔ x > 90.0 := by
  simp [TemperatureSensors.isBoilerWaterCritical, BOILER_WATER_CRITICAL_TEMP]

theorem getCurrentOutput_eq_zero (a : AirIntake σ) :
    a.getCurrentOutput = 0 ↔ a.currentPosition = 0 := by
  simp [AirIntake.getCurrentOutput]

theorem loopSensors_due (s : Controller σ) (i : LoopInput)
    (h : usub i.currentMillis s.lastSensorRead ≥ 1000) :
    (s.loopSensors i).1 =
      Controller.supervisorTick { s with lastSensorRead := i.currentMillis } i.reads := by
  simp [Controller.loopSensors, h]

/-- C1: a supervisor tick whose boiler-water reading is critical (above 90.0) ends,
for every prior state and whatever the combustion and heating readings are, with the
boiler-pump, heating-pump and fans relays ON, the air-intake command `getCurrentOutput`
equal to 0 and `killSwitchActive` true; the `loop()` iteration that runs such a tick ends
in the same way. -/
theorem critical_tick_forces_override (L : PIDLib σ) (s : Controller σ) (r : SensorReads)
    (h : r.boilerWaterCriticalCheck > 90.0) :
    ((s.supervisorTick r).boilerPumpRelay.getState = true ∧
      (s.supervisorTick r).heatingPumpRelay.getState = true ∧
      (s.supervisorTick r).fansRelay.getState = true ∧
      (s.supervisorTick r).airIntake.getCurrentOutput = 0 ∧
      (s.supervisorTick r).killSwitchActive = true) ∧
    (∀ i : LoopInput, i.reads = r → usub i.currentMillis s.lastSensorRead ≥ 1000 →
      (s.loop L i).1.boilerPumpRelay.getState = true ∧
      (s.loop L i).1.heatingPumpRelay.getState = true ∧
      (s.loop L i).1.fansRelay.getState = true ∧
      (s.loop L i).1.airIntake.getCurrentOutput = 0 ∧
      (s.loop L i).1.killSwitchActive = true) := by
  have hc := (critical_iff r.boilerWaterCriticalCheck).mpr h
  have tick : ∀ s0 : Controller σ,
      (s0.supervisorTick r).boilerPumpRelay.getState = true ∧
      (s0.supervisorTick r).heatingPumpRelay.getState = true ∧
      (s0.supervisorTick r).fansRelay.getState = true ∧
      (s0.supervisorTick r).airIntake.getCurrentOutput = 0 ∧
      (s0.supervisorTick r).killSwitchActive = true := by
    intro s0
    rw [supervisorTick_critical s0 r hc, getCurrentOutput_eq_zero]
    exact handleCritical_outputs _
  refine ⟨tick s, ?_⟩
  intro i hi hdue
  obtain ⟨e1, e2, e3, e4, -, e6, -⟩ := loop_fields L s i
  obtain ⟨f1, f2, f3, f4, -, f6⟩ :=
    loopControl_frame L ((s.loopNetwork i).loopSensors i).1 i
  rw [e1, e2, e3, e4, e6, f1, f2, f3, f4]
  have hs := loopSensors_due (s.loopNetwork i) i hdue
  rw [hi] at hs
  obtain ⟨t1, t2, t3, t4, t5⟩ :=
    tick { s.loopNetwork i with lastSensorRead := i.currentMillis }
  rw [← hs] at t1 t2 t3 t4 t5
  rw [(f6 t5).1]
  exact ⟨t1, t2, t3, t4, t5⟩

/-- Witness of C1: the state left by `setup()` and a tick reading 95 °C. -/
theorem critical_tick_forces_override_witness :
    ((Controller.setup specPID 0).supervisorTick ⟨95, 60, 120, 20, 120, 95, 95⟩).airIntake.getCurrentOutput
        = 0 ∧
      ((Controller.setup specPID 0).supervisorTick ⟨95, 60, 120, 20, 120, 95, 95⟩).killSwitchActive
        = true :=
  let h := (critical_tick_forces_override specPID (Controller.setup specPID 0)
    ⟨95, 60, 120, 20, 120, 95, 95⟩ (by norm_num)).1
  ⟨h.2.2.2.1, h.2.2.2.2⟩

/-- C4: a supervisor tick whose boiler-water reading is not critical ends with
`killSwitchActive` false, boiler pump = isBurning, fans = isBurning and heating pump =
(isBurning and isBoilerWaterHot), where isBurning is "burning reading > 100.0" and
isBoilerWaterHot is "boiler-water reading > 40.0"; so all three are OFF when not burning
even if the water is hot; and the tick leaves the air intake, its command included,
unchanged. -/
theorem normal_tick_relays (s : Controller σ) (r : SensorReads)
    (h : ¬ r.boilerWaterCriticalCheck > 90.0) :
    (s.supervisorTick r).killSwitchActive = false ∧
    ((s.supervisorTick r).boilerPumpRelay.getState = true ↔ r.burningCheck > 100.0) ∧
    ((s.supervisorTick r).fansRelay.getState = true ↔ r.burningCheck > 100.0) ∧
    ((s.supervisorTick r).heatingPumpRelay.getState = true ↔
      (r.burningCheck > 100.0 ∧ r.boilerWaterHotCheck > 40.0)) ∧
    (¬ r.burningCheck > 100.0 →
      (s.supervisorTick r).boilerPumpRelay.getState = false ∧
      (s.supervisorTick r).fansRelay.getState = false ∧
      (s.supervisorTick r).heatingPumpRelay.getState = false) ∧
    (s.supervisorTick r).airIntake = s.airIntake ∧
    (s.supervisorTick r).airIntake.getCurrentOutput = s.airIntake.getCurrentOutput := by
  have hc : TemperatureSensors.isBoilerWaterCritical r.boilerWaterCriticalCheck = false := by
    rw [← Bool.not_eq_true, critical_iff]
    exact h
  rw [supervisorTick_normal s r hc]
  obtain ⟨n1, n2, n3, n4, n5, -⟩ := handleNormal_outputs (s.readSensors r)
    (TemperatureSensors.isBurning r.burningCheck)
    (TemperatureSensors.isBoilerWaterHot r.boilerWaterHotCheck)
  have hb : TemperatureSensors.isBurning r.burningCheck = true ↔ r.burningCheck > 100.0 := by
    simp [TemperatureSensors.isBurning, BURNING_TEMP_THRESHOLD]
  have hh : TemperatureSensors.isBoilerWaterHot r.boilerWaterHotCheck = true ↔
      r.boilerWaterHotCheck > 40.0 := by
    simp [TemperatureSensors.isBoilerWaterHot, BOILER_WATER_TEMP_THRESHOLD]
  have ha : (s.readSensors r).airIntake = s.airIntake := rfl
  rw [n1, n2, n3, n4, n5, ha]
  refine ⟨rfl, hb, hb, ?_, ?_, rfl, rfl⟩
  · rw [Bool.and_eq_true, hb, hh]
  · intro hnb
    have : TemperatureSensors.isBurning r.burningCheck = false := by
      rw [← Bool.not_eq_true, hb]
      exact hnb
    simp [this]

/-- Witness of C4: burning 120 °C, boiler water 50 °C, from the state left by `setup()`. -/
theorem normal_tick_relays_witness :
    ((Controller.setup specPID 0).supervisorTick ⟨50, 45, 120, 20, 120, 50, 50⟩).killSwitchActive
        = false ∧
      ((Controller.setup specPID 0).supervisorTick ⟨50, 45, 120, 20, 120, 50, 50⟩).airIntake
        = (Controller.setup specPID 0).airIntake :=
  let h := normal_tick_relays (Controller.setup specPID 0) ⟨50, 45, 120, 20, 120, 50, 50⟩
    (by norm_num)
  ⟨h.1, h.2.2.2.2.2.1⟩

theorem tick_effect (s : Controller σ) (r : SensorReads) :
    (s.supervisorTick r).killSwitchActive =
      TemperatureSensors.isBoilerWaterCritical r.boilerWaterCriticalCheck ∧
    (s.supervisorTick r).logBuffer = s.logBuffer ++
      (if TemperatureSensors.isBoilerWaterCritical r.boilerWaterCriticalCheck
          && !s.killSwitchActive then
        [LogMessage.emergencyModeActivated r.boilerWater]
      else if !TemperatureSensors.isBoilerWaterCritical r.boilerWaterCriticalCheck
          && s.killSwitchActive then
        [LogMessage.normalModeRestored r.boilerWater]
      else []) := by
  cases hc : TemperatureSensors.isBoilerWaterCritical r.boilerWaterCriticalCheck <;>
    cases hk : s.killSwitchActive <;>
    cases hb : TemperatureSensors.isBurning r.burningCheck <;>
    cases hh : TemperatureSensors.isBoilerWaterHot r.boilerWaterHotCheck <;>
    simp [Controller.supervisorTick, Controller.handleCriticalTemperature,
      Controller.handleNormalOperation, Controller.readSensors, hc, hk, hb, hh]

theorem count_step (log : List LogMessage) (c k : Bool) (x : ℚ) :
    emergencyCount (log ++
      (if c && !k then [LogMessage.emergencyModeActivated x]
      else if !c && k then [LogMessage.normalModeRestored x] else [])) =
      emergencyCount log + (if c && !k then 1 else 0) ∧
    restoredCount (log ++
      (if c && !k then [LogMessage.emergencyModeActivated x]
      else if !c && k then [LogMessage.normalModeRestored x] else [])) =
      restoredCount log + (if !c && k then 1 else 0) := by
  cases c <;> cases k <;>
    simp [emergencyCount, restoredCount, LogMessage.isEmergency, LogMessage.isRestored,
      List.countP_append, List.countP_cons]

theorem ticks_counts (rs : List SensorReads) :
    ∀ s : Controller σ,
      emergencyCount (s.ticks rs).logBuffer =
        emergencyCount s.logBuffer + risingEdges s.killSwitchActive (criticalFlags rs) ∧
      restoredCount (s.ticks rs).logBuffer =
        restoredCount s.logBuffer + fallingEdges s.killSwitchActive (criticalFlags rs) ∧
      (s.ticks rs).killSwitchActive = lastFlag s.killSwitchActive (criticalFlags rs) := by
  induction rs with
  | nil => intro s; simp [Controller.ticks, criticalFlags, risingEdges, fallingEdges, lastFlag]
  | cons r rest ih =>
    intro s
    obtain ⟨i1, i2, i3⟩ := ih (s.supervisorTick r)
    obtain ⟨t1, t2⟩ := tick_effect s r
    obtain ⟨k1, k2⟩ := count_step s.logBuffer
      (TemperatureSensors.isBoilerWaterCritical r.boilerWaterCriticalCheck)
      s.killSwitchActive r.boilerWater
    have hflags : criticalFlags (r :: rest) =
        TemperatureSensors.isBoilerWaterCritical r.boilerWaterCriticalCheck ::
          criticalFlags rest := rfl
    rw [hflags]
    have hticks : s.ticks (r :: rest) = (s.supervisorTick r).ticks rest := rfl
    rw [hticks, i1, i2, i3, t1, t2, k1, k2]
    refine ⟨?_, ?_, rfl⟩
    · simp only [risingEdges]; omega
    · simp only [fallingEdges]; omega

/-- C3: over every finite trace of supervisor ticks that starts with `killSwitchActive`
false, the number of "Emergency mode activated" messages logged equals the number of
rising edges of the critical condition (critical in this tick, not critical in the
previous one or at the start), the number of "Normal mode restored" messages equals the
number of falling edges, and a tick that repeats the mode of the previous tick logs
nothing. -/
theorem mode_events_match_edges (s : Controller σ) (h0 : s.killSwitchActive = false)
    (rs : List SensorReads) :
    emergencyCount (s.ticks rs).logBuffer =
      emergencyCount s.logBuffer + risingEdges false (criticalFlags rs) ∧
    restoredCount (s.ticks rs).logBuffer =
      restoredCount s.logBuffer + fallingEdges false (criticalFlags rs) ∧
    (∀ r : SensorReads,
      TemperatureSensors.isBoilerWaterCritical r.boilerWaterCriticalCheck =
        lastFlag false (criticalFlags rs) →
      ((s.ticks rs).supervisorTick r).logBuffer = (s.ticks rs).logBuffer) := by
  obtain ⟨c1, c2, c3⟩ := ticks_counts rs s
  rw [h0] at c1 c2 c3
  refine ⟨c1, c2, ?_⟩
  intro r hr
  rw [(tick_effect (s.ticks rs) r).2, c3, hr]
  cases lastFlag false (criticalFlags rs) <;> simp

/-- Witness of C3: from the state left by `setup()`, the trace normal, critical, critical,
normal, critical has two "Emergency mode activated" messages. -/
theorem mode_events_match_edges_witness :
    emergencyCount ((Controller.setup specPID 0).ticks
      [⟨50, 45, 120, 20, 120, 50, 50⟩, ⟨95, 45, 120, 20, 120, 95, 95⟩,
       ⟨96, 45, 120, 20, 120, 96, 96⟩, ⟨80, 45, 120, 20, 120, 80, 80⟩,
       ⟨91, 45, 120, 20, 120, 91, 91⟩]).logBuffer =
    emergencyCount (Controller.setup specPID 0).logBuffer + risingEdges false (criticalFlags
      [⟨50, 45, 120, 20, 120, 50, 50⟩, ⟨95, 45, 120, 20, 120, 95, 95⟩,
       ⟨96, 45, 120, 20, 120, 96, 96⟩, ⟨80, 45, 120, 20, 120, 80, 80⟩,
       ⟨91, 45, 120, 20, 120, 91, 91⟩]) :=
  (mode_events_match_edges (Controller.setup specPID 0) rfl _).1

end Supervisor

/-! ## Air-intake theorems -/

section AirIntakeTheorems

variable {σ : Type}

theorem constrain_bounds (x : Int) : 0 ≤ constrain x 0 100 ∧ constrain x 0 100 ≤ 100 := by
  unfold constrain
  split_ifs <;> omega

theorem setServoPosition_position (a : AirIntake σ) (p : Int) :
    (a.setServoPosition p).currentPosition = constrain p 0 100 := rfl

theorem update_position (L : PIDLib σ) (a : AirIntake σ) (x : ℚ) (now libNow : Nat) :
    (a.update L x now libNow).currentPosition = a.currentPosition ∨
    ∃ p : Int, (a.update L x now libNow).currentPosition = constrain p 0 100 := by
  unfold AirIntake.update
  dsimp only
  split_ifs
  · exact Or.inr ⟨_, rfl⟩
  · exact Or.inr ⟨_, rfl⟩
  · exact Or.inl rfl
  · exact Or.inr ⟨_, rfl⟩

theorem apply_position (L : PIDLib σ) (a : AirIntake σ) (op : AirIntakeOp) :
    (a.apply L op).currentPosition = a.currentPosition ∨
    ∃ p : Int, (a.apply L op).currentPosition = constrain p 0 100 := by
  cases op with
  | begin => exact Or.inr ⟨0, rfl⟩
  | update x now libNow => exact update_position L a x now libNow
  | setTargetTemperature x => exact Or.inl rfl
  | startAutoTune nowInit nowStart now =>
    left
    simp only [AirIntake.apply, AirIntake.startAutoTune]
    split_ifs <;> rfl
  | cancelAutoTune =>
    left
    simp only [AirIntake.apply, AirIntake.cancelAutoTune]
    split_ifs <;> rfl
  | setPosition p => exact Or.inr ⟨p, rfl⟩
  | setServoMin m =>
    left
    simp only [AirIntake.apply, AirIntake.setServoMin]
    split_ifs <;> rfl
  | setServoMax m =>
    left
    simp only [AirIntake.apply, AirIntake.setServoMax]
    split_ifs <;> rfl

theorem applyAll_position (L : PIDLib σ) (ops : List AirIntakeOp) :
    ∀ a : AirIntake σ, 0 ≤ a.currentPosition ∧ a.currentPosition ≤ 100 →
      0 ≤ (a.applyAll L ops).currentPosition ∧ (a.applyAll L ops).currentPosition ≤ 100 := by
  induction ops with
  | nil => intro a h; exact h
  | cons op rest ih =>
    intro a h
    apply ih
    rcases apply_position L a op with e | ⟨p, e⟩
    · rw [e]; exact h
    · rw [e]; exact constrain_bounds p

/-- C5: after every sequence of `AirIntake` operations applied to a constructed
`AirIntake` (`begin`, `update` with any measured value in automatic or tuning mode,
`setPosition` with any integer, the setters, starting and cancelling a tuning), whatever
the `PID` object computes, the actuator command reported by `getCurrentOutput` lies in
`[0,100]`. -/
theorem command_within_bounds (L : PIDLib σ) (now : Nat) (ops : List AirIntakeOp) :
    0 ≤ ((AirIntake.new L now).applyAll L ops).getCurrentOutput ∧
    ((AirIntake.new L now).applyAll L ops).getCurrentOutput ≤ 100 := by
  have h := applyAll_position L ops (AirIntake.new L now)
    ⟨by simp [AirIntake.new], by simp [AirIntake.new]⟩
  unfold AirIntake.getCurrentOutput
  exact ⟨by exact_mod_cast h.1, by exact_mod_cast h.2⟩

theorem update_tuning_gated (L : PIDLib σ) (a : AirIntake σ) (x : ℚ) (now libNow : Nat)
    (ht : a.tuningInProgress = true) (hg : usub now a.lastTuneTime ≤ PID_SAMPLE_TIME) :
    a.update L x now libNow = { a with input := x } := by
  unfold AirIntake.update
  dsimp only
  rw [if_pos ht, if_neg (Nat.not_lt.mpr hg)]

theorem updates_tuning_gated (L : PIDLib σ) (ticks : List (ℚ × Nat × Nat)) :
    ∀ a : AirIntake σ, a.tuningInProgress = true →
      (∀ t ∈ ticks, usub t.2.1 a.lastTuneTime ≤ PID_SAMPLE_TIME) →
      ∃ x : ℚ, a.updates L ticks = { a with input := x } := by
  induction ticks with
  | nil => intro a _ _; exact ⟨a.input, rfl⟩
  | cons t rest ih =>
    intro a ht hg
    have h1 := update_tuning_gated L a t.1 t.2.1 t.2.2 ht (hg t (List.mem_cons_self _ _))
    obtain ⟨x, hx⟩ := ih { a with input := t.1 } ht
      (fun u hu => hg u (List.mem_cons_of_mem _ hu))
    refine ⟨x, ?_⟩
    show AirIntake.updates L (a.update L t.1 t.2.1 t.2.2) rest = _
    rw [h1, hx]

theorem update_automatic_gated (b : AirIntake PIDController) (x : ℚ) (now libNow : Nat)
    (ht : b.tuningInProgress = false)
    (hg : usub libNow b.pid.lastTime < b.pid.sampleTime) :
    b.update specPID x now libNow =
      AirIntake.setServoPosition { b with input := x } (toInt b.output) := by
  unfold AirIntake.update
  dsimp only
  rw [ht]
  simp only [Bool.false_eq_true, if_false, specPID, PIDController.compute, if_pos hg]

theorem updates_automatic_gated (ticks : List (ℚ × Nat × Nat)) :
    ∀ b : AirIntake PIDController, b.tuningInProgress = false →
      (∀ t ∈ ticks, usub t.2.2 b.pid.lastTime < b.pid.sampleTime) →
      (b.updates specPID ticks).output = b.output ∧
      (b.updates specPID ticks).pid = b.pid ∧
      (b.updates specPID ticks).tuningInProgress = false ∧
      (ticks ≠ [] →
        (b.updates specPID ticks).currentPosition = constrain (toInt b.output) 0 100) := by
  induction ticks with
  | nil => intro b ht _; exact ⟨rfl, rfl, ht, fun h => absurd rfl h⟩
  | cons t rest ih =>
    intro b ht hg
    have h1 := update_automatic_gated b t.1 t.2.1 t.2.2 ht (hg t (List.mem_cons_self _ _))
    have hstep : AirIntake.updates specPID b (t :: rest) =
        AirIntake.updates specPID (b.update specPID t.1 t.2.1 t.2.2) rest := rfl
    rw [hstep, h1]
    obtain ⟨i1, i2, i3, i4⟩ := ih
      (AirIntake.setServoPosition { b with input := t.1 } (toInt b.output)) ht
      (fun u hu => hg u (List.mem_cons_of_mem _ hu))
    refine ⟨i1, i2, i3, fun _ => ?_⟩
    cases rest with
    | nil => rfl
    | cons u rest2 => exact i4 (List.cons_ne_nil _ _)

/-- C6: ticks spaced below the sample interval are dropped.  In tuning mode, `update`
calls made while no more than `PID_SAMPLE_TIME` (1000 ms) has elapsed since the last tuning
step execute no tuner step: the output, the actuator position, the servo angle, the whole
tuner state, the tuning timer, the `PID` object and the reported gains are unchanged.  In
automatic mode, with the PIDController of the specification, `update` calls made while
less than the sample interval has elapsed since its last compute leave the controller
output and the controller state unchanged (the actuator command is then the unchanged
output, converted and clamped). -/
theorem rate_limited_ticks_are_dropped (L : PIDLib σ) (a : AirIntake σ)
    (b : AirIntake PIDController) (ticks : List (ℚ × Nat × Nat)) :
    (a.tuningInProgress = true →
      (∀ t ∈ ticks, usub t.2.1 a.lastTuneTime ≤ PID_SAMPLE_TIME) →
      (a.updates L ticks).output = a.output ∧
      (a.updates L ticks).currentPosition = a.currentPosition ∧
      (a.updates L ticks).servo = a.servo ∧
      (a.updates L ticks).autoTune = a.autoTune ∧
      (a.updates L ticks).lastTuneTime = a.lastTuneTime ∧
      (a.updates L ticks).tuningInProgress = true ∧
      (a.updates L ticks).pid = a.pid ∧
      (a.updates L ticks).getKp = a.getKp ∧
      (a.updates L ticks).getKi = a.getKi ∧
      (a.updates L ticks).getKd = a.getKd) ∧
    (b.tuningInProgress = false →
      (∀ t ∈ ticks, usub t.2.2 b.pid.lastTime < b.pid.sampleTime) →
      (b.updates specPID ticks).output = b.output ∧
      (b.updates specPID ticks).pid = b.pid ∧
      (ticks ≠ [] →
        (b.updates specPID ticks).currentPosition = constrain (toInt b.output) 0 100)) := by
  constructor
  · intro ht hg
    obtain ⟨x, hx⟩ := updates_tuning_gated L ticks a ht hg
    rw [hx]
    exact ⟨rfl, rfl, rfl, rfl, rfl, ht, rfl, rfl, rfl, rfl⟩
  · intro ht hg
    obtain ⟨i1, i2, -, i4⟩ := updates_automatic_gated ticks b ht hg
    exact ⟨i1, i2, i4⟩

/-- Witness of C6: a tuning started at 5000 ms and an automatic controller that computed
at 5000 ms, both ticked at 5400 ms and 5900 ms. -/
theorem rate_limited_ticks_are_dropped_witness :
    ((((AirIntake.new specPID 0).begin specPID).startAutoTune specPID 5000 5000 5000).1.updates
        specPID [(80, 5400, 5401), (81, 5900, 5901)]).autoTune =
      (((AirIntake.new specPID 0).begin specPID).startAutoTune specPID 5000 5000 5000).1.autoTune ∧
    ((((AirIntake.new specPID 0).begin specPID).update specPID 80 5000 5000).updates
        specPID [(80, 5400, 5401), (81, 5900, 5901)]).output =
      (((AirIntake.new specPID 0).begin specPID).update specPID 80 5000 5000).output :=
  let h := rate_limited_ticks_are_dropped specPID
    (((AirIntake.new specPID 0).begin specPID).startAutoTune specPID 5000 5000 5000).1
    (((AirIntake.new specPID 0).begin specPID).update specPID 80 5000 5000)
    [(80, 5400, 5401), (81, 5900, 5901)]
  ⟨(h.1 rfl (by decide)).2.2.2.1, (h.2 rfl (by decide)).1⟩

end AirIntakeTheorems

/-! ## Tuner theorems -/

section TunerTheorems

theorem compute_idle (t : PIDAutoTune) (now : Nat) (input output : ℚ)
    (h : t._running = false) : t.compute now input output = (t, output, false) := by
  rw [PIDAutoTune.compute, if_pos (by simp [h])]

theorem compute_gated (t : PIDAutoTune) (now : Nat) (input output : ℚ)
    (h : usub now t._lastTime < 500) : t.compute now input output = (t, output, false) := by
  rw [PIDAutoTune.compute]
  split_ifs <;> rfl

theorem compute_osc (t : PIDAutoTune) (now : Nat) (input output : ℚ)
    (hr : t._running = true) (hg : ¬ usub now t._lastTime < 500) (hs : t._state ≠ 0) :
    t.compute now input output =
      if (t.recordPeak now input)._peakCount ≥ 4 then
        ((t.recordPeak now input).finish now, output, true)
      else
        ((t.recordPeak now input).stampPeak now,
          (t.recordPeak now input).relayOutput input output, false) := by
  rw [PIDAutoTune.compute, if_neg (by simp [hr]), if_neg hg]
  show (if t._state = 0 then _ else _) = _
  rw [if_neg hs]
  rfl

theorem compute_steady (t : PIDAutoTune) (now : Nat) (input output : ℚ)
    (hr : t._running = true) (hg : ¬ usub now t._lastTime < 500) (hs : t._state = 0) :
    t.compute now input output =
      if abs (input - t._setpoint) < t._noiseband then
        ({ t with _lastTime := now, _state := 1 },
          (if t._setpoint < input then t._outputStep else 0), false)
      else
        ({ t with _lastTime := now },
          (if t._setpoint < input then 0 else t._outputStep), false) := by
  rw [PIDAutoTune.compute, if_neg (by simp [hr]), if_neg hg]
  show (if t._state = 0 then _ else _) = _
  rw [if_pos hs]

/-- A call of `compute()` that returns true is an executed oscillation-phase step whose
peak bookkeeping reached four peaks; the tuner it leaves is `finish` of that bookkeeping
and the command output is not written. -/
theorem compute_true (t : PIDAutoTune) (now : Nat) (input output : ℚ)
    (h : (t.compute now input output).2.2 = true) :
    t._running = true ∧ ¬ usub now t._lastTime < 500 ∧ t._state ≠ 0 ∧
    (t.recordPeak now input)._peakCount ≥ 4 ∧
    (t.compute now input output).1 = (t.recordPeak now input).finish now ∧
    (t.compute now input output).2.1 = output := by
  cases hr : t._running with
  | false => rw [compute_idle t now input output hr] at h; exact absurd h (by simp)
  | true =>
    by_cases hg : usub now t._lastTime < 500
    · rw [compute_gated t now input output hg] at h; exact absurd h (by simp)
    · by_cases hs : t._state = 0
      · rw [compute_steady t now input output hr hg hs] at h
        split_ifs at h
      · rw [compute_osc t now input output hr hg hs] at h ⊢
        split_ifs at h ⊢ with hc
        exact ⟨rfl, hg, hs, hc, rfl, rfl⟩

theorem finish_fields (u : PIDAutoTune) (now : Nat) :
    (u.finish now)._outputStep = u._outputStep ∧
    (u.finish now)._peak1 = u._peak1 ∧
    (u.finish now)._peak2 = u._peak2 ∧
    (u.finish now)._peaks = u._peaks ∧
    (u.finish now)._controlType = u._controlType ∧
    (u.finish now)._peakCount = u._peakCount ∧
    (u.finish now)._running = false := by
  unfold PIDAutoTune.finish
  cases u._controlType <;> exact ⟨rfl, rfl, rfl, rfl, rfl, rfl, rfl⟩

theorem finish_gains (u : PIDAutoTune) (now : Nat) :
    (u._controlType = ControlType.PID_TYPE →
      (u.finish now)._kp = 0.6 * PIDAutoTune.Ku u._outputStep u._peak1 u._peak2 ∧
      (u.finish now)._ki = 1.2 * PIDAutoTune.Ku u._outputStep u._peak1 u._peak2 /
        PIDAutoTune.Tu now (u._peaks.getD 0 0) ∧
      (u.finish now)._kd = 0.075 * PIDAutoTune.Ku u._outputStep u._peak1 u._peak2 *
        PIDAutoTune.Tu now (u._peaks.getD 0 0)) ∧
    (u._controlType = ControlType.PI_TYPE →
      (u.finish now)._kp = 0.45 * PIDAutoTune.Ku u._outputStep u._peak1 u._peak2 ∧
      (u.finish now)._ki = 0.54 * PIDAutoTune.Ku u._outputStep u._peak1 u._peak2 /
        PIDAutoTune.Tu now (u._peaks.getD 0 0) ∧
      (u.finish now)._kd = 0) ∧
    (u._controlType = ControlType.P_TYPE →
      (u.finish now)._kp = 0.5 * PIDAutoTune.Ku u._outputStep u._peak1 u._peak2 ∧
      (u.finish now)._ki = 0 ∧
      (u.finish now)._kd = 0) := by
  unfold PIDAutoTune.finish
  refine ⟨fun h => ?_, fun h => ?_, fun h => ?_⟩ <;> rw [h] <;> exact ⟨rfl, rfl, rfl⟩

/-- The peak bookkeeping of one oscillation-phase step keeps the step size, the control
class and the timestamps, and either leaves the peak count and both peak values as they
were or adds one to the count, stores the sample as latest peak and moves the previous
latest peak to the second slot. -/
theorem recordPeak_cases (t : PIDAutoTune) (now : Nat) (x : ℚ) :
    (t.recordPeak now x)._outputStep = t._outputStep ∧
    (t.recordPeak now x)._controlType = t._controlType ∧
    (t.recordPeak now x)._peaks = t._peaks ∧
    (((t.recordPeak now x)._peakCount = t._peakCount ∧
        (t.recordPeak now x)._peak1 = t._peak1 ∧
        (t.recordPeak now x)._peak2 = t._peak2) ∨
      ((t.recordPeak now x)._peakCount = t._peakCount + 1 ∧
        (t.recordPeak now x)._peak1 = x ∧
        (t.recordPeak now x)._peak2 = t._peak1)) := by
  unfold PIDAutoTune.recordPeak
  dsimp only
  split_ifs
  · exact ⟨rfl, rfl, rfl, Or.inr ⟨rfl, rfl, rfl⟩⟩
  · exact ⟨rfl, rfl, rfl, Or.inl ⟨rfl, rfl, rfl⟩⟩
  · exact ⟨rfl, rfl, rfl, Or.inr ⟨rfl, rfl, rfl⟩⟩
  · exact ⟨rfl, rfl, rfl, Or.inl ⟨rfl, rfl, rfl⟩⟩
  · exact ⟨rfl, rfl, rfl, Or.inl ⟨rfl, rfl, rfl⟩⟩

/-- C7: let `compute()` be called on the tuner `t` at clock reading `now` with the sample
`input`, and let it return true (the step completes the experiment).  Then `t` was
running, the call passed the rate limiter and `t` was in the oscillation phase; the step
stops the tuner, leaves the command, the step size, the control class and the timestamps
as they were, and stores as the two peak values those of the peak bookkeeping of this
step.  With `Ku` computed from the step size of `t` and these two peak values, and `Tu`
from `now` and slot 0 of the timestamps of `t`, the stored gains are, by the control class
of `t`: for `PID_TYPE` Kp = 0.6*Ku, Ki = 1.2*Ku/Tu, Kd = 0.075*Ku*Tu; for `PI_TYPE`
Kp = 0.45*Ku, Ki = 0.54*Ku/Tu, Kd = 0; for `P_TYPE` Kp = 0.5*Ku, Ki = 0, Kd = 0.  When `t`
has at most three confirmed peaks (as every running tuner reached from the constructor
has), it has exactly three, the step confirms the fourth, and the two peak values are
`input` and the latest peak of `t`. -/
theorem completion_gains_ziegler_nichols (t : PIDAutoTune) (now : Nat) (input output : ℚ)
    (h : (t.compute now input output).2.2 = true) :
    t._running = true ∧ ¬ usub now t._lastTime < 500 ∧ t._state ≠ 0 ∧
    (t.compute now input output).1._running = false ∧
    (t.compute now input output).2.1 = output ∧
    (t.compute now input output).1._outputStep = t._outputStep ∧
    (t.compute now input output).1._controlType = t._controlType ∧
    (t.compute now input output).1._peaks = t._peaks ∧
    (t.compute now input output).1._peak1 = (t.recordPeak now input)._peak1 ∧
    (t.compute now input output).1._peak2 = (t.recordPeak now input)._peak2 ∧
    (t._peakCount ≤ 3 →
      t._peakCount = 3 ∧ (t.compute now input output).1._peakCount = 4 ∧
      (t.recordPeak now input)._peak1 = input ∧
      (t.recordPeak now input)._peak2 = t._peak1) ∧
    (t._controlType = ControlType.PID_TYPE →
      (t.compute now input output).1.getKp = 0.6 * PIDAutoTune.Ku t._outputStep
        (t.recordPeak now input)._peak1 (t.recordPeak now input)._peak2 ∧
      (t.compute now input output).1.getKi = 1.2 * PIDAutoTune.Ku t._outputStep
        (t.recordPeak now input)._peak1 (t.recordPeak now input)._peak2 /
        PIDAutoTune.Tu now (t._peaks.getD 0 0) ∧
      (t.compute now input output).1.getKd = 0.075 * PIDAutoTune.Ku t._outputStep
        (t.recordPeak now input)._peak1 (t.recordPeak now input)._peak2 *
        PIDAutoTune.Tu now (t._peaks.getD 0 0)) ∧
    (t._controlType = ControlType.PI_TYPE →
      (t.compute now input output).1.getKp = 0.45 * PIDAutoTune.Ku t._outputStep
        (t.recordPeak now input)._peak1 (t.recordPeak now input)._peak2 ∧
      (t.compute now input output).1.getKi = 0.54 * PIDAutoTune.Ku t._outputStep
        (t.recordPeak now input)._peak1 (t.recordPeak now input)._peak2 /
        PIDAutoTune.Tu now (t._peaks.getD 0 0) ∧
      (t.compute now input output).1.getKd = 0) ∧
    (t._controlType = ControlType.P_TYPE →
      (t.compute now input output).1.getKp = 0.5 * PIDAutoTune.Ku t._outputStep
        (t.recordPeak now input)._peak1 (t.recordPeak now input)._peak2 ∧
      (t.compute now input output).1.getKi = 0 ∧
      (t.compute now input output).1.getKd = 0) := by
  obtain ⟨hr, hg, hs, hc, he, ho⟩ := compute_true t now input output h
  obtain ⟨f1, f2, f3, f4, f5, f6, f7⟩ := finish_fields (t.recordPeak now input) now
  obtain ⟨r1, r2, r3, r4⟩ := recordPeak_cases t now input
  have hgains := finish_gains (t.recordPeak now input) now
  rw [r1, r2, r3] at hgains
  refine ⟨hr, hg, hs, ?_, ho, ?_, ?_, ?_, ?_, ?_, ?_, ?_⟩
  · rw [he]; exact f7
  · rw [he]; exact f1.trans r1
  · rw [he]; exact f5.trans r2
  · rw [he]; exact f4.trans r3
  · rw [he]; exact f2
  · rw [he]; exact f3
  · intro h3
    rw [he, f6]
    rcases r4 with ⟨c1, -, -⟩ | ⟨c1, c2, c3⟩
    · rw [c1] at hc
      omega
    · rw [c1] at hc ⊢
      exact ⟨by omega, by omega, c2, c3⟩
  · rw [he]
    exact hgains

/-- Witness of C7: the eighteenth step of `waveSignal` (time 9000 ms, sample 90), which
completes the experiment with control class PI, step size 50, latest peak 80 and slot 0
of the timestamps at 6500. -/
theorem completion_gains_ziegler_nichols_witness :
    (waveBeforeLast.1.compute 9000 90 waveBeforeLast.2).2.2 = true ∧
    waveBeforeLast.1._controlType = ControlType.PI_TYPE ∧
    waveBeforeLast.1._outputStep = 50 ∧
    waveBeforeLast.1._peak1 = 80 ∧
    waveBeforeLast.1._peaks.getD 0 0 = 6500 ∧
    (waveBeforeLast.1.recordPeak 9000 90)._peak1 = 90 ∧
    (waveBeforeLast.1.recordPeak 9000 90)._peak2 = waveBeforeLast.1._peak1 ∧
    (waveBeforeLast.1.compute 9000 90 waveBeforeLast.2).1.getKp =
      0.45 * PIDAutoTune.Ku waveBeforeLast.1._outputStep
        (waveBeforeLast.1.recordPeak 9000 90)._peak1
        (waveBeforeLast.1.recordPeak 9000 90)._peak2 ∧
    (waveBeforeLast.1.compute 9000 90 waveBeforeLast.2).1.getKi =
      0.54 * PIDAutoTune.Ku waveBeforeLast.1._outputStep
        (waveBeforeLast.1.recordPeak 9000 90)._peak1
        (waveBeforeLast.1.recordPeak 9000 90)._peak2 /
        PIDAutoTune.Tu 9000 (waveBeforeLast.1._peaks.getD 0 0) ∧
    (waveBeforeLast.1.compute 9000 90 waveBeforeLast.2).1.getKp =
      0.45 * (4 * 50 / ((0.5 * (90 - 80)) * 3.14159)) :=
  let h := completion_gains_ziegler_nichols waveBeforeLast.1 9000 90 waveBeforeLast.2
    (by decide!)
  ⟨by decide!, by decide!, by decide!, by decide!, by decide!,
    (h.2.2.2.2.2.2.2.2.2.2.1 (by decide!)).2.2.1,
    (h.2.2.2.2.2.2.2.2.2.2.1 (by decide!)).2.2.2,
    (h.2.2.2.2.2.2.2.2.2.2.2.2.1 (by decide!)).1,
    (h.2.2.2.2.2.2.2.2.2.2.2.2.1 (by decide!)).2.1, by decide!⟩

/-- C8 (defect in the code): on `valleyLastSignal` the experiment completes on its
fourth confirmed peak, which is a minimum (latest peak 78, previous peak 91).  `compute()`
uses the signed half-difference `0.5 * (_peak1 - _peak2)` as amplitude, so the ultimate
gain and the stored Kp are negative, while the amplitude `0.5 * |peak1 - peak2|` of the
claim gives a positive gain. -/
theorem valley_last_gain_negative :
    (runTuner armedTuner 0 valleyLastSignal).2.2 = List.replicate 13 false ++ [true] ∧
    (runTuner armedTuner 0 valleyLastSignal).1._outputStep = 50 ∧
    (runTuner armedTuner 0 valleyLastSignal).1._peak1 = 78 ∧
    (runTuner armedTuner 0 valleyLastSignal).1._peak2 = 91 ∧
    (runTuner armedTuner 0 valleyLastSignal).1.getKp = 0.45 * PIDAutoTune.Ku 50 78 91 ∧
    PIDAutoTune.Ku 50 78 91 < 0 ∧
    (runTuner armedTuner 0 valleyLastSignal).1.getKp < 0 ∧
    (0 : ℚ) < 4.0 * 50 / ((0.5 * |(78 : ℚ) - 91|) * 3.14159) := by
  refine ⟨by decide!, by decide!, by decide!, by decide!, by decide!, by decide!, by decide!, ?_⟩
  norm_num [abs_of_neg]

/-- C9 (defect in the code): on `waveSignal` the first peak is confirmed on the step at
6000 ms and the fourth on the step at 9000 ms, which completes the experiment.  The step at
6500 ms, on which the peak count is still 1, overwrites `_peaks[0]`, so the period used for
the gains is (9000 - 6500)/1000 = 2.5 s and not (9000 - 6000)/1000 = 3 s. -/
theorem wave_period_from_overwritten_timestamp :
    (runTuner armedTuner 0 (waveSignal.take 11)).1._peakCount = 0 ∧
    (runTuner armedTuner 0 (waveSignal.take 12)).1._peakCount = 1 ∧
    (runTuner armedTuner 0 (waveSignal.take 12)).1._peaks.getD 0 0 = 6000 ∧
    (runTuner armedTuner 0 (waveSignal.take 13)).1._peakCount = 1 ∧
    (runTuner armedTuner 0 (waveSignal.take 13)).1._peaks.getD 0 0 = 6500 ∧
    (runTuner armedTuner 0 (waveSignal.take 17)).1._peakCount = 3 ∧
    (runTuner armedTuner 0 waveSignal).2.2 = List.replicate 17 false ++ [true] ∧
    (runTuner armedTuner 0 waveSignal).1._peakCount = 4 ∧
    (runTuner armedTuner 0 waveSignal).1._peaks.getD 0 0 = 6500 ∧
    (runTuner armedTuner 0 waveSignal).1.getKi =
      0.54 * PIDAutoTune.Ku 50 90 80 / PIDAutoTune.Tu 9000 6500 ∧
    PIDAutoTune.Tu 9000 6500 = 2.5 ∧
    PIDAutoTune.Tu 9000 6000 = 3 ∧
    (runTuner armedTuner 0 waveSignal).1.getKi ≠
      0.54 * PIDAutoTune.Ku 50 90 80 / PIDAutoTune.Tu 9000 6000 := by
  refine ⟨by decide!, by decide!, by decide!, by decide!, by decide!, by decide!, by decide!,
    by decide!, by decide!, by decide!, by decide!, by decide!, by decide!⟩

theorem recordPeak_confirmed_max (t : PIDAutoTune) (now : Nat) (x : ℚ)
    (hmax : (PIDAutoTune.scanExtrema (PIDAutoTune.shiftInputs t._lastInputs x)).1 = true)
    (htype : t._peakType = -1) :
    t.recordPeak now x =
      { t with
        _lastTime := now
        _lastInputs := PIDAutoTune.shiftInputs t._lastInputs x
        _peakCount := t._peakCount + 1
        _peak2 := t._peak1
        _peak1 := x
        _peakType := 1 } := by
  unfold PIDAutoTune.recordPeak
  dsimp only
  rw [if_pos hmax, if_pos htype]

theorem recordPeak_count (t : PIDAutoTune) (now : Nat) (x : ℚ) :
    (t.recordPeak now x)._peakCount = t._peakCount ∨
    (t.recordPeak now x)._peakCount = t._peakCount + 1 := by
  unfold PIDAutoTune.recordPeak
  dsimp only
  split_ifs
  · exact Or.inr rfl
  · exact Or.inl rfl
  · exact Or.inr rfl
  · exact Or.inl rfl
  · exact Or.inl rfl

theorem compute_false_below_three (t : PIDAutoTune) (now : Nat) (input output : ℚ)
    (h : t._peakCount < 3) : (t.compute now input output).2.2 = false := by
  cases hb : (t.compute now input output).2.2 with
  | false => rfl
  | true =>
    obtain ⟨-, -, -, hc, -, -⟩ := compute_true t now input output hb
    rcases recordPeak_count t now input with e | e <;> rw [e] at hc <;> omega

end TunerTheorems

/-! ## Starting, cancelling and completing a tuning -/

section TuningControl

variable {σ : Type}

theorem startAutoTune_idle (L : PIDLib σ) (a : AirIntake σ) (nowInit nowStart now : Nat)
    (h : a.tuningInProgress = false) :
    a.startAutoTune L nowInit nowStart now =
      ({ a with
          pid := L.SetMode a.pid false a.input a.output
          autoTune := (a.autoTune.init nowInit a.input a.setpoint PID_OUTPUT_STEP
            PID_NOISE_BAND AirIntake.controlType).start nowStart
          tuningInProgress := true
          lastTuneTime := now }, true) := by
  unfold AirIntake.startAutoTune
  rw [if_pos (by simp [h])]

theorem startAutoTune_busy (L : PIDLib σ) (a : AirIntake σ) (nowInit nowStart now : Nat)
    (h : a.tuningInProgress = true) :
    a.startAutoTune L nowInit nowStart now = (a, false) := by
  unfold AirIntake.startAutoTune
  rw [if_neg (by simp [h])]

theorem init_start_fields (t : PIDAutoTune) (nowInit nowStart : Nat) (x sp step band : ℚ)
    (c : ControlType) :
    ((t.init nowInit x sp step band c).start nowStart)._running = true ∧
    ((t.init nowInit x sp step band c).start nowStart)._peakCount = 0 ∧
    ((t.init nowInit x sp step band c).start nowStart)._state = 0 ∧
    ((t.init nowInit x sp step band c).start nowStart)._peakType = 0 ∧
    ((t.init nowInit x sp step band c).start nowStart)._lastTime = nowStart := by
  simp [PIDAutoTune.init, PIDAutoTune.start]

/-- C11: `startAutoTune` returns true exactly when no tuning was in progress before the
call; then `isAutoTuning()` is true and the tuner is running with peak count 0 in the
awaiting-steady state.  When a tuning is already in progress it returns false and leaves
the whole `AirIntake`, tuner included, unchanged; so a second call right after a first one
returns false and changes nothing. -/
theorem startAutoTune_idempotent (L : PIDLib σ) (a : AirIntake σ)
    (nowInit nowStart now nowInit2 nowStart2 now2 : Nat) :
    ((a.startAutoTune L nowInit nowStart now).2 = true ↔ a.isAutoTuning = false) ∧
    (a.isAutoTuning = false →
      (a.startAutoTune L nowInit nowStart now).1.isAutoTuning = true ∧
      (a.startAutoTune L nowInit nowStart now).1.autoTune.isRunning = true ∧
      (a.startAutoTune L nowInit nowStart now).1.autoTune._peakCount = 0 ∧
      (a.startAutoTune L nowInit nowStart now).1.autoTune._state = 0) ∧
    (a.isAutoTuning = true → a.startAutoTune L nowInit nowStart now = (a, false)) ∧
    (a.startAutoTune L nowInit nowStart now).1.startAutoTune L nowInit2 nowStart2 now2 =
      ((a.startAutoTune L nowInit nowStart now).1, false) := by
  have hidle : a.tuningInProgress = false →
      (a.startAutoTune L nowInit nowStart now).1.tuningInProgress = true := by
    intro h
    rw [startAutoTune_idle L a nowInit nowStart now h]
  have hafter : (a.startAutoTune L nowInit nowStart now).1.tuningInProgress = true := by
    cases h : a.tuningInProgress with
    | false => exact hidle h
    | true => rw [startAutoTune_busy L a nowInit nowStart now h]; exact h
  unfold AirIntake.isAutoTuning
  refine ⟨?_, ?_, ?_, ?_⟩
  · cases h : a.tuningInProgress with
    | false => rw [startAutoTune_idle L a nowInit nowStart now h]; simp
    | true => rw [startAutoTune_busy L a nowInit nowStart now h]; simp
  · intro h
    obtain ⟨f1, f2, f3, -, -⟩ := init_start_fields a.autoTune nowInit nowStart a.input
      a.setpoint PID_OUTPUT_STEP PID_NOISE_BAND AirIntake.controlType
    rw [startAutoTune_idle L a nowInit nowStart now h]
    exact ⟨rfl, f1, f2, f3⟩
  · intro h
    exact startAutoTune_busy L a nowInit nowStart now h
  · exact startAutoTune_busy L _ nowInit2 nowStart2 now2 hafter

/-- Witness of C11: a first `startAutoTune` on the `AirIntake` left by `begin()` returns
true and arms the tuner. -/
theorem startAutoTune_idempotent_witness :
    ((AirIntake.new specPID 0).begin specPID).isAutoTuning = false ∧
    (((AirIntake.new specPID 0).begin specPID).startAutoTune specPID 5000 5000 5000).1.isAutoTuning
      = true ∧
    (((AirIntake.new specPID 0).begin specPID).startAutoTune specPID 5000 5000
      5000).1.autoTune._peakCount = 0 :=
  let h := (startAutoTune_idempotent specPID ((AirIntake.new specPID 0).begin specPID)
    5000 5000 5000 6000 6000 6000).2.1 rfl
  ⟨rfl, h.1, h.2.2.1⟩

theorem update_tuning_executed (L : PIDLib σ) (a : AirIntake σ) (x : ℚ) (now libNow : Nat)
    (ht : a.tuningInProgress = true) (hg : usub now a.lastTuneTime > PID_SAMPLE_TIME) :
    a.update L x now libNow =
      if (a.autoTune.compute libNow x a.output).2.2 then
        AirIntake.setServoPosition
          { a with
            input := x
            lastTuneTime := now
            autoTune := (a.autoTune.compute libNow x a.output).1
            output := (a.autoTune.compute libNow x a.output).2.1
            tuningInProgress := false
            pid := L.SetMode
              (L.SetTunings a.pid (a.autoTune.compute libNow x a.output).1.getKp
                (a.autoTune.compute libNow x a.output).1.getKi
                (a.autoTune.compute libNow x a.output).1.getKd)
              true x (a.autoTune.compute libNow x a.output).2.1
            currentKp := (a.autoTune.compute libNow x a.output).1.getKp
            currentKi := (a.autoTune.compute libNow x a.output).1.getKi
            currentKd := (a.autoTune.compute libNow x a.output).1.getKd }
          (toInt (a.autoTune.compute libNow x a.output).2.1)
      else
        AirIntake.setServoPosition
          { a with
            input := x
            lastTuneTime := now
            autoTune := (a.autoTune.compute libNow x a.output).1
            output := (a.autoTune.compute libNow x a.output).2.1 }
          (toInt (a.autoTune.compute libNow x a.output).2.1) := by
  unfold AirIntake.update
  dsimp only
  rw [if_pos ht, if_pos hg]
  split_ifs <;> rfl

theorem update_keeps_tuning (L : PIDLib σ) (a : AirIntake σ) (x : ℚ) (now libNow : Nat)
    (h : (a.update L x now libNow).tuningInProgress = true) :
    a.tuningInProgress = true ∧
    (a.update L x now libNow).currentKp = a.currentKp ∧
    (a.update L x now libNow).currentKi = a.currentKi ∧
    (a.update L x now libNow).currentKd = a.currentKd := by
  cases ht : a.tuningInProgress with
  | false =>
    have hf : (a.update L x now libNow).tuningInProgress = false := by
      unfold AirIntake.update
      dsimp only
      rw [if_neg (by simp [ht])]
      exact ht
    rw [hf] at h
    exact absurd h (by decide)
  | true =>
    by_cases hg : usub now a.lastTuneTime > PID_SAMPLE_TIME
    · rw [update_tuning_executed L a x now libNow ht hg] at h ⊢
      split_ifs at h ⊢
      · exact absurd h (by simp [AirIntake.setServoPosition])
      · exact ⟨rfl, rfl, rfl, rfl⟩
    · rw [update_tuning_gated L a x now libNow ht (Nat.le_of_not_lt hg)]
      exact ⟨rfl, rfl, rfl, rfl⟩

theorem updates_keep_tuning (L : PIDLib σ) (ticks : List (ℚ × Nat × Nat)) :
    ∀ a : AirIntake σ, (a.updates L ticks).tuningInProgress = true →
      a.tuningInProgress = true ∧
      (a.updates L ticks).currentKp = a.currentKp ∧
      (a.updates L ticks).currentKi = a.currentKi ∧
      (a.updates L ticks).currentKd = a.currentKd := by
  induction ticks with
  | nil => intro a h; exact ⟨h, rfl, rfl, rfl⟩
  | cons t rest ih =>
    intro a h
    have hstep : AirIntake.updates L a (t :: rest) =
        AirIntake.updates L (a.update L t.1 t.2.1 t.2.2) rest := rfl
    rw [hstep] at h ⊢
    obtain ⟨i0, i1, i2, i3⟩ := ih _ h
    obtain ⟨u0, u1, u2, u3⟩ := update_keeps_tuning L a t.1 t.2.1 t.2.2 i0
    exact ⟨u0, i1.trans u1, i2.trans u2, i3.trans u3⟩

theorem cancel_tuning (L : PIDLib σ) (a : AirIntake σ) (h : a.tuningInProgress = true) :
    a.cancelAutoTune L =
      { a with
        tuningInProgress := false
        autoTune := a.autoTune.cancel
        pid := L.SetMode a.pid true a.input a.output } := by
  unfold AirIntake.cancelAutoTune
  rw [if_pos h]

/-- C12: in every state in which a tuning is in progress, `cancelAutoTune` leaves
`isAutoTuning()` false and the tuner not running and keeps the reported gains; when the
state was reached from a successful `startAutoTune` by any number of `update` ticks,
whatever the phase of the tuner, `getKp`, `getKi` and `getKd` after the cancellation equal
their values before `startAutoTune` was called.  When no tuning is in progress
`cancelAutoTune` changes nothing. -/
theorem cancel_restores_pretuning_gains (L : PIDLib σ) (a0 b : AirIntake σ)
    (nowInit nowStart now : Nat) (ticks : List (ℚ × Nat × Nat)) :
    (a0.isAutoTuning = false →
      ((a0.startAutoTune L nowInit nowStart now).1.updates L ticks).isAutoTuning = true →
      (((a0.startAutoTune L nowInit nowStart now).1.updates L ticks).cancelAutoTune
        L).isAutoTuning = false ∧
      (((a0.startAutoTune L nowInit nowStart now).1.updates L ticks).cancelAutoTune
        L).autoTune.isRunning = false ∧
      (((a0.startAutoTune L nowInit nowStart now).1.updates L ticks).cancelAutoTune
        L).getKp = a0.getKp ∧
      (((a0.startAutoTune L nowInit nowStart now).1.updates L ticks).cancelAutoTune
        L).getKi = a0.getKi ∧
      (((a0.startAutoTune L nowInit nowStart now).1.updates L ticks).cancelAutoTune
        L).getKd = a0.getKd) ∧
    (b.isAutoTuning = true →
      (b.cancelAutoTune L).isAutoTuning = false ∧
      (b.cancelAutoTune L).autoTune.isRunning = false ∧
      (b.cancelAutoTune L).getKp = b.getKp ∧
      (b.cancelAutoTune L).getKi = b.getKi ∧
      (b.cancelAutoTune L).getKd = b.getKd) ∧
    (b.isAutoTuning = false → b.cancelAutoTune L = b) := by
  have hany : ∀ c : AirIntake σ, c.tuningInProgress = true →
      (c.cancelAutoTune L).tuningInProgress = false ∧
      (c.cancelAutoTune L).autoTune._running = false ∧
      (c.cancelAutoTune L).currentKp = c.currentKp ∧
      (c.cancelAutoTune L).currentKi = c.currentKi ∧
      (c.cancelAutoTune L).currentKd = c.currentKd := by
    intro c hc
    rw [cancel_tuning L c hc]
    exact ⟨rfl, rfl, rfl, rfl, rfl⟩
  unfold AirIntake.isAutoTuning AirIntake.getKp AirIntake.getKi AirIntake.getKd
    PIDAutoTune.isRunning
  refine ⟨?_, hany b, ?_⟩
  · intro h0 hrun
    obtain ⟨c1, c2, c3, c4, c5⟩ := hany _ hrun
    obtain ⟨-, k1, k2, k3⟩ := updates_keep_tuning L ticks _ hrun
    have hs := startAutoTune_idle L a0 nowInit nowStart now h0
    have s1 : (a0.startAutoTune L nowInit nowStart now).1.currentKp = a0.currentKp := by
      rw [hs]
    have s2 : (a0.startAutoTune L nowInit nowStart now).1.currentKi = a0.currentKi := by
      rw [hs]
    have s3 : (a0.startAutoTune L nowInit nowStart now).1.currentKd = a0.currentKd := by
      rw [hs]
    exact ⟨c1, c2, c3.trans (k1.trans s1), c4.trans (k2.trans s2), c5.trans (k3.trans s3)⟩
  · intro hb
    unfold AirIntake.cancelAutoTune
    rw [if_neg (by simp [hb])]

/-- Witness of C12: a tuning started at time 0 and cancelled after five `update` ticks. -/
theorem cancel_restores_pretuning_gains_witness :
    ((AirIntake.new specPID 0).begin specPID).isAutoTuning = false ∧
    (tuningIntake.updates specPID (waveTicks.take 5)).isAutoTuning = true ∧
    ((tuningIntake.updates specPID (waveTicks.take 5)).cancelAutoTune specPID).getKp =
      ((AirIntake.new specPID 0).begin specPID).getKp ∧
    ((tuningIntake.updates specPID (waveTicks.take 5)).cancelAutoTune
      specPID).autoTune.isRunning = false :=
  let h := (cancel_restores_pretuning_gains specPID ((AirIntake.new specPID 0).begin specPID)
    (tuningIntake.updates specPID (waveTicks.take 5)) 0 0 0 (waveTicks.take 5)).1 rfl
    (by decide!)
  ⟨rfl, by decide!, h.2.2.1, h.2.1⟩

theorem toInt_intCast (n : Int) : toInt (n : ℚ) = n := by
  simp [toInt]

theorem constrain_eq_clamp (n : Int) :
    ((constrain n 0 100 : Int) : ℚ) = max 0 (min 100 (n : ℚ)) := by
  unfold constrain
  split_ifs with h1 h2
  · have : (n : ℚ) < 0 := by exact_mod_cast h1
    rw [max_eq_left]
    · simp
    · exact le_trans (min_le_right _ _) this.le
  · have : (100 : ℚ) < n := by exact_mod_cast h2
    rw [min_eq_left this.le]
    simp
  · have h3 : (0 : ℚ) ≤ n := by exact_mod_cast (not_lt.mp h1)
    have h4 : (n : ℚ) ≤ 100 := by exact_mod_cast (not_lt.mp h2)
    rw [min_eq_right h4, max_eq_right h3]

/-- C13: on the `update` tick of a tuning whose tuner step is executed and returns true,
`isAutoTuning()` becomes false, `getKp`, `getKi`, `getKd` become the gains stored by the
tuner in that step, and the actuator command is the tuner's command converted to `int` and
clamped to `[0,100]` (for an integral command, its clamp to `[0,100]`).  On every other
tick of a tuning (the step is not executed, or it returns false) the reported gains are
unchanged and the tuning stays in progress. -/
theorem tuning_completion_installs_gains (L : PIDLib σ) (a : AirIntake σ) (x : ℚ)
    (now libNow : Nat) (ht : a.isAutoTuning = true) :
    (usub now a.lastTuneTime > PID_SAMPLE_TIME →
      (a.autoTune.compute libNow x a.output).2.2 = true →
      (a.update L x now libNow).isAutoTuning = false ∧
      (a.update L x now libNow).autoTune = (a.autoTune.compute libNow x a.output).1 ∧
      (a.update L x now libNow).getKp = (a.autoTune.compute libNow x a.output).1.getKp ∧
      (a.update L x now libNow).getKi = (a.autoTune.compute libNow x a.output).1.getKi ∧
      (a.update L x now libNow).getKd = (a.autoTune.compute libNow x a.output).1.getKd ∧
      (a.update L x now libNow).currentPosition =
        constrain (toInt (a.autoTune.compute libNow x a.output).2.1) 0 100 ∧
      (∀ n : Int, (a.autoTune.compute libNow x a.output).2.1 = n →
        (a.update L x now libNow).getCurrentOutput =
          max 0 (min 100 (a.autoTune.compute libNow x a.output).2.1))) ∧
    (¬ (usub now a.lastTuneTime > PID_SAMPLE_TIME ∧
        (a.autoTune.compute libNow x a.output).2.2 = true) →
      (a.update L x now libNow).isAutoTuning = true ∧
      (a.update L x now libNow).getKp = a.getKp ∧
      (a.update L x now libNow).getKi = a.getKi ∧
      (a.update L x now libNow).getKd = a.getKd) := by
  unfold AirIntake.isAutoTuning at ht
  unfold AirIntake.isAutoTuning AirIntake.getKp AirIntake.getKi AirIntake.getKd
    AirIntake.getCurrentOutput
  constructor
  · intro hg hres
    rw [update_tuning_executed L a x now libNow ht hg, if_pos hres]
    refine ⟨rfl, rfl, rfl, rfl, rfl, rfl, ?_⟩
    intro n hn
    rw [setServoPosition_position, hn, toInt_intCast]
    exact constrain_eq_clamp n
  · intro hno
    by_cases hg : usub now a.lastTuneTime > PID_SAMPLE_TIME
    · have hres : ¬ (a.autoTune.compute libNow x a.output).2.2 = true :=
        fun h => hno ⟨hg, h⟩
      rw [update_tuning_executed L a x now libNow ht hg, if_neg hres]
      exact ⟨ht, rfl, rfl, rfl⟩
    · rw [update_tuning_gated L a x now libNow ht (Nat.le_of_not_lt hg)]
      exact ⟨ht, rfl, rfl, rfl⟩

/-- Witness of C13: the eighteenth tick of `waveTicks` (time 27000 ms, sample 90), on
which the tuner completes. -/
theorem tuning_completion_installs_gains_witness :
    (tuningIntake.updates specPID (waveTicks.take 17)).isAutoTuning = true ∧
    ((tuningIntake.updates specPID (waveTicks.take 17)).update specPID 90 27000
      27000).isAutoTuning = false ∧
    ((tuningIntake.updates specPID (waveTicks.take 17)).update specPID 90 27000
      27000).getKp =
      ((tuningIntake.updates specPID (waveTicks.take 17)).autoTune.compute 27000 90
        (tuningIntake.updates specPID (waveTicks.take 17)).output).1.getKp :=
  let h := (tuning_completion_installs_gains specPID
    (tuningIntake.updates specPID (waveTicks.take 17)) 90 27000 27000 (by decide!)).1
    (by decide!) (by decide!)
  ⟨by decide!, h.1, h.2.2.1⟩

/-- C18: `setServoMin(m)` sets `servoMin` to `m` when `0 <= m < servoMax` and otherwise
changes nothing; `setServoMax(M)` sets `servoMax` to `M` when `servoMin < M <= 180` and
otherwise changes nothing; an accepted value changes that one limit only, so neither setter
ever changes the other limit or the current actuator command. -/
theorem servo_limit_setters_validate (a : AirIntake σ) (m : Int) :
    (0 ≤ m ∧ m < a.servoMax → a.setServoMin m = { a with servoMin := m }) ∧
    (¬ (0 ≤ m ∧ m < a.servoMax) → a.setServoMin m = a) ∧
    ((a.setServoMin m).getServoMin = m ↔ (0 ≤ m ∧ m < a.servoMax) ∨ a.getServoMin = m) ∧
    (a.setServoMin m).getServoMax = a.getServoMax ∧
    (a.setServoMin m).getCurrentOutput = a.getCurrentOutput ∧
    (a.servoMin < m ∧ m ≤ 180 → a.setServoMax m = { a with servoMax := m }) ∧
    (¬ (a.servoMin < m ∧ m ≤ 180) → a.setServoMax m = a) ∧
    ((a.setServoMax m).getServoMax = m ↔ (a.servoMin < m ∧ m ≤ 180) ∨ a.getServoMax = m) ∧
    (a.setServoMax m).getServoMin = a.getServoMin ∧
    (a.setServoMax m).getCurrentOutput = a.getCurrentOutput := by
  unfold AirIntake.setServoMin AirIntake.setServoMax AirIntake.getServoMin
    AirIntake.getServoMax AirIntake.getCurrentOutput
  refine ⟨?_, ?_, ?_, ?_, ?_, ?_, ?_, ?_, ?_, ?_⟩
  · intro h; rw [if_pos ⟨h.1, h.2⟩]
  · intro h; rw [if_neg (fun hc => h ⟨hc.1, hc.2⟩)]
  · by_cases h : m ≥ 0 ∧ m < a.servoMax
    · rw [if_pos h]; simp [h.1, h.2]
    · rw [if_neg h]
      constructor
      · intro e; exact Or.inr e
      · rintro (hc | e)
        · exact absurd ⟨hc.1, hc.2⟩ h
        · exact e
  · split_ifs <;> rfl
  · split_ifs <;> rfl
  · intro h; rw [if_pos ⟨h.1, h.2⟩]
  · intro h; rw [if_neg (fun hc => h ⟨hc.1, hc.2⟩)]
  · by_cases h : m > a.servoMin ∧ m ≤ 180
    · rw [if_pos h]; simp [h.1, h.2]
    · rw [if_neg h]
      constructor
      · intro e; exact Or.inr e
      · rintro (hc | e)
        · exact absurd ⟨hc.1, hc.2⟩ h
        · exact e
  · split_ifs <;> rfl
  · split_ifs <;> rfl

/-- Witness of C18: on the `AirIntake` left by `begin()` (limits 0 and 180), 20 is accepted
as minimum and 200 is rejected as maximum. -/
theorem servo_limit_setters_validate_witness :
    (((AirIntake.new specPID 0).begin specPID).setServoMin 20).getServoMin = 20 ∧
    (((AirIntake.new specPID 0).begin specPID).setServoMax 200).getServoMax = 180 :=
  ⟨congrArg AirIntake.getServoMin
      ((servo_limit_setters_validate ((AirIntake.new specPID 0).begin specPID) 20).1
        (by decide)),
    congrArg AirIntake.getServoMax
      ((servo_limit_setters_validate ((AirIntake.new specPID 0).begin specPID) 200).2.2.2.2.2.2.1
        (by decide))⟩

end TuningControl

/-! ## Tuner life cycle and phases -/

section TunerLifeCycle

theorem recordPeak_frame (t : PIDAutoTune) (now : Nat) (x : ℚ) :
    (t.recordPeak now x)._initialized = t._initialized ∧
    (t.recordPeak now x)._running = t._running ∧
    (t.recordPeak now x)._lastTime = now ∧
    (t.recordPeak now x)._lastInputs = PIDAutoTune.shiftInputs t._lastInputs x ∧
    (t.recordPeak now x)._peaks = t._peaks ∧
    (t.recordPeak now x)._state = t._state ∧
    (t.recordPeak now x)._kp = t._kp ∧
    (t.recordPeak now x)._ki = t._ki ∧
    (t.recordPeak now x)._kd = t._kd := by
  unfold PIDAutoTune.recordPeak
  dsimp only
  split_ifs <;> exact ⟨rfl, rfl, rfl, rfl, rfl, rfl, rfl, rfl, rfl⟩

theorem stampPeak_frame (u : PIDAutoTune) (now : Nat) :
    (u.stampPeak now)._initialized = u._initialized ∧
    (u.stampPeak now)._running = u._running ∧
    (u.stampPeak now)._lastTime = u._lastTime ∧
    (u.stampPeak now)._lastInputs = u._lastInputs ∧
    (u.stampPeak now)._peakCount = u._peakCount ∧
    (u.stampPeak now)._state = u._state ∧
    (u.stampPeak now)._kp = u._kp ∧
    (u.stampPeak now)._ki = u._ki ∧
    (u.stampPeak now)._kd = u._kd := by
  unfold PIDAutoTune.stampPeak
  split_ifs <;> exact ⟨rfl, rfl, rfl, rfl, rfl, rfl, rfl, rfl, rfl⟩

theorem finish_frame (u : PIDAutoTune) (now : Nat) :
    (u.finish now)._initialized = u._initialized ∧
    (u.finish now)._lastTime = u._lastTime ∧
    (u.finish now)._lastInputs = u._lastInputs ∧
    (u.finish now)._state = u._state := by
  unfold PIDAutoTune.finish
  cases u._controlType <;> exact ⟨rfl, rfl, rfl, rfl⟩

/-- An executed step (tuner running, at least 500 ms since the step timer) sets the step
timer to the current time and keeps the initialised flag; a step never starts a tuner. -/
theorem compute_executed (t : PIDAutoTune) (now : Nat) (input output : ℚ)
    (hr : t._running = true) (hg : ¬ usub now t._lastTime < 500) :
    (t.compute now input output).1._lastTime = now ∧
    (t.compute now input output).1._initialized = t._initialized := by
  by_cases hs : t._state = 0
  · rw [compute_steady t now input output hr hg hs]
    split_ifs <;> exact ⟨rfl, rfl⟩
  · rw [compute_osc t now input output hr hg hs]
    obtain ⟨r1, -, r3, -⟩ := recordPeak_frame t now input
    split_ifs
    · obtain ⟨f1, f2, -, -⟩ := finish_frame (t.recordPeak now input) now
      exact ⟨f2.trans r3, f1.trans r1⟩
    · obtain ⟨s1, -, s3, -⟩ := stampPeak_frame (t.recordPeak now input) now
      exact ⟨s3.trans r3, s1.trans r1⟩

theorem compute_flags (t : PIDAutoTune) (now : Nat) (input output : ℚ) :
    (t.compute now input output).1._initialized = t._initialized ∧
    ((t.compute now input output).1._running = true → t._running = true) := by
  cases hr : t._running with
  | false =>
    rw [compute_idle t now input output hr]
    exact ⟨rfl, fun h => by rw [hr] at h; exact h⟩
  | true =>
    by_cases hg : usub now t._lastTime < 500
    · rw [compute_gated t now input output hg]
      exact ⟨rfl, fun _ => rfl⟩
    · exact ⟨(compute_executed t now input output hr hg).2, fun _ => rfl⟩

theorem applyOp_running_initialized (s : PIDAutoTune × ℚ) (op : TunerOp)
    (hinv : s.1._running = true → s.1._initialized = true) :
    (PIDAutoTune.applyOp s op).1._running = true →
      (PIDAutoTune.applyOp s op).1._initialized = true := by
  cases op with
  | init now x sp st nb c => intro _; rfl
  | start now =>
    show (s.1.start now)._running = true → (s.1.start now)._initialized = true
    unfold PIDAutoTune.start
    split_ifs with hi
    · intro _; exact hi
    · exact hinv
  | cancel =>
    intro h
    exact absurd h (by simp [PIDAutoTune.applyOp, PIDAutoTune.cancel])
  | compute now x =>
    intro h
    obtain ⟨c1, c2⟩ := compute_flags s.1 now x s.2
    exact c1.trans (hinv (c2 h))

theorem applyOps_running_initialized (ops : List TunerOp) :
    ∀ s : PIDAutoTune × ℚ, (s.1._running = true → s.1._initialized = true) →
      (PIDAutoTune.applyOps s ops).1._running = true →
      (PIDAutoTune.applyOps s ops).1._initialized = true := by
  induction ops with
  | nil => intro s h; exact h
  | cons op rest ih =>
    intro s h
    exact ih (PIDAutoTune.applyOp s op) (applyOp_running_initialized s op h)

/-- Counterexample to C14: `midExperimentTuner` is running in the oscillation phase with
two confirmed peaks (latest values 90 and 80, peak-sign flag +1, step timer 7000); calling
`start()` at 7200 ms puts it back in the awaiting-steady phase with peak count 0, flag 0,
both peak values 0 and the step timer at 7200. -/
theorem start_resets_running_tuner :
    midExperimentTuner._running = true ∧
    midExperimentTuner._state = 1 ∧
    midExperimentTuner._peakCount = 2 ∧
    midExperimentTuner._peakType = 1 ∧
    midExperimentTuner._peak1 = 90 ∧
    midExperimentTuner._peak2 = 80 ∧
    midExperimentTuner._lastTime = 7000 ∧
    (midExperimentTuner.start 7200)._state = 0 ∧
    (midExperimentTuner.start 7200)._peakCount = 0 ∧
    (midExperimentTuner.start 7200)._peakType = 0 ∧
    (midExperimentTuner.start 7200)._peak1 = 0 ∧
    (midExperimentTuner.start 7200)._peak2 = 0 ∧
    (midExperimentTuner.start 7200)._lastTime = 7200 := by
  refine ⟨by decide!, by decide!, by decide!, by decide!, by decide!, by decide!, by decide!,
    by decide!, by decide!, by decide!, by decide!, by decide!, by decide!⟩

/-- C14 as amended: `PIDAutoTune::start` is a silent no-op only on a tuner that was never
initialised.  On an initialised tuner, running or not, it re-arms the experiment: phase
awaiting-steady, peak count 0, peak-sign flag 0, both recorded peak values 0, step timer
at the current time, running; the sample ring, the peak timestamps, the stored gains and
the configuration are unchanged.  Every running tuner reached from the constructor by
`init`, `start`, `cancel` and `compute` is initialised. -/
theorem start_rearms_initialised_tuner (t : PIDAutoTune) (now : Nat) (ops : List TunerOp)
    (out : ℚ) :
    (t._initialized = false → t.start now = t) ∧
    (t._initialized = true →
      (t.start now)._state = 0 ∧
      (t.start now)._peakCount = 0 ∧
      (t.start now)._peakType = 0 ∧
      (t.start now)._peak1 = 0 ∧
      (t.start now)._peak2 = 0 ∧
      (t.start now)._lastTime = now ∧
      (t.start now)._running = true ∧
      (t.start now)._lastInputs = t._lastInputs ∧
      (t.start now)._peaks = t._peaks ∧
      (t.start now)._kp = t._kp ∧
      (t.start now)._ki = t._ki ∧
      (t.start now)._kd = t._kd ∧
      (t.start now)._setpoint = t._setpoint ∧
      (t.start now)._outputStep = t._outputStep ∧
      (t.start now)._noiseband = t._noiseband ∧
      (t.start now)._controlType = t._controlType) ∧
    ((PIDAutoTune.applyOps (PIDAutoTune.reset, out) ops).1._running = true →
      (PIDAutoTune.applyOps (PIDAutoTune.reset, out) ops).1._initialized = true) := by
  refine ⟨?_, ?_, ?_⟩
  · intro h
    unfold PIDAutoTune.start
    rw [if_neg (by simp [h])]
  · intro h
    unfold PIDAutoTune.start
    rw [if_pos h]
    exact ⟨rfl, rfl, rfl, rfl, rfl, rfl, rfl, rfl, rfl, rfl, rfl, rfl, rfl, rfl, rfl, rfl⟩
  · exact applyOps_running_initialized ops (PIDAutoTune.reset, out)
      (fun h => absurd h (by simp [PIDAutoTune.reset]))

/-- Witness of the amended C14: `start()` at 7200 ms on `midExperimentTuner`. -/
theorem start_rearms_initialised_tuner_witness :
    midExperimentTuner._initialized = true ∧
    (midExperimentTuner.start 7200)._peakCount = 0 ∧
    (midExperimentTuner.start 7200)._lastTime = 7200 :=
  let h := (start_rearms_initialised_tuner midExperimentTuner 7200 [] 0).2.1 (by decide!)
  ⟨by decide!, h.2.1, h.2.2.2.2.2.1⟩

/-- C15: a tuner step invoked less than 500 ms after the step timer was last set is a
no-op: `compute()` returns false, changes no tuner field and does not write the command
output; the step timer is set by every executed step and by `start()`, so this is the
time of the previously executed step or of the start.  `compute()` on a tuner that is not
running also returns false and changes nothing. -/
theorem early_or_idle_step_is_noop (t : PIDAutoTune) (now : Nat) (input output : ℚ) :
    (usub now t._lastTime < 500 → t.compute now input output = (t, output, false)) ∧
    (t.isRunning = false → t.compute now input output = (t, output, false)) ∧
    (t.isRunning = true → ¬ usub now t._lastTime < 500 →
      (t.compute now input output).1._lastTime = now) ∧
    (t._initialized = true → (t.start now)._lastTime = now) := by
  refine ⟨compute_gated t now input output, compute_idle t now input output, ?_, ?_⟩
  · intro hr hg
    exact (compute_executed t now input output hr hg).1
  · intro hi
    unfold PIDAutoTune.start
    rw [if_pos hi]

/-- Witness of C15: `midExperimentTuner` last stepped at 7000 ms; a step at 7300 ms is
dropped and one at 7500 ms is executed. -/
theorem early_or_idle_step_is_noop_witness :
    usub 7300 midExperimentTuner._lastTime < 500 ∧
    midExperimentTuner.compute 7300 85 50 = (midExperimentTuner, 50, false) ∧
    (midExperimentTuner.compute 7500 85 50).1._lastTime = 7500 :=
  ⟨by decide!,
    (early_or_idle_step_is_noop midExperimentTuner 7300 85 50).1 (by decide!),
    (early_or_idle_step_is_noop midExperimentTuner 7500 85 50).2.2.1 (by decide!)
      (by decide!)⟩

theorem runTuner_idle (samples : List (Nat × ℚ)) :
    ∀ (t : PIDAutoTune) (out : ℚ), t._running = false →
      runTuner t out samples = (t, out, samples.map (fun _ => false)) := by
  induction samples with
  | nil => intro t out _; rfl
  | cons s rest ih =>
    intro t out h
    obtain ⟨now, x⟩ := s
    have hstep : runTuner t out ((now, x) :: rest) =
        ((runTuner (t.compute now x out).1 (t.compute now x out).2.1 rest).1,
         (runTuner (t.compute now x out).1 (t.compute now x out).2.1 rest).2.1,
         (t.compute now x out).2.2 ::
           (runTuner (t.compute now x out).1 (t.compute now x out).2.1 rest).2.2) := rfl
    rw [hstep, compute_idle t now x out h, ih t out h]
    rfl

theorem runTuner_true_once (samples : List (Nat × ℚ)) :
    ∀ (t : PIDAutoTune) (out : ℚ), (runTuner t out samples).2.2.count true ≤ 1 := by
  induction samples with
  | nil => intro t out; simp [runTuner]
  | cons s rest ih =>
    intro t out
    obtain ⟨now, x⟩ := s
    have hstep : (runTuner t out ((now, x) :: rest)).2.2 =
        (t.compute now x out).2.2 ::
          (runTuner (t.compute now x out).1 (t.compute now x out).2.1 rest).2.2 := rfl
    rw [hstep]
    cases hres : (t.compute now x out).2.2 with
    | false =>
      rw [List.count_cons_of_ne (by decide)]
      exact ih _ _
    | true =>
      obtain ⟨-, -, -, -, he, -⟩ := compute_true t now x out hres
      have hidle : (t.compute now x out).1._running = false := by
        rw [he]
        exact (finish_fields _ now).2.2.2.2.2.2
      rw [runTuner_idle rest _ _ hidle, List.count_cons_self]
      have hz : (List.map (fun _ => false) rest).count true = 0 := by
        rw [List.count_eq_zero]
        simp
      show (List.map (fun _ => false) rest).count true + 1 ≤ 1
      rw [hz]

/-- C16: once `compute()` has returned true the tuner is idle: `isRunning()` is false and
every later `compute()` call, at any time and with any input, returns false and leaves
the tuner (its gains included) and the command output unchanged, for any number of calls;
`start()` arms it again.  Hence no sequence of `compute()` calls yields more than one
result. -/
theorem completed_tuner_stays_idle (t : PIDAutoTune) (now : Nat) (input output : ℚ)
    (h : (t.compute now input output).2.2 = true) :
    (t.compute now input output).1.isRunning = false ∧
    (∀ (now2 : Nat) (x out : ℚ),
      (t.compute now input output).1.compute now2 x out =
        ((t.compute now input output).1, out, false)) ∧
    (∀ (samples : List (Nat × ℚ)) (out : ℚ),
      runTuner (t.compute now input output).1 out samples =
        ((t.compute now input output).1, out, samples.map (fun _ => false))) ∧
    (∀ now2 : Nat, (t.compute now input output).1._initialized = true →
      ((t.compute now input output).1.start now2).isRunning = true) ∧
    (∀ (samples : List (Nat × ℚ)) (u : PIDAutoTune) (out : ℚ),
      (runTuner u out samples).2.2.count true ≤ 1) := by
  obtain ⟨-, -, -, -, he, -⟩ := compute_true t now input output h
  have hidle : (t.compute now input output).1._running = false := by
    rw [he]
    exact (finish_fields _ now).2.2.2.2.2.2
  refine ⟨hidle, ?_, ?_, ?_, ?_⟩
  · intro now2 x out
    exact compute_idle _ now2 x out hidle
  · intro samples out
    exact runTuner_idle samples _ out hidle
  · intro now2 hi
    unfold PIDAutoTune.isRunning PIDAutoTune.start
    rw [if_pos hi]
  · intro samples u out
    exact runTuner_true_once samples u out

/-- Witness of C16: the eighteenth step of `waveSignal` completes the experiment. -/
theorem completed_tuner_stays_idle_witness :
    (waveBeforeLast.1.compute 9000 90 waveBeforeLast.2).2.2 = true ∧
    (waveBeforeLast.1.compute 9000 90 waveBeforeLast.2).1.isRunning = false :=
  ⟨by decide!,
    (completed_tuner_stays_idle waveBeforeLast.1 9000 90 waveBeforeLast.2 (by decide!)).1⟩

/-- C17 (defect in the code): `init()` writes only entry 0 of the sample ring and nothing
of the timestamps, while the constructor's `reset()` clears both, so a re-armed tuner keeps
nine samples of its previous experiment.  Armed alike and fed the same `quickSignal`, a
freshly constructed tuner confirms no peak and returns false six times, whereas a tuner
that completed `waveSignal` before (and likewise one cancelled in the middle of it)
returns true on the sixth step, with other gains and another final command. -/
theorem rearmed_tuner_depends_on_history :
    (rearm PIDAutoTune.reset)._lastInputs = [85, 0, 0, 0, 0, 0, 0, 0, 0, 0] ∧
    (rearm completedTuner)._lastInputs = [85, 85, 80, 85, 90, 85, 80, 85, 90, 85] ∧
    (runTuner (rearm PIDAutoTune.reset) 0 quickSignal).2.2 =
      [false, false, false, false, false, false] ∧
    (runTuner (rearm completedTuner) 0 quickSignal).2.2 =
      [false, false, false, false, false, true] ∧
    (runTuner (rearm midExperimentTuner.cancel) 0 quickSignal).2.2 =
      [false, false, false, false, false, true] ∧
    (runTuner (rearm PIDAutoTune.reset) 0 quickSignal).1._peakCount = 0 ∧
    (runTuner (rearm completedTuner) 0 quickSignal).1._peakCount = 4 ∧
    (runTuner (rearm PIDAutoTune.reset) 0 quickSignal).1.getKp = 0 ∧
    (runTuner (rearm completedTuner) 0 quickSignal).1.getKp ≠ 0 ∧
    (runTuner (rearm PIDAutoTune.reset) 0 quickSignal).2.1 = 50 ∧
    (runTuner (rearm completedTuner) 0 quickSignal).2.1 = 0 := by
  refine ⟨by decide!, by decide!, by decide!, by decide!, by decide!, by decide!, by decide!,
    by decide!, by decide!, by decide!, by decide!⟩

theorem abs_eq_abs (x : ℚ) : Boiler.abs x = |x| := by
  unfold Boiler.abs
  split_ifs with h
  · exact (abs_of_pos h).symm
  · exact (abs_of_nonpos (not_lt.mp h)).symm

/-- C19: on an executed step in the awaiting-steady phase, if `|measured - setpoint|` is
at least the noise band the command is 0 when measured > setpoint and `stepSize`
otherwise, and the tuner stays in that phase; if it is below the noise band the command
is set to the opposite extreme (`stepSize` when measured > setpoint, else 0) and the tuner
enters the oscillation phase.  In both cases the step returns false and touches neither
the sample ring nor the peak count. -/
theorem steady_phase_step (t : PIDAutoTune) (now : Nat) (input output : ℚ)
    (hr : t.isRunning = true) (hg : ¬ usub now t._lastTime < 500) (hs : t._state = 0) :
    (t._noiseband ≤ |input - t._setpoint| →
      (t.compute now input output).2.1 = (if input > t._setpoint then 0 else t._outputStep) ∧
      (t.compute now input output).1._state = 0) ∧
    (|input - t._setpoint| < t._noiseband →
      (t.compute now input output).2.1 = (if input > t._setpoint then t._outputStep else 0) ∧
      (t.compute now input output).1._state = 1) ∧
    (t.compute now input output).2.2 = false ∧
    (t.compute now input output).1._lastInputs = t._lastInputs ∧
    (t.compute now input output).1._peakCount = t._peakCount := by
  rw [compute_steady t now input output hr hg hs, abs_eq_abs]
  refine ⟨?_, ?_, ?_, ?_, ?_⟩
  · intro h
    rw [if_neg (not_lt.mpr h)]
    exact ⟨rfl, hs⟩
  · intro h
    rw [if_pos h]
    exact ⟨rfl, rfl⟩
  · split_ifs <;> rfl
  · split_ifs <;> rfl
  · split_ifs <;> rfl

/-- Witness of C19: the tuner armed at time 0 with setpoint 85 and noise band 1, stepped
at 500 ms with measured value 70 (outside the band) and with 85 (inside it). -/
theorem steady_phase_step_witness :
    (armedTuner.compute 500 70 0).2.1 = (if (70 : ℚ) > armedTuner._setpoint then 0
      else armedTuner._outputStep) ∧
    (armedTuner.compute 500 70 0).1._state = 0 ∧
    (armedTuner.compute 500 85 0).1._state = 1 :=
  let h70 := (steady_phase_step armedTuner 500 70 0 (by decide!) (by decide!)
    (by decide!)).1 (by decide!)
  let h85 := (steady_phase_step armedTuner 500 85 0 (by decide!) (by decide!)
    (by decide!)).2.1 (by decide!)
  ⟨h70.1, h70.2, h85.2⟩

theorem ring_cases (xs : List ℚ) (h : xs.length = 10) :
    ∃ a0 a1 a2 a3 a4 a5 a6 a7 a8 a9 : ℚ, xs = [a0, a1, a2, a3, a4, a5, a6, a7, a8, a9] := by
  match xs, h with
  | [a0, a1, a2, a3, a4, a5, a6, a7, a8, a9], _ =>
    exact ⟨a0, a1, a2, a3, a4, a5, a6, a7, a8, a9, rfl⟩

theorem shiftInputs_eq (xs : List ℚ) (h : xs.length = 10) (x : ℚ) :
    PIDAutoTune.shiftInputs xs x = x :: xs.take 9 := by
  obtain ⟨a0, a1, a2, a3, a4, a5, a6, a7, a8, a9, rfl⟩ := ring_cases xs h
  rfl

theorem scanExtrema_max (ys : List ℚ) (h : ys.length = 9) (x : ℚ) :
    (PIDAutoTune.scanExtrema (x :: ys)).1 = true ↔ ∀ y ∈ ys, y ≤ x := by
  match ys, h with
  | [a0, a1, a2, a3, a4, a5, a6, a7, a8], _ =>
    simp [PIDAutoTune.scanExtrema]
    tauto

theorem scanExtrema_min (ys : List ℚ) (h : ys.length = 9) (x : ℚ) :
    (PIDAutoTune.scanExtrema (x :: ys)).2 = true ↔ ∀ y ∈ ys, x ≤ y := by
  match ys, h with
  | [a0, a1, a2, a3, a4, a5, a6, a7, a8], _ =>
    simp [PIDAutoTune.scanExtrema]
    tauto

theorem recordPeak_peakType (t : PIDAutoTune) (now : Nat) (x : ℚ) :
    (t.recordPeak now x)._peakType =
      if (PIDAutoTune.scanExtrema (PIDAutoTune.shiftInputs t._lastInputs x)).1 = true then 1
      else if (PIDAutoTune.scanExtrema (PIDAutoTune.shiftInputs t._lastInputs x)).2 = true
        then -1
      else t._peakType := by
  unfold PIDAutoTune.recordPeak
  dsimp only
  split_ifs <;> rfl

/-- Counterexample to C20: after thirteen samples of `waveSignal` the ring holds
85, 80, 85, 90, 85, 80, 85, 90, 85, 80 and the last confirmed extremum is a minimum.  The
next sample, 90, equals two of its nine predecessors, yet it is classified as a maximum
and confirmed as the second peak; and a sample equal to all nine predecessors passes both
tests. -/
theorem tie_is_classified_as_maximum :
    (runTuner armedTuner 0 (waveSignal.take 13)).1._lastInputs =
      [85, 80, 85, 90, 85, 80, 85, 90, 85, 80] ∧
    (90 : ℚ) ∈ (runTuner armedTuner 0 (waveSignal.take 13)).1._lastInputs.take 9 ∧
    PIDAutoTune.scanExtrema (PIDAutoTune.shiftInputs
      (runTuner armedTuner 0 (waveSignal.take 13)).1._lastInputs 90) = (true, false) ∧
    (runTuner armedTuner 0 (waveSignal.take 13)).1._peakType = -1 ∧
    (runTuner armedTuner 0 (waveSignal.take 13)).1._peakCount = 1 ∧
    ((runTuner armedTuner 0 (waveSignal.take 13)).1.compute 7000 90 50).1._peakType = 1 ∧
    ((runTuner armedTuner 0 (waveSignal.take 13)).1.compute 7000 90 50).1._peakCount = 2 ∧
    ((runTuner armedTuner 0 (waveSignal.take 13)).1.compute 7000 90 50).1._peak1 = 90 ∧
    PIDAutoTune.scanExtrema (PIDAutoTune.shiftInputs (List.replicate 10 80) 80) =
      (true, true) := by
  refine ⟨by decide!, by decide!, by decide!, by decide!, by decide!, by decide!, by decide!,
    by decide!, by decide!⟩

/-- C20 as amended: in the oscillation phase the new sample is classified as a local
maximum exactly when it is greater than or equal to each of the 9 preceding ring entries
(none of them is strictly greater), and as a local minimum exactly when it is less than or
equal to each of them; the maximum test is applied first, so the peak-sign flag becomes
+1 for a maximum, -1 for a minimum that is not a maximum, and is otherwise unchanged.  A
sample equal to some predecessors can thus be an extremum, and one equal to all nine is
treated as a maximum. -/
theorem extremum_classification (t : PIDAutoTune) (now : Nat) (x : ℚ)
    (hlen : t._lastInputs.length = 10) :
    (t.recordPeak now x)._lastInputs = x :: t._lastInputs.take 9 ∧
    ((PIDAutoTune.scanExtrema (t.recordPeak now x)._lastInputs).1 = true ↔
      ∀ y ∈ t._lastInputs.take 9, y ≤ x) ∧
    ((PIDAutoTune.scanExtrema (t.recordPeak now x)._lastInputs).2 = true ↔
      ∀ y ∈ t._lastInputs.take 9, x ≤ y) ∧
    ((∀ y ∈ t._lastInputs.take 9, y ≤ x) → (t.recordPeak now x)._peakType = 1) ∧
    ((¬ ∀ y ∈ t._lastInputs.take 9, y ≤ x) → (∀ y ∈ t._lastInputs.take 9, x ≤ y) →
      (t.recordPeak now x)._peakType = -1) ∧
    ((¬ ∀ y ∈ t._lastInputs.take 9, y ≤ x) → (¬ ∀ y ∈ t._lastInputs.take 9, x ≤ y) →
      (t.recordPeak now x)._peakType = t._peakType) := by
  have hring := (recordPeak_frame t now x).2.2.2.1
  have hshift := shiftInputs_eq t._lastInputs hlen x
  have hlen9 : (t._lastInputs.take 9).length = 9 := by
    rw [List.length_take, hlen]
    rfl
  have hmax := scanExtrema_max (t._lastInputs.take 9) hlen9 x
  have hmin := scanExtrema_min (t._lastInputs.take 9) hlen9 x
  have htype := recordPeak_peakType t now x
  rw [hshift] at htype
  rw [hring, hshift]
  refine ⟨rfl, hmax, hmin, ?_, ?_, ?_⟩
  · intro h
    rw [htype, if_pos (hmax.mpr h)]
  · intro h1 h2
    rw [htype, if_neg (fun h => h1 (hmax.mp h)), if_pos (hmin.mpr h2)]
  · intro h1 h2
    rw [htype, if_neg (fun h => h1 (hmax.mp h)), if_neg (fun h => h2 (hmin.mp h))]

/-- Witness of the amended C20: the fourteenth sample of `waveSignal` (90, equal to two
predecessors and not below any) is a maximum. -/
theorem extremum_classification_witness :
    (runTuner armedTuner 0 (waveSignal.take 13)).1._lastInputs.length = 10 ∧
    (∀ y ∈ (runTuner armedTuner 0 (waveSignal.take 13)).1._lastInputs.take 9, y ≤ 90) ∧
    ((runTuner armedTuner 0 (waveSignal.take 13)).1.recordPeak 7000 90)._peakType = 1 :=
  ⟨by decide!, by decide!,
    (extremum_classification (runTuner armedTuner 0 (waveSignal.take 13)).1 7000 90
      (by decide!)).2.2.2.1 (by decide!)⟩

end TunerLifeCycle

/-! ## Relay command and peak bookkeeping -/

section RelayAndPeaks

variable {σ : Type}

theorem recordPeak_config (t : PIDAutoTune) (now : Nat) (x : ℚ) :
    (t.recordPeak now x)._setpoint = t._setpoint ∧
    (t.recordPeak now x)._outputStep = t._outputStep ∧
    (t.recordPeak now x)._noiseband = t._noiseband ∧
    (t.recordPeak now x)._controlType = t._controlType := by
  unfold PIDAutoTune.recordPeak
  dsimp only
  split_ifs <;> exact ⟨rfl, rfl, rfl, rfl⟩

theorem stampPeak_config (u : PIDAutoTune) (now : Nat) :
    (u.stampPeak now)._setpoint = u._setpoint ∧
    (u.stampPeak now)._outputStep = u._outputStep ∧
    (u.stampPeak now)._noiseband = u._noiseband ∧
    (u.stampPeak now)._controlType = u._controlType ∧
    (u.stampPeak now)._peak1 = u._peak1 ∧
    (u.stampPeak now)._peak2 = u._peak2 ∧
    (u.stampPeak now)._peakType = u._peakType := by
  unfold PIDAutoTune.stampPeak
  split_ifs <;> exact ⟨rfl, rfl, rfl, rfl, rfl, rfl, rfl⟩

/-- An executed oscillation-phase step that returns false leaves the tuner of the peak
bookkeeping with its timestamp written and sets the command by the relay rule. -/
theorem compute_osc_false (t : PIDAutoTune) (now : Nat) (input output : ℚ)
    (hr : t._running = true) (hg : ¬ usub now t._lastTime < 500) (hs : t._state ≠ 0)
    (hf : (t.compute now input output).2.2 = false) :
    ¬ (t.recordPeak now input)._peakCount ≥ 4 ∧
    (t.compute now input output).1 = (t.recordPeak now input).stampPeak now ∧
    (t.compute now input output).2.1 = (t.recordPeak now input).relayOutput input output := by
  rw [compute_osc t now input output hr hg hs] at hf ⊢
  split_ifs at hf ⊢ with hc
  exact ⟨hc, rfl, rfl⟩

theorem relayOutput_values (u : PIDAutoTune) (x out : ℚ) :
    u.relayOutput x out = 0 ∨ u.relayOutput x out = u._outputStep ∨
      u.relayOutput x out = out := by
  unfold PIDAutoTune.relayOutput
  split_ifs
  · exact Or.inl rfl
  · exact Or.inr (Or.inl rfl)
  · exact Or.inr (Or.inr rfl)

/-- One `compute()` call keeps the step size and keeps the property that, outside the
awaiting-steady phase, the command is 0 or the step size; an executed step leaves the
command at 0 or the step size. -/
theorem compute_two_level (t : PIDAutoTune) (now : Nat) (input output : ℚ)
    (hinv : t._state ≠ 0 → output = 0 ∨ output = t._outputStep) :
    (t.compute now input output).1._outputStep = t._outputStep ∧
    ((t.compute now input output).1._state ≠ 0 →
      (t.compute now input output).2.1 = 0 ∨
      (t.compute now input output).2.1 = t._outputStep) ∧
    (t._running = true → ¬ usub now t._lastTime < 500 →
      (t.compute now input output).2.1 = 0 ∨
      (t.compute now input output).2.1 = t._outputStep) := by
  cases hr : t._running with
  | false =>
    rw [compute_idle t now input output hr]
    exact ⟨rfl, hinv, fun h => absurd h (by decide)⟩
  | true =>
    by_cases hg : usub now t._lastTime < 500
    · rw [compute_gated t now input output hg]
      exact ⟨rfl, hinv, fun _ h => absurd hg h⟩
    · by_cases hs : t._state = 0
      · rw [compute_steady t now input output hr hg hs]
        split_ifs
        · exact ⟨rfl, fun _ => Or.inr rfl, fun _ _ => Or.inr rfl⟩
        · exact ⟨rfl, fun _ => Or.inl rfl, fun _ _ => Or.inl rfl⟩
        · exact ⟨rfl, fun _ => Or.inl rfl, fun _ _ => Or.inl rfl⟩
        · exact ⟨rfl, fun _ => Or.inr rfl, fun _ _ => Or.inr rfl⟩
      · have hout := hinv hs
        obtain ⟨-, c2, -, -⟩ := recordPeak_config t now input
        rw [compute_osc t now input output hr hg hs]
        split_ifs
        · have hstep : ((t.recordPeak now input).finish now)._outputStep = t._outputStep :=
            (finish_fields _ now).1.trans c2
          exact ⟨hstep, fun _ => hout, fun _ _ => hout⟩
        · have hstep : ((t.recordPeak now input).stampPeak now)._outputStep =
              t._outputStep := (stampPeak_config _ now).2.1.trans c2
          have hrel : (t.recordPeak now input).relayOutput input output = 0 ∨
              (t.recordPeak now input).relayOutput input output = t._outputStep := by
            rcases relayOutput_values (t.recordPeak now input) input output with h | h | h
            · exact Or.inl h
            · exact Or.inr (h.trans c2)
            · rw [h]; exact hout
          exact ⟨hstep, fun _ => hrel, fun _ _ => hrel⟩

theorem applyOp_two_level (s : PIDAutoTune × ℚ) (op : TunerOp)
    (hinv : s.1._state ≠ 0 → s.2 = 0 ∨ s.2 = s.1._outputStep) :
    (PIDAutoTune.applyOp s op).1._state ≠ 0 →
      (PIDAutoTune.applyOp s op).2 = 0 ∨
      (PIDAutoTune.applyOp s op).2 = (PIDAutoTune.applyOp s op).1._outputStep := by
  cases op with
  | init now x sp st nb c => intro h; exact absurd rfl h
  | start now =>
    show (s.1.start now)._state ≠ 0 → s.2 = 0 ∨ s.2 = (s.1.start now)._outputStep
    unfold PIDAutoTune.start
    split_ifs
    · intro h; exact absurd rfl h
    · exact hinv
  | cancel => exact hinv
  | compute now x =>
    obtain ⟨c1, c2, -⟩ := compute_two_level s.1 now x s.2 hinv
    intro h
    show (s.1.compute now x s.2).2.1 = 0 ∨
      (s.1.compute now x s.2).2.1 = (s.1.compute now x s.2).1._outputStep
    rw [c1]
    exact c2 h

theorem applyOps_two_level (ops : List TunerOp) :
    ∀ s : PIDAutoTune × ℚ, (s.1._state ≠ 0 → s.2 = 0 ∨ s.2 = s.1._outputStep) →
      ((PIDAutoTune.applyOps s ops).1._state ≠ 0 →
        (PIDAutoTune.applyOps s ops).2 = 0 ∨
        (PIDAutoTune.applyOps s ops).2 = (PIDAutoTune.applyOps s ops).1._outputStep) := by
  induction ops with
  | nil => intro s h; exact h
  | cons op rest ih =>
    intro s h
    exact ih (PIDAutoTune.applyOp s op) (applyOp_two_level s op h)

theorem reached_two_level (ops : List TunerOp) (out0 : ℚ) :
    (PIDAutoTune.applyOps (PIDAutoTune.reset, out0) ops).1._state ≠ 0 →
      (PIDAutoTune.applyOps (PIDAutoTune.reset, out0) ops).2 = 0 ∨
      (PIDAutoTune.applyOps (PIDAutoTune.reset, out0) ops).2 =
        (PIDAutoTune.applyOps (PIDAutoTune.reset, out0) ops).1._outputStep :=
  applyOps_two_level ops (PIDAutoTune.reset, out0) (fun h => absurd rfl h)

/-- C21: on every executed oscillation-phase step that does not complete the experiment,
taken in a tuner state reached from the constructor by `init`, `start`, `cancel` and
`compute` with a step size that is not negative, the command becomes 0 if measured >
setpoint + noiseBand and the current command is positive, becomes `stepSize` if measured <
setpoint - noiseBand and the current command is 0, and is unchanged in every other case;
in particular it is unchanged whenever the measured value lies within the closed noise
band around the setpoint. -/
theorem relay_toggling (ops : List TunerOp) (out0 : ℚ) (now : Nat) (input : ℚ)
    (hr : (PIDAutoTune.applyOps (PIDAutoTune.reset, out0) ops).1._running = true)
    (hg : ¬ usub now (PIDAutoTune.applyOps (PIDAutoTune.reset, out0) ops).1._lastTime < 500)
    (hs : (PIDAutoTune.applyOps (PIDAutoTune.reset, out0) ops).1._state ≠ 0)
    (hf : ((PIDAutoTune.applyOps (PIDAutoTune.reset, out0) ops).1.compute now input
      (PIDAutoTune.applyOps (PIDAutoTune.reset, out0) ops).2).2.2 = false)
    (hstep : 0 ≤ (PIDAutoTune.applyOps (PIDAutoTune.reset, out0) ops).1._outputStep) :
    (input > (PIDAutoTune.applyOps (PIDAutoTune.reset, out0) ops).1._setpoint +
        (PIDAutoTune.applyOps (PIDAutoTune.reset, out0) ops).1._noiseband →
      (PIDAutoTune.applyOps (PIDAutoTune.reset, out0) ops).2 > 0 →
      ((PIDAutoTune.applyOps (PIDAutoTune.reset, out0) ops).1.compute now input
        (PIDAutoTune.applyOps (PIDAutoTune.reset, out0) ops).2).2.1 = 0) ∧
    (input < (PIDAutoTune.applyOps (PIDAutoTune.reset, out0) ops).1._setpoint -
        (PIDAutoTune.applyOps (PIDAutoTune.reset, out0) ops).1._noiseband →
      (PIDAutoTune.applyOps (PIDAutoTune.reset, out0) ops).2 = 0 →
      ((PIDAutoTune.applyOps (PIDAutoTune.reset, out0) ops).1.compute now input
        (PIDAutoTune.applyOps (PIDAutoTune.reset, out0) ops).2).2.1 =
        (PIDAutoTune.applyOps (PIDAutoTune.reset, out0) ops).1._outputStep) ∧
    (¬ (input > (PIDAutoTune.applyOps (PIDAutoTune.reset, out0) ops).1._setpoint +
          (PIDAutoTune.applyOps (PIDAutoTune.reset, out0) ops).1._noiseband ∧
        (PIDAutoTune.applyOps (PIDAutoTune.reset, out0) ops).2 > 0) →
      ¬ (input < (PIDAutoTune.applyOps (PIDAutoTune.reset, out0) ops).1._setpoint -
          (PIDAutoTune.applyOps (PIDAutoTune.reset, out0) ops).1._noiseband ∧
        (PIDAutoTune.applyOps (PIDAutoTune.reset, out0) ops).2 = 0) →
      ((PIDAutoTune.applyOps (PIDAutoTune.reset, out0) ops).1.compute now input
        (PIDAutoTune.applyOps (PIDAutoTune.reset, out0) ops).2).2.1 =
        (PIDAutoTune.applyOps (PIDAutoTune.reset, out0) ops).2) ∧
    ((PIDAutoTune.applyOps (PIDAutoTune.reset, out0) ops).1._setpoint -
        (PIDAutoTune.applyOps (PIDAutoTune.reset, out0) ops).1._noiseband ≤ input →
      input ≤ (PIDAutoTune.applyOps (PIDAutoTune.reset, out0) ops).1._setpoint +
        (PIDAutoTune.applyOps (PIDAutoTune.reset, out0) ops).1._noiseband →
      ((PIDAutoTune.applyOps (PIDAutoTune.reset, out0) ops).1.compute now input
        (PIDAutoTune.applyOps (PIDAutoTune.reset, out0) ops).2).2.1 =
        (PIDAutoTune.applyOps (PIDAutoTune.reset, out0) ops).2) := by
  have hout := reached_two_level ops out0 hs
  generalize PIDAutoTune.applyOps (PIDAutoTune.reset, out0) ops = s at hr hg hs hf hstep hout ⊢
  obtain ⟨t, out⟩ := s
  simp only at hr hg hs hf hstep hout ⊢
  obtain ⟨-, -, hrel⟩ := compute_osc_false t now input out hr hg hs hf
  obtain ⟨c1, c2, c3, -⟩ := recordPeak_config t now input
  rw [hrel, PIDAutoTune.relayOutput, c1, c2, c3]
  refine ⟨?_, ?_, ?_, ?_⟩
  · intro h1 h2
    rw [if_pos ⟨h1, h2⟩]
  · intro h1 h2
    rw [if_neg (fun h => absurd h.2 (by rw [h2]; exact lt_irrefl 0))]
    rcases lt_or_eq_of_le hstep with h3 | h3
    · rw [if_pos ⟨h1, by rw [h2]; exact h3⟩]
    · rw [if_neg (fun h => absurd h.2 (by rw [h2, ← h3]; exact lt_irrefl 0)), h2, h3]
  · intro h1 h2
    rw [if_neg h1]
    rcases hout with h0 | h0
    · rw [if_neg (fun h => h2 ⟨h.1, h0⟩)]
    · rw [if_neg (fun h => absurd h.2 (by rw [h0]; exact lt_irrefl _))]
  · intro h1 h2
    rw [if_neg (fun h => absurd h.1 (not_lt.mpr h2)),
      if_neg (fun h => absurd h.1 (not_lt.mpr h1))]

/-- Witness of C21: `midExperimentTuner`, built by `waveOps`, commands 0 after the sample
90; the step at 7500 ms with the sample 85, inside the noise band, leaves the command
at 0. -/
theorem relay_toggling_witness :
    (PIDAutoTune.applyOps (PIDAutoTune.reset, 0) waveOps).1._running = true ∧
    (PIDAutoTune.applyOps (PIDAutoTune.reset, 0) waveOps).1._state ≠ 0 ∧
    ((PIDAutoTune.applyOps (PIDAutoTune.reset, 0) waveOps).1.compute 7500 85
      (PIDAutoTune.applyOps (PIDAutoTune.reset, 0) waveOps).2).2.1 =
      (PIDAutoTune.applyOps (PIDAutoTune.reset, 0) waveOps).2 :=
  ⟨by decide!, by decide!,
    (relay_toggling waveOps 0 7500 85 (by decide!) (by decide!) (by decide!) (by decide!)
      (by decide!)).2.2.2 (by decide!) (by decide!)⟩

/-- In any tuner state reached from the constructor, for any step size, an executed step
leaves the command at 0 or at the step size. -/
theorem executed_step_two_level (ops : List TunerOp) (out0 : ℚ) (now : Nat) (input : ℚ)
    (hr : (PIDAutoTune.applyOps (PIDAutoTune.reset, out0) ops).1._running = true)
    (hg : ¬ usub now (PIDAutoTune.applyOps (PIDAutoTune.reset, out0) ops).1._lastTime < 500) :
    ((PIDAutoTune.applyOps (PIDAutoTune.reset, out0) ops).1.compute now input
      (PIDAutoTune.applyOps (PIDAutoTune.reset, out0) ops).2).2.1 = 0 ∨
    ((PIDAutoTune.applyOps (PIDAutoTune.reset, out0) ops).1.compute now input
      (PIDAutoTune.applyOps (PIDAutoTune.reset, out0) ops).2).2.1 =
      (PIDAutoTune.applyOps (PIDAutoTune.reset, out0) ops).1._outputStep :=
  (compute_two_level _ now input _ (reached_two_level ops out0)).2.2 hr hg

theorem compute_false_running (t : PIDAutoTune) (now : Nat) (input output : ℚ)
    (hr : t._running = true) (hf : (t.compute now input output).2.2 = false) :
    (t.compute now input output).1._running = true := by
  by_cases hg : usub now t._lastTime < 500
  · rw [compute_gated t now input output hg]; exact hr
  · by_cases hs : t._state = 0
    · rw [compute_steady t now input output hr hg hs]
      split_ifs <;> exact hr
    · obtain ⟨-, he, -⟩ := compute_osc_false t now input output hr hg hs hf
      rw [he]
      exact ((stampPeak_frame _ now).2.1.trans (recordPeak_frame t now input).2.1).trans hr

theorem update_tuning_inv (L : PIDLib σ) (a : AirIntake σ) (x : ℚ) (now libNow : Nat)
    (hinv : a.tuningInProgress = true →
      a.autoTune._running = true ∧ a.autoTune._outputStep = PID_OUTPUT_STEP ∧
      (a.autoTune._state ≠ 0 → a.output = 0 ∨ a.output = PID_OUTPUT_STEP)) :
    (a.update L x now libNow).tuningInProgress = true →
      (a.update L x now libNow).autoTune._running = true ∧
      (a.update L x now libNow).autoTune._outputStep = PID_OUTPUT_STEP ∧
      ((a.update L x now libNow).autoTune._state ≠ 0 →
        (a.update L x now libNow).output = 0 ∨
        (a.update L x now libNow).output = PID_OUTPUT_STEP) := by
  intro h
  have ht := (update_keeps_tuning L a x now libNow h).1
  obtain ⟨j1, j2, j3⟩ := hinv ht
  by_cases hg : usub now a.lastTuneTime > PID_SAMPLE_TIME
  · rw [update_tuning_executed L a x now libNow ht hg] at h ⊢
    split_ifs at h ⊢ with hres
    · exact absurd h (by simp [AirIntake.setServoPosition])
    · have hf : (a.autoTune.compute libNow x a.output).2.2 = false := by
        simpa using hres
      obtain ⟨c1, c2, -⟩ := compute_two_level a.autoTune libNow x a.output
        (fun hs => by rw [j2]; exact j3 hs)
      refine ⟨compute_false_running a.autoTune libNow x a.output j1 hf, c1.trans j2, ?_⟩
      intro hs
      have := c2 hs
      rw [j2] at this
      exact this
  · rw [update_tuning_gated L a x now libNow ht (Nat.le_of_not_lt hg)]
    exact ⟨j1, j2, j3⟩

theorem apply_tuning_inv (L : PIDLib σ) (a : AirIntake σ) (op : AirIntakeOp)
    (hop : op ≠ AirIntakeOp.begin)
    (hinv : a.tuningInProgress = true →
      a.autoTune._running = true ∧ a.autoTune._outputStep = PID_OUTPUT_STEP ∧
      (a.autoTune._state ≠ 0 → a.output = 0 ∨ a.output = PID_OUTPUT_STEP)) :
    (a.apply L op).tuningInProgress = true →
      (a.apply L op).autoTune._running = true ∧
      (a.apply L op).autoTune._outputStep = PID_OUTPUT_STEP ∧
      ((a.apply L op).autoTune._state ≠ 0 →
        (a.apply L op).output = 0 ∨ (a.apply L op).output = PID_OUTPUT_STEP) := by
  cases op with
  | begin => exact absurd rfl hop
  | update x now libNow => exact update_tuning_inv L a x now libNow hinv
  | setTargetTemperature x => exact hinv
  | startAutoTune nowInit nowStart now =>
    have e : a.apply L (AirIntakeOp.startAutoTune nowInit nowStart now) =
        (a.startAutoTune L nowInit nowStart now).1 := rfl
    rw [e]
    cases ht : a.tuningInProgress with
    | true =>
      rw [startAutoTune_busy L a nowInit nowStart now ht]
      exact hinv
    | false =>
      rw [startAutoTune_idle L a nowInit nowStart now ht]
      intro _
      obtain ⟨f1, -, f3, -, -⟩ := init_start_fields a.autoTune nowInit nowStart a.input
        a.setpoint PID_OUTPUT_STEP PID_NOISE_BAND AirIntake.controlType
      refine ⟨f1, ?_, fun hs => absurd f3 hs⟩
      simp [PIDAutoTune.init, PIDAutoTune.start]
  | cancelAutoTune =>
    have e : a.apply L AirIntakeOp.cancelAutoTune = a.cancelAutoTune L := rfl
    rw [e]
    cases ht : a.tuningInProgress with
    | true =>
      rw [cancel_tuning L a ht]
      intro h
      exact absurd h (by simp)
    | false =>
      have e2 : a.cancelAutoTune L = a := by
        unfold AirIntake.cancelAutoTune
        rw [if_neg (by simp [ht])]
      rw [e2]
      exact hinv
  | setPosition p => exact hinv
  | setServoMin m =>
    have e : a.apply L (AirIntakeOp.setServoMin m) = a.setServoMin m := rfl
    rw [e]
    unfold AirIntake.setServoMin
    split_ifs <;> exact hinv
  | setServoMax m =>
    have e : a.apply L (AirIntakeOp.setServoMax m) = a.setServoMax m := rfl
    rw [e]
    unfold AirIntake.setServoMax
    split_ifs <;> exact hinv

theorem applyAll_tuning_inv (L : PIDLib σ) (ops : List AirIntakeOp) :
    ∀ a : AirIntake σ, AirIntakeOp.begin ∉ ops →
      (a.tuningInProgress = true →
        a.autoTune._running = true ∧ a.autoTune._outputStep = PID_OUTPUT_STEP ∧
        (a.autoTune._state ≠ 0 → a.output = 0 ∨ a.output = PID_OUTPUT_STEP)) →
      ((a.applyAll L ops).tuningInProgress = true →
        (a.applyAll L ops).autoTune._running = true ∧
        (a.applyAll L ops).autoTune._outputStep = PID_OUTPUT_STEP ∧
        ((a.applyAll L ops).autoTune._state ≠ 0 →
          (a.applyAll L ops).output = 0 ∨ (a.applyAll L ops).output = PID_OUTPUT_STEP)) := by
  induction ops with
  | nil => intro a _ h; exact h
  | cons op rest ih =>
    intro a hno h
    have h1 : op ≠ AirIntakeOp.begin := fun e => hno (by rw [e]; exact List.mem_cons_self _ _)
    have h2 : AirIntakeOp.begin ∉ rest := fun hm => hno (List.mem_cons_of_mem _ hm)
    exact ih (a.apply L op) h2 (apply_tuning_inv L a op h1 h)

theorem begun_tuning_inv (L : PIDLib σ) (n0 : Nat) (ops : List AirIntakeOp)
    (hno : AirIntakeOp.begin ∉ ops) :
    (((AirIntake.new L n0).begin L).applyAll L ops).tuningInProgress = true →
      (((AirIntake.new L n0).begin L).applyAll L ops).autoTune._running = true ∧
      (((AirIntake.new L n0).begin L).applyAll L ops).autoTune._outputStep =
        PID_OUTPUT_STEP ∧
      ((((AirIntake.new L n0).begin L).applyAll L ops).autoTune._state ≠ 0 →
        (((AirIntake.new L n0).begin L).applyAll L ops).output = 0 ∨
        (((AirIntake.new L n0).begin L).applyAll L ops).output = PID_OUTPUT_STEP) :=
  applyAll_tuning_inv L ops _ hno (fun h => absurd h (by simp [AirIntake.begin,
    AirIntake.new, AirIntake.setServoPosition]))

theorem update_executed_output (L : PIDLib σ) (a : AirIntake σ) (x : ℚ) (now libNow : Nat)
    (ht : a.tuningInProgress = true) (hg : usub now a.lastTuneTime > PID_SAMPLE_TIME) :
    (a.update L x now libNow).output = (a.autoTune.compute libNow x a.output).2.1 ∧
    (a.update L x now libNow).currentPosition =
      constrain (toInt (a.autoTune.compute libNow x a.output).2.1) 0 100 ∧
    (a.update L x now libNow).autoTune = (a.autoTune.compute libNow x a.output).1 ∧
    (a.update L x now libNow).lastTuneTime = now := by
  rw [update_tuning_executed L a x now libNow ht hg]
  split_ifs <;> exact ⟨rfl, rfl, rfl, rfl⟩

/-- C23: for every step size and every input sequence, in any tuner state reached from
the constructor by `init`, `start`, `cancel` and `compute`, an executed step of a running
experiment leaves the command output at 0 or at `stepSize`; hence, in any `AirIntake`
state reached after `begin()` by the other operations, an `update` tick of a tuning whose
tuner step is executed sets the actuator command to the clamp to `[0,100]` of the tuner's
command, which is 0 or `PID_OUTPUT_STEP`. -/
theorem bang_bang_command (L : PIDLib σ) (ops : List TunerOp) (out0 : ℚ) (now : Nat)
    (input : ℚ) (n0 : Nat) (aops : List AirIntakeOp) (x : ℚ) (nowU libNow : Nat) :
    ((PIDAutoTune.applyOps (PIDAutoTune.reset, out0) ops).1.isRunning = true →
      ¬ usub now (PIDAutoTune.applyOps (PIDAutoTune.reset, out0) ops).1._lastTime < 500 →
      ((PIDAutoTune.applyOps (PIDAutoTune.reset, out0) ops).1.compute now input
        (PIDAutoTune.applyOps (PIDAutoTune.reset, out0) ops).2).2.1 = 0 ∨
      ((PIDAutoTune.applyOps (PIDAutoTune.reset, out0) ops).1.compute now input
        (PIDAutoTune.applyOps (PIDAutoTune.reset, out0) ops).2).2.1 =
        (PIDAutoTune.applyOps (PIDAutoTune.reset, out0) ops).1._outputStep) ∧
    (AirIntakeOp.begin ∉ aops →
      (((AirIntake.new L n0).begin L).applyAll L aops).isAutoTuning = true →
      usub nowU (((AirIntake.new L n0).begin L).applyAll L aops).lastTuneTime >
        PID_SAMPLE_TIME →
      ¬ usub libNow (((AirIntake.new L n0).begin L).applyAll L aops).autoTune._lastTime
        < 500 →
      (((((AirIntake.new L n0).begin L).applyAll L aops).update L x nowU libNow).output = 0 ∨
        ((((AirIntake.new L n0).begin L).applyAll L aops).update L x nowU libNow).output =
          PID_OUTPUT_STEP) ∧
      ((((AirIntake.new L n0).begin L).applyAll L aops).update L x nowU
        libNow).getCurrentOutput =
        max 0 (min 100
          ((((AirIntake.new L n0).begin L).applyAll L aops).update L x nowU libNow).output)) := by
  refine ⟨executed_step_two_level ops out0 now input, ?_⟩
  intro hno ht hg hstep
  obtain ⟨j1, j2, j3⟩ := begun_tuning_inv L n0 aops hno ht
  generalize ((AirIntake.new L n0).begin L).applyAll L aops = a at ht hg hstep j1 j2 j3 ⊢
  obtain ⟨u1, u2, -, -⟩ := update_executed_output L a x nowU libNow ht hg
  have hval := (compute_two_level a.autoTune libNow x a.output
    (fun hs => by rw [j2]; exact j3 hs)).2.2 j1 hstep
  rw [j2] at hval
  unfold AirIntake.getCurrentOutput
  rw [u1, u2]
  refine ⟨hval, ?_⟩
  rcases hval with h | h
  · rw [h]
    have e : toInt (0 : ℚ) = 0 := by
      have := toInt_intCast 0
      simpa using this
    rw [e]
    have := constrain_eq_clamp 0
    simpa using this
  · rw [h]
    have e : toInt PID_OUTPUT_STEP = 50 := by
      have := toInt_intCast 50
      simpa [PID_OUTPUT_STEP] using this
    rw [e]
    have := constrain_eq_clamp 50
    simpa [PID_OUTPUT_STEP] using this

/-- Witness of C23: the tuner `midExperimentTuner` stepped at 7500 ms, and the `AirIntake`
left by `begin()` and a `startAutoTune()` at time 0, ticked at 1500 ms. -/
theorem bang_bang_command_witness :
    (((PIDAutoTune.applyOps (PIDAutoTune.reset, 0) waveOps).1.compute 7500 85
        (PIDAutoTune.applyOps (PIDAutoTune.reset, 0) waveOps).2).2.1 = 0 ∨
      ((PIDAutoTune.applyOps (PIDAutoTune.reset, 0) waveOps).1.compute 7500 85
        (PIDAutoTune.applyOps (PIDAutoTune.reset, 0) waveOps).2).2.1 =
        (PIDAutoTune.applyOps (PIDAutoTune.reset, 0) waveOps).1._outputStep) ∧
    (((((AirIntake.new specPID 0).begin specPID).applyAll specPID
        [AirIntakeOp.startAutoTune 0 0 0]).update specPID 85 1500 1500).output = 0 ∨
      ((((AirIntake.new specPID 0).begin specPID).applyAll specPID
        [AirIntakeOp.startAutoTune 0 0 0]).update specPID 85 1500 1500).output =
        PID_OUTPUT_STEP) :=
  let h := bang_bang_command specPID waveOps 0 7500 85 0 [AirIntakeOp.startAutoTune 0 0 0]
    85 1500 1500
  ⟨h.1 (by decide!) (by decide!),
    (h.2 (by decide) (by decide!) (by decide!) (by decide!)).1⟩

theorem recordPeak_confirmed (t : PIDAutoTune) (now : Nat) (x : ℚ)
    (h : ((PIDAutoTune.scanExtrema (PIDAutoTune.shiftInputs t._lastInputs x)).1 = true ∧
        t._peakType = -1) ∨
      ((PIDAutoTune.scanExtrema (PIDAutoTune.shiftInputs t._lastInputs x)).1 = false ∧
        (PIDAutoTune.scanExtrema (PIDAutoTune.shiftInputs t._lastInputs x)).2 = true ∧
        t._peakType = 1)) :
    (t.recordPeak now x)._peakCount = t._peakCount + 1 ∧
    (t.recordPeak now x)._peak2 = t._peak1 ∧
    (t.recordPeak now x)._peak1 = x := by
  unfold PIDAutoTune.recordPeak
  dsimp only
  rcases h with ⟨h1, h2⟩ | ⟨h1, h2, h3⟩
  · rw [if_pos h1, if_pos h2]
    exact ⟨rfl, rfl, rfl⟩
  · rw [if_neg (by rw [h1]; decide), if_pos h2, if_pos h3]
    exact ⟨rfl, rfl, rfl⟩

theorem recordPeak_unconfirmed (t : PIDAutoTune) (now : Nat) (x : ℚ)
    (h1 : (PIDAutoTune.scanExtrema (PIDAutoTune.shiftInputs t._lastInputs x)).1 = true →
      t._peakType ≠ -1)
    (h2 : (PIDAutoTune.scanExtrema (PIDAutoTune.shiftInputs t._lastInputs x)).1 = false →
      (PIDAutoTune.scanExtrema (PIDAutoTune.shiftInputs t._lastInputs x)).2 = true →
      t._peakType ≠ 1) :
    (t.recordPeak now x)._peakCount = t._peakCount ∧
    (t.recordPeak now x)._peak2 = t._peak2 ∧
    (t.recordPeak now x)._peak1 = t._peak1 := by
  unfold PIDAutoTune.recordPeak
  dsimp only
  cases hmax : (PIDAutoTune.scanExtrema (PIDAutoTune.shiftInputs t._lastInputs x)).1 with
  | true =>
    rw [if_pos rfl, if_neg (h1 hmax)]
    exact ⟨rfl, rfl, rfl⟩
  | false =>
    rw [if_neg (by decide)]
    cases hmin : (PIDAutoTune.scanExtrema (PIDAutoTune.shiftInputs t._lastInputs x)).2 with
    | true =>
      rw [if_pos rfl, if_neg (h2 hmax hmin)]
      exact ⟨rfl, rfl, rfl⟩
    | false =>
      rw [if_neg (by decide)]
      exact ⟨rfl, rfl, rfl⟩

/-- The fields left by an executed oscillation-phase step, in terms of the peak
bookkeeping `recordPeak`: the step returns true exactly when the bookkeeping reached four
peaks, and only a step that returns false writes a timestamp. -/
theorem compute_osc_fields (t : PIDAutoTune) (now : Nat) (input output : ℚ)
    (hr : t._running = true) (hg : ¬ usub now t._lastTime < 500) (hs : t._state ≠ 0) :
    (t.compute now input output).1._peakCount = (t.recordPeak now input)._peakCount ∧
    (t.compute now input output).1._peak1 = (t.recordPeak now input)._peak1 ∧
    (t.compute now input output).1._peak2 = (t.recordPeak now input)._peak2 ∧
    (t.compute now input output).1._lastInputs =
      PIDAutoTune.shiftInputs t._lastInputs input ∧
    (t.compute now input output).1._lastTime = now ∧
    ((t.recordPeak now input)._peakCount ≥ 4 →
      (t.compute now input output).2.2 = true ∧
      (t.compute now input output).1._peaks = t._peaks ∧
      (t.compute now input output).1._running = false) ∧
    (¬ (t.recordPeak now input)._peakCount ≥ 4 →
      (t.compute now input output).2.2 = false ∧
      (t.compute now input output).1._running = true ∧
      (t.compute now input output).1._peaks =
        if (t.recordPeak now input)._peakCount > 0 ∧ (t.recordPeak now input)._peakCount < 4
        then t._peaks.set ((t.recordPeak now input)._peakCount - 1).toNat now
        else t._peaks) := by
  obtain ⟨-, r2, r3, r4, r5, -⟩ := recordPeak_frame t now input
  have hco := compute_osc t now input output hr hg hs
  by_cases hc : (t.recordPeak now input)._peakCount ≥ 4
  · rw [if_pos hc] at hco
    rw [hco]
    obtain ⟨-, f2, f3, f4, -, f6, f7⟩ := finish_fields (t.recordPeak now input) now
    obtain ⟨-, g2, g3, -⟩ := finish_frame (t.recordPeak now input) now
    exact ⟨f6, f2, f3, g3.trans r4, g2.trans r3, fun _ => ⟨rfl, f4.trans r5, f7⟩,
      fun h => absurd hc h⟩
  · rw [if_neg hc] at hco
    rw [hco]
    obtain ⟨-, s2, s3, s4, s5, -⟩ := stampPeak_frame (t.recordPeak now input) now
    obtain ⟨-, -, -, -, c5, c6, -⟩ := stampPeak_config (t.recordPeak now input) now
    refine ⟨s5, c5, c6, s4.trans r4, s3.trans r3, fun h => absurd h hc,
      fun _ => ⟨rfl, (s2.trans r2).trans hr, ?_⟩⟩
    show ((t.recordPeak now input).stampPeak now)._peaks = _
    unfold PIDAutoTune.stampPeak
    by_cases h1 : (t.recordPeak now input)._peakCount > 0 ∧
        (t.recordPeak now input)._peakCount < 4
    · rw [if_pos h1, if_pos h1]
      show (t.recordPeak now input)._peaks.set _ now = _
      rw [r5]
    · rw [if_neg h1, if_neg h1]
      exact r5

/-- Counterexample to C22: on the eighteenth step of `waveSignal` (9000 ms, sample 90) a
maximum is detected while the peak-sign flag is -1; the peak count goes from 3 to 4 and
the peak values are shifted, but the timestamp 9000 is not recorded: `_peaks` is left as
it was. -/
theorem fourth_peak_timestamp_not_recorded :
    waveBeforeLast.1._peakType = -1 ∧
    waveBeforeLast.1._peakCount = 3 ∧
    (PIDAutoTune.scanExtrema
      (PIDAutoTune.shiftInputs waveBeforeLast.1._lastInputs 90)).1 = true ∧
    (waveBeforeLast.1.compute 9000 90 waveBeforeLast.2).1._peakCount = 4 ∧
    (waveBeforeLast.1.compute 9000 90 waveBeforeLast.2).1._peak1 = 90 ∧
    (waveBeforeLast.1.compute 9000 90 waveBeforeLast.2).1._peak2 = waveBeforeLast.1._peak1 ∧
    (waveBeforeLast.1.compute 9000 90 waveBeforeLast.2).1._peaks = [6500, 7500, 8500, 0] ∧
    (waveBeforeLast.1.compute 9000 90 waveBeforeLast.2).1._peaks = waveBeforeLast.1._peaks ∧
    9000 ∉ (waveBeforeLast.1.compute 9000 90 waveBeforeLast.2).1._peaks := by
  refine ⟨by decide!, by decide!, by decide!, by decide!, by decide!, by decide!, by decide!,
    by decide!, by decide!⟩

/-- C22 as amended: on an executed oscillation-phase step, a detected maximum while the
peak-sign flag is -1, or a detected minimum (a sample that is not a maximum) while it is
+1, increments the peak count by exactly one, moves the previous latest peak value into
the second slot and stores the current sample as the latest peak; if the new count is
below 4 the timestamp of the step is written to slot (count - 1) of `_peaks`, and if it is
4 the step completes the experiment and writes no timestamp.  A detected extremum of the
same sign as the flag, the first extremum of an experiment (flag 0) and a sample that is
no extremum change neither the peak count nor the recorded peak values. -/
theorem confirmed_peak_rule (t : PIDAutoTune) (now : Nat) (input output : ℚ)
    (hr : t.isRunning = true) (hg : ¬ usub now t._lastTime < 500) (hs : t._state ≠ 0)
    (hlen : t._peaks.length = 4) (hcount : 0 ≤ t._peakCount) :
    ((((PIDAutoTune.scanExtrema (PIDAutoTune.shiftInputs t._lastInputs input)).1 = true ∧
          t._peakType = -1) ∨
        ((PIDAutoTune.scanExtrema (PIDAutoTune.shiftInputs t._lastInputs input)).1 = false ∧
          (PIDAutoTune.scanExtrema (PIDAutoTune.shiftInputs t._lastInputs input)).2 = true ∧
          t._peakType = 1)) →
      (t.compute now input output).1._peakCount = t._peakCount + 1 ∧
      (t.compute now input output).1._peak2 = t._peak1 ∧
      (t.compute now input output).1._peak1 = input ∧
      (t._peakCount + 1 < 4 →
        (t.compute now input output).1._peaks.getD t._peakCount.toNat 0 = now ∧
        (t.compute now input output).2.2 = false) ∧
      (t._peakCount + 1 ≥ 4 →
        (t.compute now input output).1._peaks = t._peaks ∧
        (t.compute now input output).2.2 = true)) ∧
    (((PIDAutoTune.scanExtrema (PIDAutoTune.shiftInputs t._lastInputs input)).1 = true →
        t._peakType ≠ -1) →
      ((PIDAutoTune.scanExtrema (PIDAutoTune.shiftInputs t._lastInputs input)).1 = false →
        (PIDAutoTune.scanExtrema (PIDAutoTune.shiftInputs t._lastInputs input)).2 = true →
        t._peakType ≠ 1) →
      (t.compute now input output).1._peakCount = t._peakCount ∧
      (t.compute now input output).1._peak2 = t._peak2 ∧
      (t.compute now input output).1._peak1 = t._peak1) := by
  obtain ⟨e1, e2, e3, -, -, e6, e7⟩ := compute_osc_fields t now input output hr hg hs
  constructor
  · intro h
    obtain ⟨c1, c2, c3⟩ := recordPeak_confirmed t now input h
    rw [c1] at e1 e6 e7
    refine ⟨e1, e3.trans c2, e2.trans c3, ?_, ?_⟩
    · intro hlt
      obtain ⟨f1, -, f3⟩ := e7 (not_le.mpr hlt)
      refine ⟨?_, f1⟩
      rw [f3, if_pos ⟨by omega, hlt⟩]
      have hidx : (t._peakCount + 1 - 1).toNat = t._peakCount.toNat := by
        congr 1
        omega
      rw [hidx, List.getD_eq_getElem?_getD, List.getElem?_set_self (by omega)]
      rfl
    · intro hge
      obtain ⟨f1, f2, -⟩ := e6 hge
      exact ⟨f2, f1⟩
  · intro h1 h2
    obtain ⟨c1, c2, c3⟩ := recordPeak_unconfirmed t now input h1 h2
    exact ⟨e1.trans c1, e3.trans c2, e2.trans c3⟩

/-- Witness of the amended C22: the fourteenth step of `waveSignal` (7000 ms, sample 90)
confirms the second peak and writes its timestamp to slot 1. -/
theorem confirmed_peak_rule_witness :
    (runTuner armedTuner 0 (waveSignal.take 13)).1._peakCount = 1 ∧
    ((runTuner armedTuner 0 (waveSignal.take 13)).1.compute 7000 90 50).1._peakCount =
      (runTuner armedTuner 0 (waveSignal.take 13)).1._peakCount + 1 ∧
    ((runTuner armedTuner 0 (waveSignal.take 13)).1.compute 7000 90 50).1._peaks.getD
      (runTuner armedTuner 0 (waveSignal.take 13)).1._peakCount.toNat 0 = 7000 :=
  let h := (confirmed_peak_rule (runTuner armedTuner 0 (waveSignal.take 13)).1 7000 90 50
    (by decide!) (by decide!) (by decide!) (by decide!) (by decide!)).1
    (Or.inl ⟨by decide!, by decide!⟩)
  ⟨by decide!, h.1, (h.2.2.2.1 (by decide!)).1⟩

end RelayAndPeaks

/-! ## Bounds and the sample ring -/

section BoundsAndRing

/-- What any `compute()` call does to the peak count, the timestamps and the ring: the
count stays or grows by one; the timestamps stay or one slot of index at most 2 is
written; the ring stays or is shifted. -/
theorem compute_effect (t : PIDAutoTune) (now : Nat) (input output : ℚ) :
    ((t.compute now input output).1._peakCount = t._peakCount ∨
      (t.compute now input output).1._peakCount = t._peakCount + 1) ∧
    ((t.compute now input output).1._peaks = t._peaks ∨
      ∃ i : Nat, i ≤ 2 ∧ (t.compute now input output).1._peaks = t._peaks.set i now) ∧
    ((t.compute now input output).1._lastInputs = t._lastInputs ∨
      (t.compute now input output).1._lastInputs =
        PIDAutoTune.shiftInputs t._lastInputs input) ∧
    ((t.compute now input output).2.2 = true →
      (t.compute now input output).1._peakCount ≥ 4 ∧
      (t.compute now input output).1._running = false) ∧
    ((t.compute now input output).2.2 = false →
      (t.compute now input output).1._running = t._running ∧
      ((t.compute now input output).1._peakCount ≠ t._peakCount →
        (t.compute now input output).1._peakCount < 4)) := by
  cases hr : t._running with
  | false =>
    rw [compute_idle t now input output hr]
    exact ⟨Or.inl rfl, Or.inl rfl, Or.inl rfl, fun h => absurd h (by simp),
      fun _ => ⟨hr, fun h => absurd rfl h⟩⟩
  | true =>
    by_cases hg : usub now t._lastTime < 500
    · rw [compute_gated t now input output hg]
      exact ⟨Or.inl rfl, Or.inl rfl, Or.inl rfl, fun h => absurd h (by simp),
        fun _ => ⟨hr, fun h => absurd rfl h⟩⟩
    · by_cases hs : t._state = 0
      · rw [compute_steady t now input output hr hg hs]
        split_ifs <;>
          exact ⟨Or.inl rfl, Or.inl rfl, Or.inl rfl, fun h => absurd h (by simp),
            fun _ => ⟨hr, fun h => absurd rfl h⟩⟩
      · obtain ⟨e1, -, -, e4, -, e6, e7⟩ := compute_osc_fields t now input output hr hg hs
        have hcount := recordPeak_count t now input
        rw [← e1] at hcount
        by_cases hc : (t.recordPeak now input)._peakCount ≥ 4
        · obtain ⟨f1, f2, f3⟩ := e6 hc
          refine ⟨hcount, Or.inl f2, Or.inr e4, fun _ => ⟨by rw [e1]; exact hc, f3⟩, ?_⟩
          intro h
          rw [f1] at h
          exact absurd h (by decide)
        · obtain ⟨f1, f2, f3⟩ := e7 hc
          refine ⟨hcount, ?_, Or.inr e4, ?_, ?_⟩
          · by_cases h1 : (t.recordPeak now input)._peakCount > 0 ∧
                (t.recordPeak now input)._peakCount < 4
            · rw [if_pos h1] at f3
              exact Or.inr ⟨_, by omega, f3⟩
            · rw [if_neg h1] at f3
              exact Or.inl f3
          · intro h
            rw [f1] at h
            exact absurd h (by decide)
          · intro _
            refine ⟨f2, fun _ => ?_⟩
            rw [e1]
            omega

theorem shiftInputs_length (xs : List ℚ) (h : xs.length = 10) (x : ℚ) :
    (PIDAutoTune.shiftInputs xs x).length = 10 := by
  rw [shiftInputs_eq xs h x, List.length_cons, List.length_take, h]
  rfl

theorem applyOp_bounds (s : PIDAutoTune × ℚ) (op : TunerOp)
    (hinv : s.1._lastInputs.length = 10 ∧ s.1._peaks.length = 4 ∧ 0 ≤ s.1._peakCount ∧
      s.1._peakCount ≤ 4 ∧ (s.1._running = true → s.1._peakCount ≤ 3)) :
    (PIDAutoTune.applyOp s op).1._lastInputs.length = 10 ∧
    (PIDAutoTune.applyOp s op).1._peaks.length = 4 ∧
    0 ≤ (PIDAutoTune.applyOp s op).1._peakCount ∧
    (PIDAutoTune.applyOp s op).1._peakCount ≤ 4 ∧
    ((PIDAutoTune.applyOp s op).1._running = true →
      (PIDAutoTune.applyOp s op).1._peakCount ≤ 3) := by
  obtain ⟨k1, k2, k3, k4, k5⟩ := hinv
  cases op with
  | init now x sp st nb c =>
    refine ⟨?_, k2, le_refl _, (show (0 : Int) ≤ 4 by decide), fun _ =>
      (show (0 : Int) ≤ 3 by decide)⟩
    show (s.1._lastInputs.set 0 x).length = 10
    rw [List.length_set]
    exact k1
  | start now =>
    show (s.1.start now)._lastInputs.length = 10 ∧ (s.1.start now)._peaks.length = 4 ∧
      0 ≤ (s.1.start now)._peakCount ∧ (s.1.start now)._peakCount ≤ 4 ∧
      ((s.1.start now)._running = true → (s.1.start now)._peakCount ≤ 3)
    unfold PIDAutoTune.start
    split_ifs
    · exact ⟨k1, k2, le_refl _, (show (0 : Int) ≤ 4 by decide), fun _ =>
        (show (0 : Int) ≤ 3 by decide)⟩
    · exact ⟨k1, k2, k3, k4, k5⟩
  | cancel =>
    exact ⟨k1, k2, k3, k4, fun h => absurd h (by simp [PIDAutoTune.applyOp,
      PIDAutoTune.cancel])⟩
  | compute now x =>
    obtain ⟨c1, c2, c3, c4, c5⟩ := compute_effect s.1 now x s.2
    show (s.1.compute now x s.2).1._lastInputs.length = 10 ∧
      (s.1.compute now x s.2).1._peaks.length = 4 ∧
      0 ≤ (s.1.compute now x s.2).1._peakCount ∧
      (s.1.compute now x s.2).1._peakCount ≤ 4 ∧
      ((s.1.compute now x s.2).1._running = true →
        (s.1.compute now x s.2).1._peakCount ≤ 3)
    have hlen : (s.1.compute now x s.2).1._lastInputs.length = 10 := by
      rcases c3 with h | h
      · rw [h]; exact k1
      · rw [h]; exact shiftInputs_length _ k1 x
    have hpk : (s.1.compute now x s.2).1._peaks.length = 4 := by
      rcases c2 with h | ⟨i, -, h⟩
      · rw [h]; exact k2
      · rw [h, List.length_set]; exact k2
    cases hres : (s.1.compute now x s.2).2.2 with
    | true =>
      obtain ⟨-, -, -, -, he, -⟩ := compute_true s.1 now x s.2 hres
      obtain ⟨hr, -, -, -, -, -⟩ := compute_true s.1 now x s.2 hres
      have h3 := k5 hr
      obtain ⟨d1, d2⟩ := c4 hres
      refine ⟨hlen, hpk, by omega, ?_, fun h => ?_⟩
      · rcases c1 with h | h <;> omega
      · rw [d2] at h
        exact absurd h (by decide)
    | false =>
      obtain ⟨d1, d2⟩ := c5 hres
      refine ⟨hlen, hpk, ?_, ?_, fun h => ?_⟩
      · rcases c1 with h | h <;> omega
      · rcases c1 with h | h
        · omega
        · have := d2 (by omega)
          omega
      · rw [d1] at h
        have h3 := k5 h
        rcases c1 with h' | h'
        · omega
        · have := d2 (by omega)
          omega

theorem applyOps_bounds (ops : List TunerOp) :
    ∀ s : PIDAutoTune × ℚ,
      (s.1._lastInputs.length = 10 ∧ s.1._peaks.length = 4 ∧ 0 ≤ s.1._peakCount ∧
        s.1._peakCount ≤ 4 ∧ (s.1._running = true → s.1._peakCount ≤ 3)) →
      ((PIDAutoTune.applyOps s ops).1._lastInputs.length = 10 ∧
        (PIDAutoTune.applyOps s ops).1._peaks.length = 4 ∧
        0 ≤ (PIDAutoTune.applyOps s ops).1._peakCount ∧
        (PIDAutoTune.applyOps s ops).1._peakCount ≤ 4 ∧
        ((PIDAutoTune.applyOps s ops).1._running = true →
          (PIDAutoTune.applyOps s ops).1._peakCount ≤ 3)) := by
  induction ops with
  | nil => intro s h; exact h
  | cons op rest ih =>
    intro s h
    exact ih (PIDAutoTune.applyOp s op) (applyOp_bounds s op h)

theorem reached_bounds (ops : List TunerOp) (out0 : ℚ) :
    (PIDAutoTune.applyOps (PIDAutoTune.reset, out0) ops).1._lastInputs.length = 10 ∧
    (PIDAutoTune.applyOps (PIDAutoTune.reset, out0) ops).1._peaks.length = 4 ∧
    0 ≤ (PIDAutoTune.applyOps (PIDAutoTune.reset, out0) ops).1._peakCount ∧
    (PIDAutoTune.applyOps (PIDAutoTune.reset, out0) ops).1._peakCount ≤ 4 ∧
    ((PIDAutoTune.applyOps (PIDAutoTune.reset, out0) ops).1._running = true →
      (PIDAutoTune.applyOps (PIDAutoTune.reset, out0) ops).1._peakCount ≤ 3) :=
  applyOps_bounds ops (PIDAutoTune.reset, out0)
    ⟨rfl, rfl, le_refl _, (show (0 : Int) ≤ 4 by decide), fun _ =>
      (show (0 : Int) ≤ 3 by decide)⟩

/-- C24: in every tuner state reached from the constructor by `init`, `start`, `cancel`
and `compute`, the peak count lies in 0..4 (0..3 while running), the sample ring has its
10 entries and the timestamp array its 4, so every ring access, at an index in 0..9, and
the read of slot 0 are in bounds; a `compute()` call leaves the count or adds one to it,
and leaves the timestamps or writes one slot of index at most 2; and `compute()` returns
true exactly on the step in which the count reaches 4. -/
theorem tuner_bounds (ops : List TunerOp) (out0 : ℚ) (now : Nat) (input : ℚ) :
    0 ≤ (PIDAutoTune.applyOps (PIDAutoTune.reset, out0) ops).1._peakCount ∧
    (PIDAutoTune.applyOps (PIDAutoTune.reset, out0) ops).1._peakCount ≤ 4 ∧
    ((PIDAutoTune.applyOps (PIDAutoTune.reset, out0) ops).1.isRunning = true →
      (PIDAutoTune.applyOps (PIDAutoTune.reset, out0) ops).1._peakCount ≤ 3) ∧
    (PIDAutoTune.applyOps (PIDAutoTune.reset, out0) ops).1._lastInputs.length = 10 ∧
    (PIDAutoTune.applyOps (PIDAutoTune.reset, out0) ops).1._peaks.length = 4 ∧
    (((PIDAutoTune.applyOps (PIDAutoTune.reset, out0) ops).1.compute now input
        (PIDAutoTune.applyOps (PIDAutoTune.reset, out0) ops).2).1._peakCount =
        (PIDAutoTune.applyOps (PIDAutoTune.reset, out0) ops).1._peakCount ∨
      ((PIDAutoTune.applyOps (PIDAutoTune.reset, out0) ops).1.compute now input
        (PIDAutoTune.applyOps (PIDAutoTune.reset, out0) ops).2).1._peakCount =
        (PIDAutoTune.applyOps (PIDAutoTune.reset, out0) ops).1._peakCount + 1) ∧
    (((PIDAutoTune.applyOps (PIDAutoTune.reset, out0) ops).1.compute now input
        (PIDAutoTune.applyOps (PIDAutoTune.reset, out0) ops).2).1._peaks =
        (PIDAutoTune.applyOps (PIDAutoTune.reset, out0) ops).1._peaks ∨
      ∃ i : Nat, i ≤ 2 ∧
        ((PIDAutoTune.applyOps (PIDAutoTune.reset, out0) ops).1.compute now input
          (PIDAutoTune.applyOps (PIDAutoTune.reset, out0) ops).2).1._peaks =
          (PIDAutoTune.applyOps (PIDAutoTune.reset, out0) ops).1._peaks.set i now) ∧
    (((PIDAutoTune.applyOps (PIDAutoTune.reset, out0) ops).1.compute now input
        (PIDAutoTune.applyOps (PIDAutoTune.reset, out0) ops).2).2.2 = true ↔
      ((PIDAutoTune.applyOps (PIDAutoTune.reset, out0) ops).1._peakCount < 4 ∧
        ((PIDAutoTune.applyOps (PIDAutoTune.reset, out0) ops).1.compute now input
          (PIDAutoTune.applyOps (PIDAutoTune.reset, out0) ops).2).1._peakCount = 4)) := by
  obtain ⟨k1, k2, k3, k4, k5⟩ := reached_bounds ops out0
  generalize PIDAutoTune.applyOps (PIDAutoTune.reset, out0) ops = s at k1 k2 k3 k4 k5 ⊢
  obtain ⟨c1, c2, -, c4, c5⟩ := compute_effect s.1 now input s.2
  refine ⟨k3, k4, k5, k1, k2, c1, c2, ?_⟩
  constructor
  · intro hres
    obtain ⟨hr, -, -, -, -, -⟩ := compute_true s.1 now input s.2 hres
    have h3 := k5 hr
    obtain ⟨d1, -⟩ := c4 hres
    constructor
    · omega
    · rcases c1 with h | h <;> omega
  · rintro ⟨hlt, h4⟩
    cases hres : (s.1.compute now input s.2).2.2 with
    | true => rfl
    | false =>
      have := (c5 hres).2 (by omega)
      omega

/-- Witness of C24: the state built by `waveOps` is running with two confirmed peaks. -/
theorem tuner_bounds_witness :
    (PIDAutoTune.applyOps (PIDAutoTune.reset, 0) waveOps).1.isRunning = true ∧
    (PIDAutoTune.applyOps (PIDAutoTune.reset, 0) waveOps).1._peakCount ≤ 3 :=
  ⟨by decide!, (tuner_bounds waveOps 0 7500 85).2.2.1 (by decide!)⟩

theorem compute_ring (t : PIDAutoTune) (now : Nat) (input output : ℚ) :
    (t.compute now input output).1._lastInputs =
      if t._running = true ∧ ¬ usub now t._lastTime < 500 ∧ t._state ≠ 0 then
        PIDAutoTune.shiftInputs t._lastInputs input
      else t._lastInputs := by
  cases hr : t._running with
  | false =>
    rw [compute_idle t now input output hr, if_neg (fun h => absurd h.1 (by decide))]
  | true =>
    by_cases hg : usub now t._lastTime < 500
    · rw [compute_gated t now input output hg, if_neg (fun h => h.2.1 hg)]
    · by_cases hs : t._state = 0
      · rw [if_neg (fun h => h.2.2 hs), compute_steady t now input output hr hg hs]
        split_ifs <;> rfl
      · rw [if_pos ⟨rfl, hg, hs⟩]
        exact (compute_osc_fields t now input output hr hg hs).2.2.2.1

theorem take_ten_append (front ring : List ℚ) (h : 1 ≤ front.length) :
    (front ++ ring.take 9).take 10 = (front ++ ring).take 10 := by
  have hmin : min (10 - front.length) 9 = 10 - front.length := by omega
  rw [List.take_append_eq_append_take, List.take_take, hmin,
    ← List.take_append_eq_append_take]

theorem take_ten_shift (front ring : List ℚ) (x : ℚ) :
    (front ++ x :: ring.take 9).take 10 = (front ++ x :: ring).take 10 := by
  have e1 : front ++ x :: ring.take 9 = (front ++ [x]) ++ ring.take 9 := by simp
  have e2 : front ++ x :: ring = (front ++ [x]) ++ ring := by simp
  rw [e1, e2]
  exact take_ten_append (front ++ [x]) ring (by simp)

theorem runTuner_ring (samples : List (Nat × ℚ)) :
    ∀ (t : PIDAutoTune) (out : ℚ), t._lastInputs.length = 10 →
      (runTuner t out samples).1._lastInputs =
        ((executedOscSamples t out samples).reverse ++ t._lastInputs).take 10 := by
  induction samples with
  | nil =>
    intro t out h
    show t._lastInputs = (([] : List ℚ).reverse ++ t._lastInputs).take 10
    rw [List.reverse_nil, List.nil_append, List.take_of_length_le (by omega)]
  | cons s rest ih =>
    intro t out h
    obtain ⟨now, x⟩ := s
    have hrun : (runTuner t out ((now, x) :: rest)).1 =
        (runTuner (t.compute now x out).1 (t.compute now x out).2.1 rest).1 := rfl
    have hring := compute_ring t now x out
    rw [hrun]
    by_cases hex : t._running = true ∧ ¬ usub now t._lastTime < 500 ∧ t._state ≠ 0
    · rw [if_pos hex, shiftInputs_eq _ h x] at hring
      have hlen : (t.compute now x out).1._lastInputs.length = 10 := by
        rw [hring, List.length_cons, List.length_take, h]
        rfl
      have hE : executedOscSamples t out ((now, x) :: rest) =
          x :: executedOscSamples (t.compute now x out).1 (t.compute now x out).2.1 rest := by
        show (if t._running = true ∧ ¬ usub now t._lastTime < 500 ∧ t._state ≠ 0 then _
          else _) = _
        rw [if_pos hex]
      rw [ih _ _ hlen, hring, hE, List.reverse_cons, List.append_assoc, take_ten_shift]
      rfl
    · rw [if_neg hex] at hring
      have hlen : (t.compute now x out).1._lastInputs.length = 10 := by
        rw [hring]; exact h
      have hE : executedOscSamples t out ((now, x) :: rest) =
          executedOscSamples (t.compute now x out).1 (t.compute now x out).2.1 rest := by
        show (if t._running = true ∧ ¬ usub now t._lastTime < 500 ∧ t._state ≠ 0 then _
          else _) = _
        rw [if_neg hex]
      rw [ih _ _ hlen, hring, hE]

/-- C25: the sample ring holds the last measured samples, newest first.  After any
sequence of `compute()` calls on a tuner whose ring has its 10 entries, `k` of them
executed oscillation-phase steps, the ring is the first 10 entries of those `k` samples in
reverse order followed by the old ring: for every `i < min(k,10)` entry `i` is the sample
measured `i` executed steps ago, and once `k >= 10` all ten entries are samples of these
steps. -/
theorem ring_holds_last_samples (t : PIDAutoTune) (out : ℚ) (samples : List (Nat × ℚ))
    (hlen : t._lastInputs.length = 10) :
    (runTuner t out samples).1._lastInputs =
      ((executedOscSamples t out samples).reverse ++ t._lastInputs).take 10 ∧
    (∀ i : Nat, i < min (executedOscSamples t out samples).length 10 →
      (runTuner t out samples).1._lastInputs[i]? =
        (executedOscSamples t out samples).reverse[i]?) ∧
    ((executedOscSamples t out samples).length ≥ 10 →
      (runTuner t out samples).1._lastInputs =
        (executedOscSamples t out samples).reverse.take 10) := by
  have h := runTuner_ring samples t out hlen
  refine ⟨h, ?_, ?_⟩
  · intro i hi
    have h1 : i < 10 := lt_of_lt_of_le hi (min_le_right _ _)
    have h2 : i < (executedOscSamples t out samples).reverse.length := by
      rw [List.length_reverse]
      exact lt_of_lt_of_le hi (min_le_left _ _)
    rw [h, List.getElem?_take_of_lt h1, List.getElem?_append_left h2]
  · intro hk
    rw [h, List.take_append_eq_append_take, List.length_reverse]
    have : 10 - (executedOscSamples t out samples).length = 0 := by omega
    rw [this, List.take_zero, List.append_nil]

/-- Witness of C25: `armedTuner` fed the whole of `waveSignal`, seventeen of whose steps
are executed oscillation-phase steps. -/
theorem ring_holds_last_samples_witness :
    armedTuner._lastInputs.length = 10 ∧
    (executedOscSamples armedTuner 0 waveSignal).length = 17 ∧
    (runTuner armedTuner 0 waveSignal).1._lastInputs =
      (executedOscSamples armedTuner 0 waveSignal).reverse.take 10 :=
  ⟨by decide!, by decide!,
    (ring_holds_last_samples armedTuner 0 waveSignal (by decide!)).2.2 (by decide!)⟩

end BoundsAndRing

/-! ## Published value, degenerate amplitude and servo travel -/

section PublishedAndServo

variable {σ : Type}

/-- C26 (defect in the code): with the intake fully open the actuator command is 100 and
`/api/status` reports 100, but `HomeAssistant::update` applies
`map(airIntakePosition, 0, 180, 0, 100)` to the command, which is already a percentage, and
publishes 55; in general it publishes `p * 100 / 180` for the command `p`. -/
theorem fully_open_published_as_55 :
    fullyOpenController.airIntake.getCurrentOutput = 100 ∧
    fullyOpenController.statusAirIntake = 100 ∧
    fullyOpenController.publishedAirIntake = 55 ∧
    HomeAssistant.airIntakeField 100 = 55 ∧
    HomeAssistant.airIntakeField 50 = 27 ∧
    (∀ p : Int, HomeAssistant.airIntakeField p = Int.tdiv (p * 100) 180) := by
  refine ⟨by decide!, by decide!, by decide!, by decide, by decide, ?_⟩
  intro p
  simp [HomeAssistant.airIntakeField, map]

/-- C27: for some input sequence the tuner completes with its two most recent peak values
equal, so that the amplitude `0.5 * (_peak1 - _peak2)` and with it the divisor of the Ku
computation is zero.  On `tieSignal` the third confirmed peak is the minimum 80 at
8000 ms; the samples that follow are all 80, and the ninth of them (the tenth consecutive
80), whose nine predecessors are all 80, passes the maximum test and is confirmed as the
fourth peak with the same value. -/
theorem equal_peaks_zero_amplitude :
    ∃ samples : List (Nat × ℚ),
      (runTuner armedTuner 0 samples).2.2.getLast? = some true ∧
      (runTuner armedTuner 0 samples).1._peakCount = 4 ∧
      (runTuner armedTuner 0 samples).1._peak1 = (runTuner armedTuner 0 samples).1._peak2 ∧
      (0.5 * ((runTuner armedTuner 0 samples).1._peak1 -
        (runTuner armedTuner 0 samples).1._peak2)) * 3.14159 = 0 ∧
      (runTuner armedTuner 0 (samples.take 16)).1._peakCount = 3 ∧
      (runTuner armedTuner 0 (samples.take 16)).1._peakType = -1 ∧
      (runTuner armedTuner 0 (samples.take 16)).1._peak1 = 80 ∧
      (samples.drop 15).map Prod.snd = List.replicate 10 80 ∧
      (runTuner armedTuner 0 (samples.take 24)).1._peakCount = 3 ∧
      (PIDAutoTune.scanExtrema (PIDAutoTune.shiftInputs
        (runTuner armedTuner 0 (samples.take 24)).1._lastInputs 80)).1 = true :=
  ⟨tieSignal, by decide!, by decide!, by decide!, by decide!, by decide!, by decide!,
    by decide!, by decide!, by decide!, by decide!⟩

theorem update_limits (L : PIDLib σ) (a : AirIntake σ) (x : ℚ) (now libNow : Nat) :
    (a.update L x now libNow).servoMin = a.servoMin ∧
    (a.update L x now libNow).servoMax = a.servoMax := by
  unfold AirIntake.update
  dsimp only
  split_ifs <;> exact ⟨rfl, rfl⟩

theorem apply_limits (L : PIDLib σ) (a : AirIntake σ) (op : AirIntakeOp)
    (h : 0 ≤ a.servoMin ∧ a.servoMin < a.servoMax ∧ a.servoMax ≤ 180) :
    0 ≤ (a.apply L op).servoMin ∧ (a.apply L op).servoMin < (a.apply L op).servoMax ∧
    (a.apply L op).servoMax ≤ 180 := by
  cases op with
  | begin => exact h
  | update x now libNow =>
    obtain ⟨e1, e2⟩ := update_limits L a x now libNow
    show 0 ≤ (a.update L x now libNow).servoMin ∧
      (a.update L x now libNow).servoMin < (a.update L x now libNow).servoMax ∧
      (a.update L x now libNow).servoMax ≤ 180
    rw [e1, e2]
    exact h
  | setTargetTemperature x => exact h
  | startAutoTune nowInit nowStart now =>
    show 0 ≤ (a.startAutoTune L nowInit nowStart now).1.servoMin ∧
      (a.startAutoTune L nowInit nowStart now).1.servoMin <
        (a.startAutoTune L nowInit nowStart now).1.servoMax ∧
      (a.startAutoTune L nowInit nowStart now).1.servoMax ≤ 180
    unfold AirIntake.startAutoTune
    split_ifs <;> exact h
  | cancelAutoTune =>
    show 0 ≤ (a.cancelAutoTune L).servoMin ∧
      (a.cancelAutoTune L).servoMin < (a.cancelAutoTune L).servoMax ∧
      (a.cancelAutoTune L).servoMax ≤ 180
    unfold AirIntake.cancelAutoTune
    split_ifs <;> exact h
  | setPosition p => exact h
  | setServoMin m =>
    show 0 ≤ (a.setServoMin m).servoMin ∧
      (a.setServoMin m).servoMin < (a.setServoMin m).servoMax ∧
      (a.setServoMin m).servoMax ≤ 180
    unfold AirIntake.setServoMin
    split_ifs with hc
    · exact ⟨hc.1, hc.2, h.2.2⟩
    · exact h
  | setServoMax m =>
    show 0 ≤ (a.setServoMax m).servoMin ∧
      (a.setServoMax m).servoMin < (a.setServoMax m).servoMax ∧
      (a.setServoMax m).servoMax ≤ 180
    unfold AirIntake.setServoMax
    split_ifs with hc
    · exact ⟨h.1, hc.1, hc.2⟩
    · exact h

theorem applyAll_limits (L : PIDLib σ) (ops : List AirIntakeOp) :
    ∀ a : AirIntake σ, (0 ≤ a.servoMin ∧ a.servoMin < a.servoMax ∧ a.servoMax ≤ 180) →
      0 ≤ (a.applyAll L ops).servoMin ∧
      (a.applyAll L ops).servoMin < (a.applyAll L ops).servoMax ∧
      (a.applyAll L ops).servoMax ≤ 180 := by
  induction ops with
  | nil => intro a h; exact h
  | cons op rest ih =>
    intro a h
    exact ih (a.apply L op) (apply_limits L a op h)

theorem servoAngle_formula (a : AirIntake σ) (p : Int) (h : a.servoMin < a.servoMax) :
    a.servoAngle p = a.servoMin + constrain p 0 100 * (a.servoMax - a.servoMin) / 100 := by
  obtain ⟨c1, -⟩ := constrain_bounds p
  unfold AirIntake.servoAngle map
  have hnum : 0 ≤ (constrain p 0 100 - 0) * (a.servoMax - a.servoMin) :=
    Int.mul_nonneg (by omega) (by omega)
  rw [Int.tdiv_eq_ediv hnum (by decide)]
  simp only [Int.sub_zero]
  omega

/-- C29: in every `AirIntake` state reached from the constructor by any sequence of
operations (`setServoMin`, `setServoMax`, `setPosition` and `update` among them),
`0 <= servoMin < servoMax <= 180`; the angle written to the servo for a requested
percentage `p` is `servoMin + clamp(p,0,100) * (servoMax - servoMin) / 100` with integer
division, lies within `[servoMin, servoMax]`, equals `servoMin` at 0 and `servoMax` at
100, and is non-decreasing in `p`. -/
theorem servo_angle_within_travel (L : PIDLib σ) (n0 : Nat) (ops : List AirIntakeOp)
    (p q : Int) :
    0 ≤ ((AirIntake.new L n0).applyAll L ops).servoMin ∧
    ((AirIntake.new L n0).applyAll L ops).servoMin <
      ((AirIntake.new L n0).applyAll L ops).servoMax ∧
    ((AirIntake.new L n0).applyAll L ops).servoMax ≤ 180 ∧
    (((AirIntake.new L n0).applyAll L ops).setPosition p).servo =
      some (((AirIntake.new L n0).applyAll L ops).servoAngle p) ∧
    ((AirIntake.new L n0).applyAll L ops).servoAngle p =
      ((AirIntake.new L n0).applyAll L ops).servoMin +
        constrain p 0 100 * (((AirIntake.new L n0).applyAll L ops).servoMax -
          ((AirIntake.new L n0).applyAll L ops).servoMin) / 100 ∧
    ((AirIntake.new L n0).applyAll L ops).servoMin ≤
      ((AirIntake.new L n0).applyAll L ops).servoAngle p ∧
    ((AirIntake.new L n0).applyAll L ops).servoAngle p ≤
      ((AirIntake.new L n0).applyAll L ops).servoMax ∧
    ((AirIntake.new L n0).applyAll L ops).servoAngle 0 =
      ((AirIntake.new L n0).applyAll L ops).servoMin ∧
    ((AirIntake.new L n0).applyAll L ops).servoAngle 100 =
      ((AirIntake.new L n0).applyAll L ops).servoMax ∧
    (p ≤ q → ((AirIntake.new L n0).applyAll L ops).servoAngle p ≤
      ((AirIntake.new L n0).applyAll L ops).servoAngle q) := by
  obtain ⟨l1, l2, l3⟩ := applyAll_limits L ops (AirIntake.new L n0)
    ⟨by simp [AirIntake.new, DEFAULT_SERVO_MIN],
     by simp [AirIntake.new, DEFAULT_SERVO_MIN, DEFAULT_SERVO_MAX],
     by simp [AirIntake.new, DEFAULT_SERVO_MAX]⟩
  generalize (AirIntake.new L n0).applyAll L ops = a at l1 l2 l3 ⊢
  have hd : 0 < a.servoMax - a.servoMin := by omega
  have hf := servoAngle_formula a
  have hbound : ∀ r : Int, 0 ≤ constrain r 0 100 * (a.servoMax - a.servoMin) / 100 ∧
      constrain r 0 100 * (a.servoMax - a.servoMin) / 100 ≤ a.servoMax - a.servoMin := by
    intro r
    obtain ⟨c1, c2⟩ := constrain_bounds r
    have h1 : 0 ≤ constrain r 0 100 * (a.servoMax - a.servoMin) :=
      Int.mul_nonneg c1 hd.le
    have h2 : constrain r 0 100 * (a.servoMax - a.servoMin) ≤
        100 * (a.servoMax - a.servoMin) := Int.mul_le_mul_of_nonneg_right c2 hd.le
    constructor
    · exact Int.ediv_nonneg h1 (by decide)
    · have := Int.ediv_le_ediv (by decide : (0 : Int) < 100) h2
      rw [Int.mul_ediv_cancel_left _ (by decide : (100 : Int) ≠ 0)] at this
      exact this
  refine ⟨l1, l2, l3, rfl, hf p l2, ?_, ?_, ?_, ?_, ?_⟩
  · rw [hf p l2]
    have := (hbound p).1
    omega
  · rw [hf p l2]
    have := (hbound p).2
    omega
  · rw [hf 0 l2, constrain_zero]
    simp
  · rw [hf 100 l2]
    have e : constrain 100 0 100 = 100 := by decide
    rw [e, Int.mul_ediv_cancel_left _ (by decide : (100 : Int) ≠ 0)]
    omega
  · intro hpq
    rw [hf p l2, hf q l2]
    have hc : constrain p 0 100 ≤ constrain q 0 100 := by
      unfold constrain
      split_ifs <;> omega
    have hm : constrain p 0 100 * (a.servoMax - a.servoMin) ≤
        constrain q 0 100 * (a.servoMax - a.servoMin) :=
      Int.mul_le_mul_of_nonneg_right hc hd.le
    have := Int.ediv_le_ediv (by decide : (0 : Int) < 100) hm
    omega

/-- Witness of C29: after `begin()`, `setServoMin(20)` and `setServoMax(120)`, the
percentages 30 and 70 are written as the angles 50 and 90. -/
theorem servo_angle_within_travel_witness :
    (30 : Int) ≤ 70 ∧
    ((AirIntake.new specPID 0).applyAll specPID
      [AirIntakeOp.begin, AirIntakeOp.setServoMin 20, AirIntakeOp.setServoMax 120]).servoAngle 30
      ≤ ((AirIntake.new specPID 0).applyAll specPID
      [AirIntakeOp.begin, AirIntakeOp.setServoMin 20, AirIntakeOp.setServoMax 120]).servoAngle
        70 :=
  ⟨by decide,
    (servo_angle_within_travel specPID 0
      [AirIntakeOp.begin, AirIntakeOp.setServoMin 20, AirIntakeOp.setServoMax 120] 30
      70).2.2.2.2.2.2.2.2.2 (by decide)⟩

end PublishedAndServo

/-! ## Timing of an experiment -/

section ExperimentTiming

variable {σ : Type}

theorem usub_of_le (a b : Nat) (h1 : a ≤ b) (h2 : b < ULONG_RANGE) : usub b a = b - a := by
  unfold usub
  unfold ULONG_RANGE at h2 ⊢
  omega

theorem stamp_first_slot (peaks : List Nat) (hlen : peaks.length = 4) (c : Int) (now : Nat) :
    (if c > 0 ∧ c < 4 then peaks.set (c - 1).toNat now else peaks).length = 4 ∧
    (if c > 0 ∧ c < 4 then peaks.set (c - 1).toNat now else peaks).getD 0 0 =
      if c = 1 then now else peaks.getD 0 0 := by
  by_cases h : c > 0 ∧ c < 4
  · rw [if_pos h, List.length_set]
    refine ⟨hlen, ?_⟩
    by_cases h1 : c = 1
    · rw [if_pos h1, h1, List.getD_eq_getElem?_getD]
      show ((peaks.set 0 now)[0]?).getD 0 = now
      rw [List.getElem?_set_self (by omega)]
      rfl
    · rw [if_neg h1, List.getD_eq_getElem?_getD, List.getD_eq_getElem?_getD,
        List.getElem?_set_ne]
      have : 1 ≤ (c - 1).toNat := by omega
      omega
  · rw [if_neg h]
    refine ⟨hlen, ?_⟩
    have h1 : c ≠ 1 := fun e => h (by omega)
    rw [if_neg h1]

theorem compute_steady_fields (t : PIDAutoTune) (now : Nat) (input output : ℚ)
    (hr : t._running = true) (hg : ¬ usub now t._lastTime < 500) (hs : t._state = 0) :
    (t.compute now input output).1._peakCount = t._peakCount ∧
    (t.compute now input output).1._peaks = t._peaks ∧
    (t.compute now input output).1._lastTime = now ∧
    (t.compute now input output).1._running = true ∧
    (t.compute now input output).2.2 = false := by
  rw [compute_steady t now input output hr hg hs]
  split_ifs <;> exact ⟨rfl, rfl, rfl, hr, rfl⟩

theorem firstPeakStamp_keep (t : PIDAutoTune) (now : Nat) (input : ℚ) (st : Option Nat)
    (h : ¬ (t._running = true ∧ ¬ usub now t._lastTime < 500 ∧ t._state ≠ 0 ∧
      (t.recordPeak now input)._peakCount = 1)) :
    t.firstPeakStamp now input st = st := by
  unfold PIDAutoTune.firstPeakStamp
  rw [if_neg h]

theorem firstPeakStamp_set (t : PIDAutoTune) (now : Nat) (input : ℚ) (st : Option Nat)
    (h : t._running = true ∧ ¬ usub now t._lastTime < 500 ∧ t._state ≠ 0 ∧
      (t.recordPeak now input)._peakCount = 1) :
    t.firstPeakStamp now input st = some now := by
  unfold PIDAutoTune.firstPeakStamp
  rw [if_pos h]

/-- One `compute()` call under the clock assumption keeps the timing invariant, and a
call that returns true is at least 1500 ms after slot 0 of `_peaks`, which is then the
observed first peak stamp. -/
theorem compute_timing (t : PIDAutoTune) (now : Nat) (input output : ℚ) (lo c : Nat)
    (st : Option Nat) (hinv : TimingInv t lo c st)
    (hc : c ≤ now) (hnow : now < ULONG_RANGE) :
    TimingInv (t.compute now input output).1 lo now (t.firstPeakStamp now input st) ∧
    ((t.compute now input output).2.2 = true →
      1500 ≤ usub now (t._peaks.getD 0 0) ∧
      usub now (t._peaks.getD 0 0) = now - t._peaks.getD 0 0 ∧
      lo ≤ t._peaks.getD 0 0 ∧ t._peaks.getD 0 0 ≤ now ∧
      st = some (t._peaks.getD 0 0) ∧
      (t.compute now input output).1._peaks = t._peaks) := by
  obtain ⟨hlen, hinv⟩ := hinv
  unfold TimingInv
  cases hr : t._running with
  | false =>
    rw [compute_idle t now input output hr]
    exact ⟨⟨hlen, fun h => absurd (hr ▸ h : false = true) (by decide)⟩,
      fun h => absurd h (by simp)⟩
  | true =>
    obtain ⟨h1, h2, h3, h4, h5, h6, h7, h8⟩ := hinv hr
    by_cases hg : usub now t._lastTime < 500
    · rw [compute_gated t now input output hg,
        firstPeakStamp_keep t now input st (fun h => h.2.1 hg)]
      have hle : t._lastTime ≤ now := le_trans h2 hc
      exact ⟨⟨hlen, fun _ => ⟨h1, hle, h3, h4, h5, h6, h7, h8⟩⟩, fun h => absurd h (by simp)⟩
    · have hgate : t._lastTime + 500 ≤ now := by
        rw [usub_of_le _ _ (by omega) hnow] at hg
        omega
      by_cases hs : t._state = 0
      · obtain ⟨s1, s2, s3, s4, s5⟩ := compute_steady_fields t now input output hr hg hs
        rw [s1, s2, s3, s5, firstPeakStamp_keep t now input st (fun h => h.2.2.1 hs)]
        exact ⟨⟨hlen, fun _ => ⟨by omega, le_refl _, h3, h4, h5,
          fun h => by have := h6 h; omega,
          fun h => by have := h7 h; omega, fun h => by have := h8 h; omega⟩⟩,
          fun h => absurd h (by decide)⟩
      · obtain ⟨e1, -, -, -, e5, e6, e7⟩ := compute_osc_fields t now input output hr hg hs
        have hcount := recordPeak_count t now input
        by_cases hfour : (t.recordPeak now input)._peakCount ≥ 4
        · obtain ⟨f1, f2, f3⟩ := e6 hfour
          have hthree : t._peakCount = 3 := by
            rcases hcount with h | h <;> omega
          have hp := h8 hthree
          have hsub : usub now (t._peaks.getD 0 0) = now - t._peaks.getD 0 0 :=
            usub_of_le _ _ (by omega) hnow
          refine ⟨⟨by rw [f2]; exact hlen, fun h => ?_⟩, fun _ => ⟨by rw [hsub]; omega, hsub,
            (h5 (by omega)).2, by omega, (h5 (by omega)).1, f2⟩⟩
          rw [f3] at h
          exact absurd h (by decide)
        · obtain ⟨f1, f2, f3⟩ := e7 hfour
          obtain ⟨g1, g2⟩ := stamp_first_slot t._peaks hlen
            (t.recordPeak now input)._peakCount now
          rw [← f3] at g1 g2
          rw [e1, e5, g2]
          refine ⟨⟨g1, fun _ => ⟨by omega, le_refl _, by rcases hcount with h | h <;> omega,
            by omega, ?_, ?_, ?_, ?_⟩⟩, fun h => ?_⟩
          · intro hpos
            by_cases hone : (t.recordPeak now input)._peakCount = 1
            · rw [if_pos hone, firstPeakStamp_set t now input st ⟨hr, hg, hs, hone⟩]
              exact ⟨rfl, by omega⟩
            · rw [if_neg hone, firstPeakStamp_keep t now input st (fun h => hone h.2.2.2)]
              have hprev : 1 ≤ t._peakCount := by
                rcases hcount with h | h <;> omega
              exact h5 hprev
          · intro hone
            rw [if_pos hone]
          · intro htwo
            rw [if_neg (by omega)]
            rcases hcount with h | h
            · have := h7 (by omega); omega
            · have := h6 (by omega); omega
          · intro hthree
            rw [if_neg (by omega)]
            rcases hcount with h | h
            · have := h8 (by omega); omega
            · have := h7 (by omega); omega
          · rw [f1] at h
            exact absurd h (by decide)

/-- The timing invariant along a run of `compute()` calls whose clock readings are
non-decreasing and below `2^32`; the next reading `now` is not before the step timer. -/
theorem runTuner_timing (now : Nat) (x : ℚ) :
    ∀ (samples : List (Nat × ℚ)) (t : PIDAutoTune) (out : ℚ) (lo c : Nat) (st : Option Nat),
      TimingInv t lo c st → monotoneFrom c (samples ++ [(now, x)]) = true →
      ∃ c2 : Nat, c2 ≤ now ∧ now < ULONG_RANGE ∧
        TimingInv (runTuner t out samples).1 lo c2 (lastFirstPeakStep t out st samples) := by
  intro samples
  induction samples with
  | nil =>
    intro t out lo c st hinv hm
    simp only [List.nil_append, monotoneFrom, Bool.and_eq_true, decide_eq_true_eq] at hm
    exact ⟨c, hm.1.1, hm.1.2, hinv⟩
  | cons s rest ih =>
    intro t out lo c st hinv hm
    obtain ⟨n, y⟩ := s
    simp only [List.cons_append, monotoneFrom, Bool.and_eq_true, decide_eq_true_eq] at hm
    obtain ⟨⟨hcn, hn⟩, hrest⟩ := hm
    have hstep := (compute_timing t n y out lo c st hinv hcn hn).1
    exact ih (t.compute n y out).1 (t.compute n y out).2.1 lo n _ hstep hrest

theorem start_timing (ops : List TunerOp) (out0 : ℚ) (now0 : Nat) :
    TimingInv ((PIDAutoTune.applyOps (PIDAutoTune.reset, out0) ops).1.start now0)
      now0 now0 none := by
  have hlen := (reached_bounds ops out0).2.1
  have hri := applyOps_running_initialized ops (PIDAutoTune.reset, out0)
    (fun h => False.elim ((show ¬ (false = true) by decide) h))
  unfold TimingInv PIDAutoTune.start
  cases hi : (PIDAutoTune.applyOps (PIDAutoTune.reset, out0) ops).1._initialized with
  | false =>
    refine ⟨hlen, fun h => ?_⟩
    have h2 := hri h
    rw [hi] at h2
    exact absurd h2 (by decide)
  | true =>
    rw [if_pos rfl]
    refine ⟨hlen, fun _ => ⟨le_refl _, le_refl _, le_refl _,
      (show (0 : Int) ≤ 3 by decide), ?_, ?_, ?_, ?_⟩⟩
    · intro h; exact False.elim ((show ¬ ((1 : Int) ≤ 0) by decide) h)
    · intro h; exact False.elim ((show ¬ ((0 : Int) = 1) by decide) h)
    · intro h; exact False.elim ((show ¬ ((0 : Int) = 2) by decide) h)
    · intro h; exact False.elim ((show ¬ ((0 : Int) = 3) by decide) h)

theorem Tu_lower (now p0 : Nat) (h : 1500 ≤ usub now p0) :
    1.5 ≤ PIDAutoTune.Tu now p0 := by
  have hq : (1500 : ℚ) ≤ ((usub now p0 : Nat) : ℚ) := by exact_mod_cast h
  unfold PIDAutoTune.Tu
  norm_num
  linarith

/-- C28: take any tuner reached from the constructor, `start()` it at clock reading
`now0`, and feed it `compute()` calls whose clock readings are non-decreasing from `now0`
and below `2^32`.  On a call that completes the experiment, the elapsed time
`now - _peaks[0]` is computed without wrap and is at least 1500 ms, so `Tu` is at least
1.5 s and is not zero; and `_peaks[0]` lies between `now0` and `now` and is the time of
the latest executed step of this experiment on which the stamp line ran with a peak count
of 1 (the observer starts empty at `start()`), so it is not a value left over from
construction or from an earlier experiment. -/
theorem completing_step_period (ops : List TunerOp) (out0 out : ℚ) (now0 : Nat)
    (samples : List (Nat × ℚ)) (now : Nat) (x : ℚ)
    (hmono : monotoneFrom now0 (samples ++ [(now, x)]) = true)
    (hdone : ((runTuner ((PIDAutoTune.applyOps (PIDAutoTune.reset, out0) ops).1.start now0)
        out samples).1.compute now x
      (runTuner ((PIDAutoTune.applyOps (PIDAutoTune.reset, out0) ops).1.start now0)
        out samples).2.1).2.2 = true) :
    1500 ≤ usub now ((runTuner ((PIDAutoTune.applyOps (PIDAutoTune.reset, out0) ops).1.start
      now0) out samples).1._peaks.getD 0 0) ∧
    usub now ((runTuner ((PIDAutoTune.applyOps (PIDAutoTune.reset, out0) ops).1.start
      now0) out samples).1._peaks.getD 0 0) =
      now - (runTuner ((PIDAutoTune.applyOps (PIDAutoTune.reset, out0) ops).1.start
        now0) out samples).1._peaks.getD 0 0 ∧
    1.5 ≤ PIDAutoTune.Tu now ((runTuner ((PIDAutoTune.applyOps (PIDAutoTune.reset, out0)
      ops).1.start now0) out samples).1._peaks.getD 0 0) ∧
    PIDAutoTune.Tu now ((runTuner ((PIDAutoTune.applyOps (PIDAutoTune.reset, out0)
      ops).1.start now0) out samples).1._peaks.getD 0 0) ≠ 0 ∧
    now0 ≤ (runTuner ((PIDAutoTune.applyOps (PIDAutoTune.reset, out0) ops).1.start
      now0) out samples).1._peaks.getD 0 0 ∧
    (runTuner ((PIDAutoTune.applyOps (PIDAutoTune.reset, out0) ops).1.start
      now0) out samples).1._peaks.getD 0 0 ≤ now ∧
    lastFirstPeakStep ((PIDAutoTune.applyOps (PIDAutoTune.reset, out0) ops).1.start now0)
      out none samples =
      some ((runTuner ((PIDAutoTune.applyOps (PIDAutoTune.reset, out0) ops).1.start
        now0) out samples).1._peaks.getD 0 0) := by
  obtain ⟨c2, hc2, hnow, hinv⟩ := runTuner_timing now x samples _ out now0 now0 none
    (start_timing ops out0 now0) hmono
  obtain ⟨k1, k2, k3, k4, k5, -⟩ := (compute_timing _ now x _ now0 c2 _ hinv hc2 hnow).2 hdone
  have hTu := Tu_lower now _ k1
  refine ⟨k1, k2, hTu, ?_, k3, k4, k5⟩
  intro h0
  rw [h0] at hTu
  norm_num at hTu

/-- Witness of C28: the tuner initialised as `startAutoTune` does it, started at 0 and fed
`waveSignal`; the eighteenth call, at 9000 ms, completes the experiment and slot 0 of
`_peaks` holds 6500. -/
theorem completing_step_period_witness :
    monotoneFrom 0 (waveSignal.take 17 ++ [(9000, 90)]) = true ∧
    (runTuner ((PIDAutoTune.applyOps (PIDAutoTune.reset, 0)
        [TunerOp.init 0 85 85 50 1 ControlType.PI_TYPE]).1.start 0) 0
      (waveSignal.take 17)).1._peaks.getD 0 0 = 6500 ∧
    1500 ≤ usub 9000 ((runTuner ((PIDAutoTune.applyOps (PIDAutoTune.reset, 0)
        [TunerOp.init 0 85 85 50 1 ControlType.PI_TYPE]).1.start 0) 0
      (waveSignal.take 17)).1._peaks.getD 0 0) :=
  ⟨by decide!, by decide!,
    (completing_step_period [TunerOp.init 0 85 85 50 1 ControlType.PI_TYPE] 0 0 0
      (waveSignal.take 17) 9000 90 (by decide!) (by decide!)).1⟩

end ExperimentTiming

/-! ## The two rate limiters of a tuning -/

section TwoGates

variable {σ : Type}

theorem update_executed_tuning (L : PIDLib σ) (a : AirIntake σ) (x : ℚ) (now libNow : Nat)
    (ht : a.tuningInProgress = true) (hg : usub now a.lastTuneTime > PID_SAMPLE_TIME)
    (h : (a.update L x now libNow).tuningInProgress = true) :
    (a.autoTune.compute libNow x a.output).2.2 = false := by
  rw [update_tuning_executed L a x now libNow ht hg] at h
  cases hres : (a.autoTune.compute libNow x a.output).2.2 with
  | false => rfl
  | true =>
    rw [hres, if_pos rfl] at h
    exact False.elim ((show ¬ (false = true) by decide) h)

/-- One `update` tick under the clock assumption keeps the relation between the two
timers, and a tuning tick that passes the gate of `update` is not rejected by the rate
limiter of the tuner. -/
theorem update_timers (L : PIDLib σ) (a : AirIntake σ) (x : ℚ) (now libNow c d : Nat)
    (hinv : TunerClockInv d a c) (hd : d ≤ 500) (h1 : c ≤ now) (h2 : now ≤ libNow)
    (h3 : libNow ≤ now + d) (h4 : libNow < ULONG_RANGE) :
    TunerClockInv d (a.update L x now libNow) libNow ∧
    (a.tuningInProgress = true → usub now a.lastTuneTime > PID_SAMPLE_TIME →
      ¬ usub libNow a.autoTune._lastTime < 500 ∧
      (a.update L x now libNow).autoTune = (a.autoTune.compute libNow x a.output).1 ∧
      (a.update L x now libNow).autoTune._lastTime = libNow ∧
      (a.update L x now libNow).lastTuneTime = now) := by
  have hexec : a.tuningInProgress = true → usub now a.lastTuneTime > PID_SAMPLE_TIME →
      ¬ usub libNow a.autoTune._lastTime < 500 ∧
      (a.update L x now libNow).autoTune = (a.autoTune.compute libNow x a.output).1 ∧
      (a.update L x now libNow).autoTune._lastTime = libNow ∧
      (a.update L x now libNow).lastTuneTime = now := by
    intro ht hg
    obtain ⟨i1, i2, i3, i4⟩ := hinv ht
    obtain ⟨-, -, e3, e4⟩ := update_executed_output L a x now libNow ht hg
    have hnow : now < ULONG_RANGE := lt_of_le_of_lt h2 h4
    rw [usub_of_le _ _ (by omega) hnow] at hg
    unfold PID_SAMPLE_TIME at hg
    have hng : ¬ usub libNow a.autoTune._lastTime < 500 := by
      rw [usub_of_le _ _ (by omega) h4]
      omega
    refine ⟨hng, e3, ?_, e4⟩
    rw [e3]
    exact (compute_executed a.autoTune libNow x a.output i1 hng).1
  refine ⟨?_, hexec⟩
  intro ht2
  have ht := (update_keeps_tuning L a x now libNow ht2).1
  obtain ⟨i1, i2, i3, i4⟩ := hinv ht
  by_cases hg : usub now a.lastTuneTime > PID_SAMPLE_TIME
  · obtain ⟨-, e3, e5, e4⟩ := hexec ht hg
    have hf := update_executed_tuning L a x now libNow ht hg ht2
    have hrun := compute_false_running a.autoTune libNow x a.output i1 hf
    rw [e5, e4, e3]
    exact ⟨hrun, h2, h3, le_refl _⟩
  · rw [update_tuning_gated L a x now libNow ht (Nat.not_lt.mp hg)]
    have k1 : a.lastTuneTime ≤ libNow := by omega
    have k2 : a.autoTune._lastTime ≤ libNow := by omega
    exact ⟨i1, k1, i3, k2⟩

/-- The relation between the two timers along a run of `update` ticks. -/
theorem updates_timers (L : PIDLib σ) (d : Nat) (hd : d ≤ 500) (x : ℚ) (now libNow : Nat) :
    ∀ (ticks : List (ℚ × Nat × Nat)) (a : AirIntake σ) (c : Nat),
      TunerClockInv d a c → tickClockOk d c (ticks ++ [(x, now, libNow)]) = true →
      ∃ c2 : Nat, c2 ≤ now ∧ now ≤ libNow ∧ libNow ≤ now + d ∧ libNow < ULONG_RANGE ∧
        TunerClockInv d (a.updates L ticks) c2 := by
  intro ticks
  induction ticks with
  | nil =>
    intro a c hinv hm
    simp only [List.nil_append, tickClockOk, Bool.and_eq_true, decide_eq_true_eq] at hm
    exact ⟨c, hm.1.1.1.1, hm.1.1.1.2, hm.1.1.2, hm.1.2, hinv⟩
  | cons t rest ih =>
    intro a c hinv hm
    simp only [List.cons_append, tickClockOk, Bool.and_eq_true, decide_eq_true_eq] at hm
    obtain ⟨⟨⟨⟨m1, m2⟩, m3⟩, m4⟩, hrest⟩ := hm
    exact ih (a.update L t.1 t.2.1 t.2.2) t.2.2
      (update_timers L a t.1 t.2.1 t.2.2 c d hinv hd m1 m2 m3 m4).1 hrest

theorem startAutoTune_timers (L : PIDLib σ) (a : AirIntake σ) (nowInit nowStart now d : Nat)
    (h0 : a.tuningInProgress = false) (hs : nowStart ≤ now) :
    TunerClockInv d (a.startAutoTune L nowInit nowStart now).1 now := by
  rw [startAutoTune_idle L a nowInit nowStart now h0]
  obtain ⟨r1, -, -, -, r5⟩ := init_start_fields a.autoTune nowInit nowStart a.input
    a.setpoint PID_OUTPUT_STEP PID_NOISE_BAND AirIntake.controlType
  intro _
  have k1 : ((a.autoTune.init nowInit a.input a.setpoint PID_OUTPUT_STEP PID_NOISE_BAND
      AirIntake.controlType).start nowStart)._lastTime ≤ now + d := by rw [r5]; omega
  have k2 : ((a.autoTune.init nowInit a.input a.setpoint PID_OUTPUT_STEP PID_NOISE_BAND
      AirIntake.controlType).start nowStart)._lastTime ≤ now := by rw [r5]; exact hs
  exact ⟨r1, le_refl _, k1, k2⟩

/-- C30 as stated does not hold: after `startAutoTune` at time 0, an `update` tick that
reads the clock as 1001 and whose tuner reads it as 1002 leaves the tuner's step timer
(1002) above `lastTuneTime` (1001); and when the tuner reads 1700 in that tick, the next
tick at 2002 passes the gate of `update` (2002 - 1001 > 1000) but is rejected by the rate
limiter of the tuner (2002 - 1700 < 500), which keeps its step timer at 1700.  Both
sequences of clock readings are non-decreasing and below `2^32`. -/
theorem step_timer_exceeds_lastTuneTime :
    tickClockOk 1 0 [(85, 1001, 1002)] = true ∧
    (tuningIntake.update specPID 85 1001 1002).tuningInProgress = true ∧
    (tuningIntake.update specPID 85 1001 1002).lastTuneTime = 1001 ∧
    (tuningIntake.update specPID 85 1001 1002).autoTune._lastTime = 1002 ∧
    tickClockOk 699 0 [(85, 1001, 1700), (85, 2002, 2002)] = true ∧
    (tuningIntake.update specPID 85 1001 1700).tuningInProgress = true ∧
    usub 2002 (tuningIntake.update specPID 85 1001 1700).lastTuneTime > PID_SAMPLE_TIME ∧
    usub 2002 (tuningIntake.update specPID 85 1001 1700).autoTune._lastTime < 500 ∧
    ((tuningIntake.update specPID 85 1001 1700).update specPID 85 2002 2002).lastTuneTime
      = 2002 ∧
    ((tuningIntake.update specPID 85 1001 1700).update specPID 85 2002 2002).autoTune._lastTime
      = 1700 := by
  decide!

/-- C30, amended: let `startAutoTune` succeed on any `AirIntake` (its clock readings being
`nowStart` inside `start()` and then `now0`), followed by `update` ticks whose clock
readings are non-decreasing and below `2^32` and in which the tuner reads the clock at
most `d` ms, `d` at most 500, after `update` did.  Then at any later point where the tuning
is still in progress the tuner is running and its step timer is at most `lastTuneTime + d`
(so not above `lastTuneTime` when the two readings of a tick coincide), and a tick that
passes the gate of `update` is not rejected by the rate limiter of the tuner: the tuner
after the tick is the result of `compute()`, its step timer is the reading inside the
tuner, and `lastTuneTime` is the reading of `update`. -/
theorem gated_tick_executes_tuner_step (L : PIDLib σ) (a0 : AirIntake σ)
    (nowInit nowStart now0 d : Nat) (ticks : List (ℚ × Nat × Nat)) (x : ℚ)
    (now libNow : Nat)
    (h0 : a0.tuningInProgress = false) (hs : nowStart ≤ now0) (hd : d ≤ 500)
    (hclock : tickClockOk d now0 (ticks ++ [(x, now, libNow)]) = true)
    (ht : ((a0.startAutoTune L nowInit nowStart now0).1.updates L ticks).tuningInProgress
      = true)
    (hg : usub now ((a0.startAutoTune L nowInit nowStart now0).1.updates L ticks).lastTuneTime
      > PID_SAMPLE_TIME) :
    ((a0.startAutoTune L nowInit nowStart now0).1.updates L ticks).autoTune._running = true ∧
    ((a0.startAutoTune L nowInit nowStart now0).1.updates L ticks).autoTune._lastTime ≤
      ((a0.startAutoTune L nowInit nowStart now0).1.updates L ticks).lastTuneTime + d ∧
    ¬ usub libNow
      ((a0.startAutoTune L nowInit nowStart now0).1.updates L ticks).autoTune._lastTime
      < 500 ∧
    (((a0.startAutoTune L nowInit nowStart now0).1.updates L ticks).update L x now
      libNow).autoTune =
      (((a0.startAutoTune L nowInit nowStart now0).1.updates L ticks).autoTune.compute libNow
        x ((a0.startAutoTune L nowInit nowStart now0).1.updates L ticks).output).1 ∧
    (((a0.startAutoTune L nowInit nowStart now0).1.updates L ticks).update L x now
      libNow).autoTune._lastTime = libNow ∧
    (((a0.startAutoTune L nowInit nowStart now0).1.updates L ticks).update L x now
      libNow).lastTuneTime = now := by
  obtain ⟨c2, m1, m2, m3, m4, hinv⟩ := updates_timers L d hd x now libNow ticks _ now0
    (startAutoTune_timers L a0 nowInit nowStart now0 d h0 hs) hclock
  obtain ⟨i1, -, i3, -⟩ := hinv ht
  obtain ⟨e1, e2, e3, e4⟩ := (update_timers L _ x now libNow c2 d hinv hd m1 m2 m3 m4).2 ht hg
  exact ⟨i1, i3, e1, e2, e3, e4⟩

/-- Witness of C30 (amended): the `AirIntake` after `begin()`, tuning started at time 0,
two ticks in which the tuner reads the clock 1 ms after `update`, then a third at
4500/4502. -/
theorem gated_tick_executes_tuner_step_witness :
    ((AirIntake.new specPID 0).begin specPID).tuningInProgress = false ∧
    tickClockOk 2 0 ([(85, 1500, 1501), (90, 3000, 3001)] ++ [(85, 4500, 4502)]) = true ∧
    ((((AirIntake.new specPID 0).begin specPID).startAutoTune specPID 0 0 0).1.updates
      specPID [(85, 1500, 1501), (90, 3000, 3001)]).tuningInProgress = true ∧
    usub 4500 ((((AirIntake.new specPID 0).begin specPID).startAutoTune specPID 0 0 0).1.updates
      specPID [(85, 1500, 1501), (90, 3000, 3001)]).lastTuneTime > PID_SAMPLE_TIME ∧
    (((((AirIntake.new specPID 0).begin specPID).startAutoTune specPID 0 0 0).1.updates
      specPID [(85, 1500, 1501), (90, 3000, 3001)]).update specPID 85 4500
      4502).autoTune._lastTime = 4502 :=
  ⟨by decide!, by decide!, by decide!, by decide!,
    (gated_tick_executes_tuner_step specPID ((AirIntake.new specPID 0).begin specPID)
      0 0 0 2 [(85, 1500, 1501), (90, 3000, 3001)] 85 4500 4502
      (by decide!) (by decide) (by decide) (by decide!) (by decide!) (by decide!)).2.2.2.2.1⟩

end TwoGates

/-! ## Completion on the fourth confirmed peak -/

section FourthPeak

end FourthPeak

end Boiler
